import Mathlib

/-!
# Stop-and-wait ARQ of `sliding_window_protocol` : a shallow embedding

Source: `src/sliding_window_protocol/core/sliding_window.{h,c}`.  The CRC tool and the
client of the TCP chat are embedded further down, in the namespaces `CrcAlgorithm` and
`TcpChat`, each with its own conventions.

Modelling conventions.

* A byte is a natural number (below 256 for a well-formed object).  A C string is the
  list of its bytes; reading at or past the end of the list yields the terminating NUL.
* `int` and `unsigned int` are 4 bytes wide and the structs have no padding
  (`sizeof(data_frame_t) = 1040`, `sizeof(ack_frame_t) = 12`).  `unsigned int` arithmetic
  wraps modulo `2^32`; the `int` counters are integers (signed overflow is undefined in C and
  is not reached by the runs considered here).
* `double` values are rationals.
* Pointers are always valid, so the `NULL` guards at the head of each function are omitted,
  and `printf` output is not part of the state.
* `rand()` and the clock are inputs: an environment `env_t` gives the value of the k-th call
  of `rand()` and the outcome of the elapsed-time comparison at the k-th poll of `is_timeout`.
  The `clock_t` fields (`timer_start`, `start_time`, `end_time`) are therefore not stored.
* `usleep` only consumes time and has no effect on the state.
* The static variables of `sliding_window.c` are fields of `world_t`, next to the caller's
  `statistics_t` and the number of `rand()` calls and timer polls made so far.
* A division by zero (`rand() % 0` in `simulate_network_delay`) is the fault
  `fault_t.division_by_zero`; the main loop is run with a fuel bound, and running out of it
  is `fault_t.out_of_fuel`.
* A `memcpy` that writes past the array it is given has no defined behaviour; it is the
  fault `fault_t.out_of_bounds`.
* A `size_t` stored in an `int` keeps its low 32 bits, read as two's complement.
-/

namespace SlidingWindow

/-! ## Constants -/

/-- The constant `MAX_DATA_SIZE` (1024), the size of the data array of a frame. -/
def MAX_DATA_SIZE : Nat := 1024

/-- The constant `MAX_SEQ_NUM` (2): sequence numbers are 0 and 1. -/
def MAX_SEQ_NUM : Int := 2

/-- The constant `MAX_RETRIES` (3), documented as the maximum number of retransmissions. -/
def MAX_RETRIES : Int := 3

/-- The constant `RAND_MAX` of `<stdlib.h>` (the value of glibc). -/
def RAND_MAX : Nat := 2147483647

/-- The value of `sizeof(unsigned int)`. -/
def sizeof_unsigned_int : Nat := 4

/-- The value of `sizeof(data_frame_t)`: three 4-byte fields, the data array, the checksum. -/
def sizeof_data_frame_t : Nat := 4 + 4 + 4 + MAX_DATA_SIZE + 4

/-- The value of `sizeof(ack_frame_t)`. -/
def sizeof_ack_frame_t : Nat := 4 + 4 + 4

/-! ## Data model (sliding_window.h) -/

/-- The enum `frame_type_t`. -/
inductive frame_type_t where
  | DATA_FRAME
  | ACK_FRAME
  | NAK_FRAME
  deriving DecidableEq, Repr

/-- The integer value of an enumerator of `frame_type_t`. -/
def frame_type_t.toInt : frame_type_t → Int
  | .DATA_FRAME => 0
  | .ACK_FRAME => 1
  | .NAK_FRAME => 2

/-- The enum `protocol_state_t`. -/
inductive protocol_state_t where
  | WAITING_FOR_CALL
  | WAITING_FOR_ACK
  | WAITING_FOR_DATA
  deriving DecidableEq, Repr

/-- The struct `data_frame_t`; `data` holds the `MAX_DATA_SIZE` bytes of `char data[]`. -/
structure data_frame_t where
  type : frame_type_t
  seq_num : Int
  data_length : Int
  data : List Nat
  checksum : Nat
  deriving DecidableEq, Repr

/-- The struct `ack_frame_t`. -/
structure ack_frame_t where
  type : frame_type_t
  ack_num : Int
  checksum : Nat
  deriving DecidableEq, Repr

/-- The struct `network_config_t`. -/
structure network_config_t where
  loss_probability : ℚ
  min_delay_ms : Int
  max_delay_ms : Int

/-- The struct `sender_state_t` (without `timer_start`). -/
structure sender_state_t where
  state : protocol_state_t
  seq_num : Int
  current_frame : data_frame_t
  retry_count : Int
  deriving DecidableEq, Repr

/-- The struct `receiver_state_t`. -/
structure receiver_state_t where
  state : protocol_state_t
  expected_seq : Int
  deriving DecidableEq, Repr

/-- The struct `statistics_t` (without `start_time` and `end_time`). -/
structure statistics_t where
  frames_sent : Int
  frames_received : Int
  acks_sent : Int
  acks_received : Int
  retransmissions : Int
  frames_lost : Int
  deriving DecidableEq, Repr

/-- The inputs the code takes from outside: `rand k` is the value of the k-th call of
`rand()`, `timer_expired k` the outcome of `elapsed_ms > TIMEOUT_MS` at the k-th poll. -/
structure env_t where
  rand : Nat → Nat
  timer_expired : Nat → Bool

/-- The caller's statistics, the four static variables of `sliding_window.c`, and how many
values of `rand()` and of the timer have been consumed. -/
structure world_t where
  stats : statistics_t
  network_data_buffer : data_frame_t
  network_ack_buffer : ack_frame_t
  data_in_transit : Bool
  ack_in_transit : Bool
  rand_calls : Nat
  timer_polls : Nat
  deriving DecidableEq, Repr

/-- The ways a run yields no result: a division by zero, a loop that needs more iterations
than the fuel, and a write outside the object it is meant for. -/
inductive fault_t where
  | division_by_zero
  | out_of_fuel
  | out_of_bounds
  deriving DecidableEq, Repr

/-! ## Memory images -/

/-- The four bytes of an `unsigned int`, least significant first. -/
def uint_bytes (u : Nat) : List Nat :=
  [u % 256, u / 256 % 256, u / 65536 % 256, u / 16777216 % 256]

/-- The four bytes of an `int` (two's complement), least significant first. -/
def int_bytes (x : Int) : List Nat :=
  uint_bytes (x % 4294967296).toNat

/-- The bytes of a `data_frame_t` object in declaration order. -/
def data_frame_bytes (f : data_frame_t) : List Nat :=
  int_bytes f.type.toInt ++ int_bytes f.seq_num ++ int_bytes f.data_length ++ f.data
    ++ uint_bytes f.checksum

/-- The bytes of an `ack_frame_t` object in declaration order. -/
def ack_frame_bytes (a : ack_frame_t) : List Nat :=
  int_bytes a.type.toInt ++ int_bytes a.ack_num ++ uint_bytes a.checksum

/-- The function `strlen`: the number of bytes before the first NUL. -/
def strlen (s : List Nat) : Nat :=
  (s.takeWhile (fun b => b != 0)).length

/-- The conversion of a `size_t` value to `int`, as in `int message_len = strlen(message)`:
the low 32 bits of the value, read as two's complement.  (For a value that does not fit the
result is implementation-defined; this is the result with gcc and clang.) -/
def size_t_to_int (n : Nat) : Int :=
  let low : Nat := n % 4294967296
  if low < 2147483648 then (low : Int) else (low : Int) - 4294967296

/-- The call `memcpy(dst, src, n)` into an array `dst`, for `n` up to the size of the
array: the first `n` bytes are replaced by those of `src`.  The callers here never pass a
larger `n`: `create_data_frame` reports a fault first. -/
def memcpy (dst src : List Nat) (n : Nat) : List Nat :=
  (src.take n ++ dst.drop n).take dst.length

/-! ## Initialisation -/

/-- The frame left by `memset(&frame, 0, sizeof(data_frame_t))`. -/
def zero_data_frame : data_frame_t :=
  { type := .DATA_FRAME, seq_num := 0, data_length := 0,
    data := List.replicate MAX_DATA_SIZE 0, checksum := 0 }

/-- An acknowledgement object filled with zero bytes. -/
def zero_ack_frame : ack_frame_t :=
  { type := .DATA_FRAME, ack_num := 0, checksum := 0 }

/-- The function `init_sender`. -/
def init_sender : sender_state_t :=
  { state := .WAITING_FOR_CALL, seq_num := 0, retry_count := 0,
    current_frame := zero_data_frame }

/-- The function `init_receiver`. -/
def init_receiver : receiver_state_t :=
  { state := .WAITING_FOR_DATA, expected_seq := 0 }

/-- The function `init_statistics`. -/
def init_statistics : statistics_t :=
  { frames_sent := 0, frames_received := 0, acks_sent := 0, acks_received := 0,
    retransmissions := 0, frames_lost := 0 }

/-- The function `init_network_config`: 10% loss, delay 50..200 ms. -/
def init_network_config : network_config_t :=
  { loss_probability := 1 / 10, min_delay_ms := 50, max_delay_ms := 200 }

/-! ## Frame functions -/

/-- The function `calculate_checksum`: the wrapping sum of the first `length` bytes. -/
def calculate_checksum (bytes : List Nat) (length : Nat) : Nat :=
  (bytes.take length).foldl (fun sum b => (sum + b) % 4294967296) 0

/-- The function `verify_checksum`. -/
def verify_checksum (bytes : List Nat) (length : Nat) (expected_checksum : Nat) : Bool :=
  calculate_checksum bytes length == expected_checksum

/-- The statements of `create_data_frame` on the object `frame`, for a `length` from 0 to
`MAX_DATA_SIZE`: the header fields are set, `length` bytes are copied, `data[length]` is
cleared, and the checksum of everything before the checksum field is stored.  For
`length = MAX_DATA_SIZE` the copy fills the array and the cleared byte is the first byte of
the checksum field, which the last assignment overwrites. -/
def filled_data_frame (frame : data_frame_t) (seq_num : Int) (data : List Nat)
    (length : Nat) : data_frame_t :=
  let f1 : data_frame_t :=
    { frame with type := .DATA_FRAME, seq_num := seq_num, data_length := length }
  let f2 : data_frame_t := { f1 with data := (memcpy f1.data data length).set length 0 }
  { f2 with
    checksum := calculate_checksum (data_frame_bytes f2)
      (sizeof_data_frame_t - sizeof_unsigned_int) }

/-- The function `create_data_frame`, writing into the object `frame`.  It is a `void`
function without a length check: it has no error result.  `length` is an `int`.  For a
`length` from 0 to `MAX_DATA_SIZE` the object is left as `filled_data_frame` describes.
For a negative `length`, which `memcpy` takes as a huge `size_t`, and for a `length` above
`MAX_DATA_SIZE` the copy writes past the data array: the behaviour is undefined and the
model reports the fault `out_of_bounds`. -/
def create_data_frame (frame : data_frame_t) (seq_num : Int) (data : List Nat)
    (length : Int) : Except fault_t data_frame_t :=
  if length < 0 ∨ length > MAX_DATA_SIZE then .error .out_of_bounds
  else .ok (filled_data_frame frame seq_num data length.toNat)

/-- The function `create_ack_frame`, writing into the object `frame`. -/
def create_ack_frame (frame : ack_frame_t) (ack_num : Int) : ack_frame_t :=
  let f1 : ack_frame_t := { frame with type := .ACK_FRAME, ack_num := ack_num }
  { f1 with
    checksum := calculate_checksum (ack_frame_bytes f1)
      (sizeof_ack_frame_t - sizeof_unsigned_int) }

/-! ## Network simulation -/

/-- The comparison of `simulate_frame_loss` for the value `r` of `rand()`:
`(double)r / RAND_MAX < loss_probability`. -/
def frame_lost (config : network_config_t) (r : Nat) : Bool :=
  let random_value : ℚ := (r : ℚ) / (RAND_MAX : ℚ)
  decide (random_value < config.loss_probability)

/-- The function `simulate_frame_loss`: draws one value of `rand()` and compares. -/
def simulate_frame_loss (E : env_t) (config : network_config_t) (w : world_t) :
    Bool × world_t :=
  let lost : Bool := frame_lost config (E.rand w.rand_calls)
  (lost, { w with rand_calls := w.rand_calls + 1 })

/-- The delay computed by `simulate_network_delay` from the value `r` of `rand()`:
`min_delay_ms + (r % (max_delay_ms - min_delay_ms + 1))`, a fault when the modulus is 0. -/
def network_delay (config : network_config_t) (r : Nat) : Except fault_t Int :=
  if config.max_delay_ms - config.min_delay_ms + 1 = 0 then
    .error .division_by_zero
  else
    .ok (config.min_delay_ms
      + Int.tmod (r : Int) (config.max_delay_ms - config.min_delay_ms + 1))

/-- The function `simulate_network_delay`: draws one value of `rand()`, computes the delay
and sleeps for it. -/
def simulate_network_delay (E : env_t) (config : network_config_t) (w : world_t) :
    Except fault_t world_t :=
  match network_delay config (E.rand w.rand_calls) with
  | .error e => .error e
  | .ok _ => .ok { w with rand_calls := w.rand_calls + 1 }

/-! ## Protocol functions -/

/-- The function `send_data_frame`. -/
def send_data_frame (E : env_t) (frame : data_frame_t) (config : network_config_t)
    (w : world_t) : Except fault_t (Bool × world_t) :=
  let w1 : world_t := { w with stats := { w.stats with frames_sent := w.stats.frames_sent + 1 } }
  match simulate_network_delay E config w1 with
  | .error e => .error e
  | .ok w2 =>
    let (lost, w3) := simulate_frame_loss E config w2
    if lost then
      .ok (false, { w3 with stats := { w3.stats with frames_lost := w3.stats.frames_lost + 1 } })
    else
      .ok (true, { w3 with network_data_buffer := frame, data_in_transit := true })

/-- The function `receive_data_frame`; `frame` is the caller's object, returned as the
second component. -/
def receive_data_frame (frame : data_frame_t) (w : world_t) :
    Bool × data_frame_t × world_t :=
  if !w.data_in_transit then
    (false, frame, w)
  else
    let frame : data_frame_t := w.network_data_buffer
    let w1 : world_t :=
      { w with
        data_in_transit := false
        stats := { w.stats with frames_received := w.stats.frames_received + 1 } }
    let expected_checksum := frame.checksum
    let calculated_checksum :=
      calculate_checksum (data_frame_bytes { frame with checksum := 0 })
        (sizeof_data_frame_t - sizeof_unsigned_int)
    if calculated_checksum ≠ expected_checksum then
      (false, frame, w1)
    else
      (true, frame, w1)

/-- The function `send_ack_frame`. -/
def send_ack_frame (E : env_t) (ack : ack_frame_t) (config : network_config_t)
    (w : world_t) : Except fault_t (Bool × world_t) :=
  let w1 : world_t := { w with stats := { w.stats with acks_sent := w.stats.acks_sent + 1 } }
  match simulate_network_delay E config w1 with
  | .error e => .error e
  | .ok w2 =>
    let (lost, w3) := simulate_frame_loss E config w2
    if lost then
      .ok (false, { w3 with stats := { w3.stats with frames_lost := w3.stats.frames_lost + 1 } })
    else
      .ok (true, { w3 with network_ack_buffer := ack, ack_in_transit := true })

/-- The function `receive_ack_frame` (its parameter `ack` is never read). -/
def receive_ack_frame (sender : sender_state_t) (w : world_t) : Bool × world_t :=
  if !w.ack_in_transit then
    (false, w)
  else
    let received_ack : ack_frame_t := w.network_ack_buffer
    let w1 : world_t :=
      { w with
        ack_in_transit := false
        stats := { w.stats with acks_received := w.stats.acks_received + 1 } }
    let expected_checksum := received_ack.checksum
    let received_ack : ack_frame_t := { received_ack with checksum := 0 }
    let calculated_checksum :=
      calculate_checksum (ack_frame_bytes received_ack)
        (sizeof_ack_frame_t - sizeof_unsigned_int)
    if calculated_checksum ≠ expected_checksum then
      (false, w1)
    else if received_ack.ack_num = sender.seq_num then
      (true, w1)
    else
      (false, w1)

/-! ## Timeout handling -/

/-- The function `is_timeout`: false outside `WAITING_FOR_ACK`, otherwise the outcome of
the elapsed-time comparison, which consumes one timer poll. -/
def is_timeout (E : env_t) (sender : sender_state_t) (w : world_t) : Bool × world_t :=
  if sender.state ≠ .WAITING_FOR_ACK then
    (false, w)
  else
    (E.timer_expired w.timer_polls, { w with timer_polls := w.timer_polls + 1 })

/-- The function `reset_timer`: stores the clock in `timer_start`, which is not part of the
modelled state. -/
def reset_timer (sender : sender_state_t) : sender_state_t := sender

/-- The function `handle_timeout`. -/
def handle_timeout (E : env_t) (sender : sender_state_t) (config : network_config_t)
    (w : world_t) : Except fault_t (sender_state_t × world_t) :=
  let sender : sender_state_t := { sender with retry_count := sender.retry_count + 1 }
  let w1 : world_t :=
    { w with stats := { w.stats with retransmissions := w.stats.retransmissions + 1 } }
  if sender.retry_count ≥ MAX_RETRIES then
    .ok ({ sender with state := .WAITING_FOR_CALL }, w1)
  else
    match send_data_frame E sender.current_frame config w1 with
    | .error e => .error e
    | .ok (_, w2) => .ok (reset_timer sender, w2)

/-! ## The main transmission function -/

/-- The local variables of `transmit_message` together with the world. -/
structure loop_state_t where
  sender : sender_state_t
  receiver : receiver_state_t
  w : world_t
  deriving DecidableEq, Repr

/-- The outcome of one pass through the body of the main loop. -/
inductive step_t where
  | next (s : loop_state_t)
  | ret (result : Bool) (s : loop_state_t)

/-- The receiver's part of a `WAITING_FOR_ACK` iteration (lines 442-463): take the frame
in transit, and when it verifies and carries the expected sequence number, acknowledge it
and advance `expected_seq`.  The locals `received_frame` and `ack` are uninitialised in C
and are written before they are read; they start here as zero objects. -/
def receiver_step (E : env_t) (config : network_config_t) (s : loop_state_t) :
    Except fault_t loop_state_t :=
  let (received, received_frame, w1) := receive_data_frame zero_data_frame s.w
  if received then
    if received_frame.seq_num = s.receiver.expected_seq then
      let ack : ack_frame_t :=
        create_ack_frame zero_ack_frame received_frame.seq_num
      match send_ack_frame E ack config w1 with
      | .error e => .error e
      | .ok (_, w2) =>
        .ok { s with
              receiver :=
                { s.receiver with
                  expected_seq := Int.tmod (s.receiver.expected_seq + 1) MAX_SEQ_NUM }
              w := w2 }
    else
      .ok { s with w := w1 }
  else
    .ok { s with w := w1 }

/-- The sender's part of a `WAITING_FOR_ACK` iteration (lines 465-487): return success on
a correct acknowledgement, otherwise poll the timer and handle a timeout. -/
def sender_step (E : env_t) (config : network_config_t) (s : loop_state_t) :
    Except fault_t step_t :=
  let (acked, w1) := receive_ack_frame s.sender s.w
  if acked then
    .ok (.ret true
      { s with
        sender :=
          { s.sender with
            state := .WAITING_FOR_CALL
            seq_num := Int.tmod (s.sender.seq_num + 1) MAX_SEQ_NUM
            retry_count := 0 }
        w := w1 })
  else
    let (timed_out, w2) := is_timeout E s.sender w1
    if timed_out then
      match handle_timeout E s.sender config w2 with
      | .error e => .error e
      | .ok (sender, w3) =>
        if sender.retry_count ≥ MAX_RETRIES then
          .ok (.ret false { s with sender := sender, w := w3 })
        else
          .ok (.next { s with sender := sender, w := w3 })
    else
      .ok (.next { s with w := w2 })

/-- The body of the main loop: the `switch` on the sender's state. -/
def transmit_iteration (E : env_t) (config : network_config_t) (s : loop_state_t) :
    Except fault_t step_t :=
  match s.sender.state with
  | .WAITING_FOR_CALL =>
    let sender : sender_state_t := { s.sender with state := .WAITING_FOR_ACK }
    match send_data_frame E sender.current_frame config s.w with
    | .error e => .error e
    | .ok (_, w1) => .ok (.next { s with sender := reset_timer sender, w := w1 })
  | .WAITING_FOR_ACK =>
    match receiver_step E config s with
    | .error e => .error e
    | .ok s1 => sender_step E config s1
  | .WAITING_FOR_DATA => .ok (.ret false s)

/-- The main loop `while (sender.state != WAITING_FOR_CALL || sender.retry_count == 0)`,
run for at most `fuel` iterations; leaving the loop by its condition returns false. -/
def transmit_loop (E : env_t) (config : network_config_t) :
    Nat → loop_state_t → Except fault_t (Bool × loop_state_t)
  | 0, _ => .error .out_of_fuel
  | fuel + 1, s =>
    if s.sender.state ≠ .WAITING_FOR_CALL ∨ s.sender.retry_count = 0 then
      match transmit_iteration E config s with
      | .error e => .error e
      | .ok (.ret result s1) => .ok (result, s1)
      | .ok (.next s1) => transmit_loop E config fuel s1
    else
      .ok (false, s)

/-- The function `transmit_message`, returning its result together with the final values
of its local variables and of the world.  `message_len` is an `int` that receives the
`size_t` value `strlen(message)`: it is exact for strings shorter than `2^31` bytes, and is
negative or too small for longer ones. -/
def transmit_message_locals (fuel : Nat) (E : env_t) (message : List Nat)
    (config : network_config_t) (w : world_t) : Except fault_t (Bool × loop_state_t) :=
  let sender : sender_state_t := init_sender
  let receiver : receiver_state_t := init_receiver
  let message_len : Int := size_t_to_int (strlen message)
  if message_len = 0 then
    .ok (false, { sender := sender, receiver := receiver, w := w })
  else if message_len > MAX_DATA_SIZE - 1 then
    .ok (false, { sender := sender, receiver := receiver, w := w })
  else
    match create_data_frame sender.current_frame sender.seq_num message message_len with
    | .error e => .error e
    | .ok frame =>
      let sender : sender_state_t := { sender with current_frame := frame }
      transmit_loop E config fuel { sender := sender, receiver := receiver, w := w }

/-- The timer expires at the poll number `start + gap` after answering "not yet" at the
`gap` polls from number `start` on. -/
def expires_after (E : env_t) (start gap : Nat) : Prop :=
  (∀ j, j < gap → E.timer_expired (start + j) = false) ∧ E.timer_expired (start + gap) = true

/-- Bit `k` of the byte `b` inverted. -/
def flip_bit (b k : Nat) : Nat := b ^^^ 2 ^ k

/-- The function `transmit_message` as its caller sees it: the result and the world. -/
def transmit_message (fuel : Nat) (E : env_t) (message : List Nat)
    (config : network_config_t) (w : world_t) : Except fault_t (Bool × world_t) :=
  match transmit_message_locals fuel E message config w with
  | .error e => .error e
  | .ok (result, s) => .ok (result, s.w)

/-! ## Concrete inputs -/

/-- The world before the first call: zeroed static variables, fresh statistics. -/
def initial_world : world_t :=
  { stats := init_statistics, network_data_buffer := zero_data_frame,
    network_ack_buffer := zero_ack_frame, data_in_transit := false, ack_in_transit := false,
    rand_calls := 0, timer_polls := 0 }

/-- The string "ABC". -/
def message_ABC : List Nat := [65, 66, 67]

/-- A network without loss and with delays of 1 to 5 ms. -/
def ideal_config : network_config_t :=
  { loss_probability := 0, min_delay_ms := 1, max_delay_ms := 5 }

/-- A network with loss probability one half and delays of 1 to 5 ms. -/
def half_loss_config : network_config_t :=
  { loss_probability := 1 / 2, min_delay_ms := 1, max_delay_ms := 5 }

/-- An environment in which `rand()` always returns 0 and the timer has always expired:
with a positive loss probability every frame is dropped, with loss probability 0 none. -/
def zero_rand_env : env_t :=
  { rand := fun _ => 0, timer_expired := fun _ => true }

/-- An environment in which `rand()` returns 0 at its call number 3, which decides the fate
of the first acknowledgement, and `RAND_MAX` otherwise, and the timer has always expired. -/
def ack_lost_env : env_t :=
  { rand := fun k => if k = 3 then 0 else RAND_MAX, timer_expired := fun _ => true }

/-- The string "AAA". -/
def message_AAA : List Nat := [65, 65, 65]

/-- A message of `2^32 + 3` bytes 'A': its length, stored in an `int`, is 3. -/
def wrapping_message : List Nat := List.replicate 4294967299 65

/-- A message of `2^31` bytes 'A': its length, stored in an `int`, is `-2^31`. -/
def negative_length_message : List Nat := List.replicate 2147483648 65

/-- The frame `create_data_frame` builds for "ABC" with sequence number 0 and length 3. -/
def frame_ABC : data_frame_t := filled_data_frame zero_data_frame 0 message_ABC 3

/-- The initial world with `frame_ABC` in transit. -/
def world_ABC_in_transit : world_t :=
  { initial_world with network_data_buffer := frame_ABC, data_in_transit := true }

/-- The initial world with `frame_ABC` in transit after the lowest bit of its first
payload byte was inverted. -/
def world_ABC_corrupted : world_t :=
  { initial_world with
    network_data_buffer :=
      { frame_ABC with data := frame_ABC.data.set 0 (flip_bit (frame_ABC.data.getD 0 0) 0) }
    data_in_transit := true }

/-- The world after "ABC" was sent over the ideal network from the initial world. -/
def world_after_ABC : world_t :=
  { initial_world with
    stats := { initial_world.stats with
               frames_sent := initial_world.stats.frames_sent + 1
               frames_received := initial_world.stats.frames_received + 1
               acks_sent := initial_world.stats.acks_sent + 1
               acks_received := initial_world.stats.acks_received + 1 }
    network_data_buffer := filled_data_frame init_sender.current_frame
      init_sender.seq_num message_ABC (strlen message_ABC)
    network_ack_buffer := create_ack_frame zero_ack_frame 0
    data_in_transit := false
    ack_in_transit := false
    rand_calls := initial_world.rand_calls + 4 }

/-- A sender that waits for an acknowledgement after two timeouts. -/
def sender_after_two_timeouts : sender_state_t :=
  { init_sender with state := .WAITING_FOR_ACK, retry_count := 2 }

/-! ## Observing a run -/

/-- The values of the local variables of `transmit_message` when the main loop is entered
for a valid message. -/
def initial_loop_state (message : List Nat) (w : world_t) : loop_state_t :=
  { sender :=
      { init_sender with
        current_frame := filled_data_frame init_sender.current_frame init_sender.seq_num
          message (strlen message) }
    receiver := init_receiver
    w := w }

/-- The loop states in which an iteration of the main loop starts, in order, for at most
`fuel` iterations. -/
def loop_states (E : env_t) (config : network_config_t) :
    Nat → loop_state_t → List loop_state_t
  | 0, _ => []
  | fuel + 1, s =>
    if s.sender.state ≠ .WAITING_FOR_CALL ∨ s.sender.retry_count = 0 then
      s :: (match transmit_iteration E config s with
            | .ok (.next s1) => loop_states E config fuel s1
            | _ => [])
    else
      []

/-- The data frame the receiver takes from the network in the iteration that starts in
state `s`, if it takes one: `receive_data_frame` is called in the `WAITING_FOR_ACK` case and
copies the buffer when a frame is in transit. -/
def frame_taken (s : loop_state_t) : Option data_frame_t :=
  if s.sender.state = .WAITING_FOR_ACK ∧ s.w.data_in_transit = true then
    some (receive_data_frame zero_data_frame s.w).2.1
  else
    none

/-- All data frames the receiver takes during at most `fuel` iterations from state `s`. -/
def frames_taken (E : env_t) (config : network_config_t) (fuel : Nat) (s : loop_state_t) :
    List data_frame_t :=
  (loop_states E config fuel s).filterMap frame_taken

/-- The increase of every counter from `before` to `after`. -/
def stats_delta (before after : statistics_t) : statistics_t :=
  { frames_sent := after.frames_sent - before.frames_sent
    frames_received := after.frames_received - before.frames_received
    acks_sent := after.acks_sent - before.acks_sent
    acks_received := after.acks_received - before.acks_received
    retransmissions := after.retransmissions - before.retransmissions
    frames_lost := after.frames_lost - before.frames_lost }

/-- What a caller observes of a call started with statistics `before`: the result and the
increase of the counters, or the fault. -/
def observed (before : statistics_t) (r : Except fault_t (Bool × world_t)) :
    Except fault_t (Bool × statistics_t) :=
  match r with
  | .error e => .error e
  | .ok (result, w) => .ok (result, stats_delta before w.stats)

/-- The outcomes of `rand()` and of the timer from world `w1` on under `E1` are those from
world `w2` on under `E2`. -/
def same_outcomes (E1 : env_t) (w1 : world_t) (E2 : env_t) (w2 : world_t) : Prop :=
  (∀ k, E1.rand (w1.rand_calls + k) = E2.rand (w2.rand_calls + k))
    ∧ (∀ k, E1.timer_expired (w1.timer_polls + k) = E2.timer_expired (w2.timer_polls + k))

/-- Two worlds with the same network: the same slots are occupied, and an occupied slot
holds the same frame in both. -/
def same_network (w1 w2 : world_t) : Prop :=
  w1.data_in_transit = w2.data_in_transit ∧ w1.ack_in_transit = w2.ack_in_transit
    ∧ (w1.data_in_transit = true → w1.network_data_buffer = w2.network_data_buffer)
    ∧ (w1.ack_in_transit = true → w1.network_ack_buffer = w2.network_ack_buffer)

/-- Two worlds that differ only in what earlier calls left behind: the counters of `w2` are
those of `w1` plus `d`, the network is the same, and the coming outcomes of `rand()` and of
the timer are the same. -/
def worlds_agree (E1 E2 : env_t) (d : statistics_t) (w1 w2 : world_t) : Prop :=
  same_network w1 w2 ∧ same_outcomes E1 w1 E2 w2 ∧ stats_delta w1.stats w2.stats = d

/-- Two loop states with the same local variables and agreeing worlds. -/
def states_agree (E1 E2 : env_t) (d : statistics_t) (s1 s2 : loop_state_t) : Prop :=
  s1.sender = s2.sender ∧ s1.receiver = s2.receiver ∧ worlds_agree E1 E2 d s1.w s2.w

/-- Two passes through the loop body that end the same way in agreeing states. -/
def steps_agree (E1 E2 : env_t) (d : statistics_t) : step_t → step_t → Prop
  | .next s1, .next s2 => states_agree E1 E2 d s1 s2
  | .ret r1 s1, .ret r2 s2 => r1 = r2 ∧ states_agree E1 E2 d s1 s2
  | _, _ => False

/-- Two outcomes that are the same fault or two results related by `r`. -/
def results_agree {α : Type} (r : α → α → Prop) :
    Except fault_t α → Except fault_t α → Prop
  | .ok a, .ok b => r a b
  | .error e1, .error e2 => e1 = e2
  | _, _ => False

/-- A network that is configured to lose every frame. -/
def certain_loss_config : network_config_t :=
  { loss_probability := 1, min_delay_ms := 1, max_delay_ms := 5 }

/-- An environment in which `rand()` always returns `RAND_MAX`. -/
def max_rand_env : env_t :=
  { rand := fun _ => RAND_MAX, timer_expired := fun _ => true }

/-! ## Reordered payloads -/

/-- The string "AB". -/
def message_AB : List Nat := [65, 66]

/-- The string "BA". -/
def message_BA : List Nat := [66, 65]

/-- The frame `create_data_frame` builds for "AB" with sequence number 0. -/
def frame_AB : data_frame_t := filled_data_frame zero_data_frame 0 message_AB 2

/-- The frame `create_data_frame` builds for "BA" with sequence number 0. -/
def frame_BA : data_frame_t := filled_data_frame zero_data_frame 0 message_BA 2

/-- The initial world with `frame_AB` in transit after its two payload bytes were
transposed: the data bytes are those of `frame_BA`, the checksum is still that of
`frame_AB`. -/
def world_AB_transposed : world_t :=
  { initial_world with
    network_data_buffer := { frame_AB with data := frame_BA.data }
    data_in_transit := true }

/-! ## Observing the calls made in an iteration -/

/-- Whether `handle_timeout` is called in the iteration of the main loop that starts in
`s`: the sender waits for an acknowledgement, `receive_ack_frame` returns false and
`is_timeout` returns true. -/
def timeout_handled (E : env_t) (config : network_config_t) (s : loop_state_t) : Bool :=
  match s.sender.state with
  | .WAITING_FOR_ACK =>
    match receiver_step E config s with
    | .error _ => false
    | .ok s1 =>
      !(receive_ack_frame s1.sender s1.w).1
        && (is_timeout E s1.sender (receive_ack_frame s1.sender s1.w).2).1
  | _ => false

/-- The world in which `handle_timeout`, called with `sender` in world `w`, calls
`send_data_frame`, if it calls it: after the increment of `retry_count` the limit is not
reached, and `retransmissions` has been counted. -/
def handle_timeout_send_world (sender : sender_state_t) (w : world_t) : Option world_t :=
  if sender.retry_count + 1 ≥ MAX_RETRIES then none
  else
    some { w with stats := { w.stats with retransmissions := w.stats.retransmissions + 1 } }

/-- The world in which `send_data_frame` is called during the iteration that starts in
`s`, if it is called: at once in `WAITING_FOR_CALL`, and from `handle_timeout` in
`WAITING_FOR_ACK`. -/
def data_send_world (E : env_t) (config : network_config_t) (s : loop_state_t) :
    Option world_t :=
  match s.sender.state with
  | .WAITING_FOR_CALL => some s.w
  | .WAITING_FOR_ACK =>
    match receiver_step E config s with
    | .error _ => none
    | .ok s1 =>
      if (receive_ack_frame s1.sender s1.w).1 then none
      else if (is_timeout E s1.sender (receive_ack_frame s1.sender s1.w).2).1 then
        handle_timeout_send_world s1.sender
          (is_timeout E s1.sender (receive_ack_frame s1.sender s1.w).2).2
      else none
  | .WAITING_FOR_DATA => none

/-- The world in which `send_ack_frame` is called during the iteration that starts in `s`,
if it is called: the receiver has taken a frame that verifies and carries the expected
sequence number. -/
def ack_send_world (s : loop_state_t) : Option world_t :=
  if s.sender.state = .WAITING_FOR_ACK
      ∧ (receive_data_frame zero_data_frame s.w).1 = true
      ∧ (receive_data_frame zero_data_frame s.w).2.1.seq_num = s.receiver.expected_seq then
    some (receive_data_frame zero_data_frame s.w).2.2
  else none

/-- Whether the iteration that starts in `s` sends an acknowledgement that the network
delivers: the result of the call of `send_ack_frame` made in it. -/
def ack_delivered (E : env_t) (config : network_config_t) (s : loop_state_t) : Bool :=
  match ack_send_world s with
  | none => false
  | some v =>
    match send_ack_frame E
        (create_ack_frame zero_ack_frame (receive_data_frame zero_data_frame s.w).2.1.seq_num)
        config v with
    | .ok (delivered, _) => delivered
    | .error _ => false

/-! ## Invariants of the main loop -/

/-- What holds of the sender whenever an iteration of the main loop starts, in a call that
was entered with statistics `b`: before the first transmission nothing has been counted;
afterwards the frame has been transmitted once more than `handle_timeout` has run, and
`retry_count`, which counts those runs, is below `MAX_RETRIES`. -/
def sender_invariant (b : statistics_t) (s : loop_state_t) : Prop :=
  ((s.sender.state = .WAITING_FOR_CALL ∧ s.sender.retry_count = 0
      ∧ s.w.stats.frames_sent = b.frames_sent)
    ∨ (s.sender.state = .WAITING_FOR_ACK
      ∧ s.w.stats.frames_sent = b.frames_sent + s.sender.retry_count + 1))
    ∧ 0 ≤ s.sender.retry_count ∧ s.sender.retry_count < MAX_RETRIES
    ∧ s.w.stats.retransmissions = b.retransmissions + s.sender.retry_count

/-- What holds of the network and of the receiver whenever an iteration of the main loop
starts, in a call that was entered with statistics `b` and with both slots empty: the
sender's frame is well formed and carries sequence number 0, the ack slot is empty, a frame
in the data slot is the sender's frame, the receiver has acknowledged at most once, and
every frame counted as sent is counted as received or lost or is still in the data slot. -/
def network_invariant (b : statistics_t) (s : loop_state_t) : Prop :=
  s.sender.current_frame.data.length = MAX_DATA_SIZE
    ∧ s.sender.current_frame.checksum
        = calculate_checksum (data_frame_bytes s.sender.current_frame)
            (sizeof_data_frame_t - sizeof_unsigned_int)
    ∧ s.sender.current_frame.seq_num = 0
    ∧ s.sender.seq_num = 0
    ∧ (s.sender.state = .WAITING_FOR_CALL ∨ s.sender.state = .WAITING_FOR_ACK)
    ∧ (s.sender.state = .WAITING_FOR_CALL → s.w.data_in_transit = false)
    ∧ s.w.ack_in_transit = false
    ∧ (s.w.data_in_transit = true → s.w.network_data_buffer = s.sender.current_frame)
    ∧ ((s.receiver.expected_seq = 0 ∧ s.w.stats.acks_sent = b.acks_sent
          ∧ s.w.stats.frames_received = b.frames_received)
        ∨ (s.receiver.expected_seq = 1 ∧ s.w.stats.acks_sent = b.acks_sent + 1
          ∧ b.frames_received + 1 ≤ s.w.stats.frames_received))
    ∧ s.w.stats.acks_received = b.acks_received
    ∧ (s.w.stats.frames_sent - b.frames_sent) + (s.w.stats.acks_sent - b.acks_sent)
        = (s.w.stats.frames_received - b.frames_received)
          + (s.w.stats.frames_lost - b.frames_lost)
          + (if s.w.data_in_transit = true then 1 else 0)
    ∧ (s.w.stats.frames_received - b.frames_received)
          + (if s.w.data_in_transit = true then 1 else 0)
        ≤ s.w.stats.frames_sent - b.frames_sent

/-- What holds when a call that was entered with statistics `b` and with both slots empty
returns `result` in world `w`: the slots are empty again, every frame counted as sent is
counted as received or as lost, at most one acknowledgement was sent, and it was received
exactly when the result is true. -/
def run_outcome (b : statistics_t) (result : Bool) (w : world_t) : Prop :=
  w.data_in_transit = false ∧ w.ack_in_transit = false
    ∧ (w.stats.frames_sent - b.frames_sent) + (w.stats.acks_sent - b.acks_sent)
        = (w.stats.frames_received - b.frames_received)
          + (w.stats.acks_received - b.acks_received)
          + (w.stats.frames_lost - b.frames_lost)
    ∧ w.stats.frames_received - b.frames_received ≤ w.stats.frames_sent - b.frames_sent
    ∧ w.stats.acks_received - b.acks_received ≤ w.stats.acks_sent - b.acks_sent
    ∧ w.stats.acks_sent - b.acks_sent ≤ w.stats.frames_received - b.frames_received
    ∧ 0 ≤ w.stats.acks_sent - b.acks_sent ∧ w.stats.acks_sent - b.acks_sent ≤ 1
    ∧ w.stats.acks_received - b.acks_received = (if result = true then 1 else 0)

end SlidingWindow

namespace CrcAlgorithm

/-! # The CRC teaching tool (`crc_algorithm`)

Source: `src/crc_algorithm/core/crc_algorithm.{h,c}`.  A `uint32_t` is a natural number
below `2^32` and every operation that can leave that range is reduced by `u32`; a
`uint8_t` is a natural number below 256.  The shift `1 << n` of an `int` is taken as the
bit pattern `2^n` reduced to 32 bits.  `printf` output is not part of the state. -/

/-- The constant `CRC_TABLE_SIZE`. -/
def CRC_TABLE_SIZE : Nat := 256

/-- The reduction of a value to `uint32_t`. -/
def u32 (x : Nat) : Nat := x % 4294967296

/-- The enum `crc_type_t`. -/
inductive crc_type_t where
  | CRC_8
  | CRC_16
  | CRC_16_CCITT
  | CRC_32
  deriving DecidableEq, Repr

/-- The struct `crc_config_t` (without `name`). -/
structure crc_config_t where
  type : crc_type_t
  polynomial : Nat
  width : Nat
  initial_value : Nat
  final_xor_value : Nat
  reflect_in : Bool
  reflect_out : Bool
  deriving DecidableEq, Repr

/-- The struct `crc_table_t`; `table` holds the `CRC_TABLE_SIZE` entries. -/
structure crc_table_t where
  table : List Nat
  is_generated : Bool
  deriving DecidableEq, Repr

/-- The array `CRC_PRESETS`, indexed by the enumerators of `crc_type_t`. -/
def CRC_PRESETS : crc_type_t → crc_config_t
  | .CRC_8 =>
    { type := .CRC_8, polynomial := 0x07, width := 8, initial_value := 0x00,
      final_xor_value := 0x00, reflect_in := false, reflect_out := false }
  | .CRC_16 =>
    { type := .CRC_16, polynomial := 0x8005, width := 16, initial_value := 0x0000,
      final_xor_value := 0x0000, reflect_in := true, reflect_out := true }
  | .CRC_16_CCITT =>
    { type := .CRC_16_CCITT, polynomial := 0x1021, width := 16, initial_value := 0xFFFF,
      final_xor_value := 0x0000, reflect_in := false, reflect_out := false }
  | .CRC_32 =>
    { type := .CRC_32, polynomial := 0x04C11DB7, width := 32, initial_value := 0xFFFFFFFF,
      final_xor_value := 0xFFFFFFFF, reflect_in := true, reflect_out := true }

/-- The function `reflect_bits`: for `i` from 0 to `width - 1`, bit `i` of `data` sets bit
`width - 1 - i` of the result. -/
def reflect_bits (data width : Nat) : Nat :=
  (List.range width).foldl
    (fun reflection i =>
      if (data >>> i) &&& 1 ≠ 0 then reflection ||| u32 (1 <<< (width - 1 - i))
      else reflection)
    0

/-- The body of the outer loop of `generate_crc_table`: the value stored in `table[i]`. -/
def crc_table_entry (config : crc_config_t) (i : Nat) : Nat :=
  let polynomial : Nat :=
    if config.width < 32 then u32 (config.polynomial <<< (32 - config.width))
    else config.polynomial
  let crc : Nat := i
  let crc : Nat := if config.reflect_in then reflect_bits crc 8 else crc
  let crc : Nat :=
    if config.width < 32 then u32 (crc <<< (32 - 8)) else u32 (crc <<< (config.width - 8))
  let crc : Nat :=
    (List.range 8).foldl
      (fun crc _ =>
        if config.width < 32 then
          if crc &&& 0x80000000 ≠ 0 then u32 (crc <<< 1) ^^^ polynomial else u32 (crc <<< 1)
        else
          if crc &&& u32 (1 <<< (config.width - 1)) ≠ 0 then u32 (crc <<< 1) ^^^ polynomial
          else u32 (crc <<< 1))
      crc
  let crc : Nat := if config.width < 32 then crc >>> (32 - config.width) else crc
  let crc : Nat := if config.reflect_in then reflect_bits crc config.width else crc
  u32 (crc &&& (1 <<< config.width - 1))

/-- The function `generate_crc_table`. -/
def generate_crc_table (config : crc_config_t) : crc_table_t :=
  { table := (List.range CRC_TABLE_SIZE).map (crc_table_entry config), is_generated := true }

/-- One pass of the bit loop of `calculate_crc_bitwise` for bit number `bit` of `byte`. -/
def crc_bitwise_bit (config : crc_config_t) (byte crc bit : Nat) : Nat :=
  let data_bit : Bool := (byte >>> bit) &&& 1 ≠ 0
  let shifted : Bool × Nat :=
    if config.width = 8 then ((crc >>> 7) &&& 1 ≠ 0, u32 (crc <<< 1) &&& 0xFF)
    else if config.width = 16 then ((crc >>> 15) &&& 1 ≠ 0, u32 (crc <<< 1) &&& 0xFFFF)
    else if config.width = 32 then ((crc >>> 31) &&& 1 ≠ 0, u32 (crc <<< 1))
    else (false, crc)
  let msb : Bool := shifted.1
  let crc : Nat := shifted.2
  let crc : Nat := if data_bit then crc ||| 1 else crc
  if msb then crc ^^^ config.polynomial else crc

/-- The body of the byte loop of `calculate_crc_bitwise`. -/
def crc_bitwise_byte (config : crc_config_t) (crc data_byte : Nat) : Nat :=
  let byte : Nat := if config.reflect_in then reflect_bits data_byte 8 % 256 else data_byte
  [7, 6, 5, 4, 3, 2, 1, 0].foldl (crc_bitwise_bit config byte) crc

/-- The function `calculate_crc_bitwise` on the first `length` bytes of `data`. -/
def calculate_crc_bitwise (data : List Nat) (length : Nat) (config : crc_config_t) : Nat :=
  if length = 0 then 0
  else
    let crc : Nat := (data.take length).foldl (crc_bitwise_byte config) config.initial_value
    let crc : Nat := if config.reflect_out then reflect_bits crc config.width else crc
    crc ^^^ config.final_xor_value

/-- The body of the byte loop of `calculate_crc_table`. -/
def crc_table_byte (config : crc_config_t) (table : crc_table_t) (crc data_byte : Nat) :
    Nat :=
  let byte : Nat := if config.reflect_in then reflect_bits data_byte 8 % 256 else data_byte
  let crc : Nat :=
    if config.width = 8 then table.table.getD (crc ^^^ byte) 0
    else if config.width = 16 then
      if config.reflect_in then (crc >>> 8) ^^^ table.table.getD ((crc ^^^ byte) &&& 0xFF) 0
      else u32 (crc <<< 8) ^^^ table.table.getD (((crc >>> 8) ^^^ byte) &&& 0xFF) 0
    else if config.width = 32 then
      if config.reflect_in then (crc >>> 8) ^^^ table.table.getD ((crc ^^^ byte) &&& 0xFF) 0
      else u32 (crc <<< 8) ^^^ table.table.getD (((crc >>> 24) ^^^ byte) &&& 0xFF) 0
    else crc
  if config.width < 32 then crc &&& (1 <<< config.width - 1) else crc

/-- The function `calculate_crc_table` on the first `length` bytes of `data`. -/
def calculate_crc_table (data : List Nat) (length : Nat) (config : crc_config_t)
    (table : crc_table_t) : Nat :=
  if !table.is_generated || length = 0 then 0
  else
    let crc : Nat := (data.take length).foldl (crc_table_byte config table) config.initial_value
    let crc : Nat :=
      if config.reflect_out && !config.reflect_in then reflect_bits crc config.width else crc
    crc ^^^ config.final_xor_value

/-- The string "123456789". -/
def check_string : List Nat := [49, 50, 51, 52, 53, 54, 55, 56, 57]

end CrcAlgorithm

namespace TcpChat

/-! # The TCP chat programs (`tcp_chat_system`)

Source: `src/tcp_chat_system/core/tcp_chat.{h,c}`.  Only the argument checks and the state
initialisation are modelled; no socket is involved in them. -/

/-- The constant `MAX_USERNAME_SIZE`. -/
def MAX_USERNAME_SIZE : Nat := 32

/-- The constant `INET_ADDRSTRLEN` of `<netinet/in.h>`. -/
def INET_ADDRSTRLEN : Nat := 16

/-- The struct `client_state_t` (without `server_addr`, which `init_client` only zeroes). -/
structure client_state_t where
  socket_fd : Int
  username : List Nat
  is_connected : Bool
  connect_time : Int
  server_ip : List Nat
  server_port : Int
  deriving DecidableEq, Repr

/-- The function `is_valid_port`. -/
def is_valid_port (port : Int) : Bool := port > 0 && port < 65536

/-- The call `strncpy(dst, src, n)` into an array `dst`: the bytes of the string `src` up
to its NUL, at most `n` of them, then NUL bytes up to `n` bytes in all. -/
def strncpy (dst src : List Nat) (n : Nat) : List Nat :=
  let s : List Nat := (src.takeWhile (fun b => b != 0)).take n
  ((s ++ List.replicate (n - s.length) 0) ++ dst.drop n).take dst.length

/-- The function `is_valid_ip`: whether `inet_pton(AF_INET, ip, ...)` returns 1.  The
library call is the parameter `inet_pton`. -/
def is_valid_ip (inet_pton : List Nat → Bool) (ip : List Nat) : Bool := inet_pton ip

/-- The function `init_client`; the second component is the state left in `*client`. -/
def init_client (inet_pton : List Nat → Bool) (client : client_state_t)
    (server_ip : List Nat) (port : Int) (username : List Nat) : Bool × client_state_t :=
  if !is_valid_port port then (false, client)
  else
    let client : client_state_t :=
      { socket_fd := 0, username := List.replicate MAX_USERNAME_SIZE 0, is_connected := false,
        connect_time := 0, server_ip := List.replicate INET_ADDRSTRLEN 0, server_port := 0 }
    let client : client_state_t :=
      { client with socket_fd := -1, is_connected := false, server_port := port }
    let client : client_state_t :=
      { client with
        server_ip := (strncpy client.server_ip server_ip (INET_ADDRSTRLEN - 1)).set
          (INET_ADDRSTRLEN - 1) 0 }
    let client : client_state_t :=
      { client with
        username := (strncpy client.username username (MAX_USERNAME_SIZE - 1)).set
          (MAX_USERNAME_SIZE - 1) 0 }
    if !is_valid_ip inet_pton server_ip then (false, client)
    else (true, client)

/-- One decimal field of a dotted address: one to three digits with a value up to 255. -/
def decimal_octet (field : List Nat) : Bool :=
  decide (1 ≤ field.length) && decide (field.length ≤ 3)
    && field.all (fun c => decide (48 ≤ c) && decide (c ≤ 57))
    && decide (field.foldl (fun value c => value * 10 + (c - 48)) 0 ≤ 255)

/-- A stand-in for the library call `inet_pton(AF_INET, ip, ...) == 1`: four decimal
fields separated by dots. -/
def dotted_quad (ip : List Nat) : Bool :=
  let fields := ip.splitOn 46
  decide (fields.length = 4) && fields.all decimal_octet

/-- The string "127.0.0.1". -/
def localhost_ip : List Nat := [49, 50, 55, 46, 48, 46, 48, 46, 49]

/-- The string "invalid.ip". -/
def invalid_ip : List Nat := [105, 110, 118, 97, 108, 105, 100, 46, 105, 112]

/-- The string "test_user". -/
def test_user : List Nat := [116, 101, 115, 116, 95, 117, 115, 101, 114]

/-- A client object filled with zero bytes. -/
def zero_client : client_state_t :=
  { socket_fd := 0, username := List.replicate MAX_USERNAME_SIZE 0, is_connected := false,
    connect_time := 0, server_ip := List.replicate INET_ADDRSTRLEN 0, server_port := 0 }

/-- The constant `MAX_MESSAGE_SIZE`. -/
def MAX_MESSAGE_SIZE : Nat := 1024

/-- The enumerator `MSG_LOGIN`, the first of `message_type_t`. -/
def MSG_LOGIN : Int := 0

/-- The enumerator `MSG_HEARTBEAT`, the last of `message_type_t`. -/
def MSG_HEARTBEAT : Int := 5

/-- The struct `chat_message_t`; the field `type` holds any value of the integer type
behind the enum, `username` the `MAX_USERNAME_SIZE` bytes and `content` the
`MAX_MESSAGE_SIZE` bytes of the two arrays. -/
structure chat_message_t where
  type : Int
  username : List Nat
  content : List Nat
  timestamp : Int
  client_id : Int
  deriving DecidableEq, Repr

/-- The string stored in a `char` array: the bytes before the first NUL. -/
def c_string (s : List Nat) : List Nat := s.takeWhile (fun b => b != 0)

/-- The function `strlen`.  For an array without a NUL the C call reads past the array; the
value here is then the size of the array. -/
def strlen (s : List Nat) : Nat := (c_string s).length

/-- The function `create_message`, writing into the object `message`; `now` is the value of
`time(NULL)`, and a null `username` or `content` is `none`. -/
def create_message (now : Int) (message : chat_message_t) (type : Int)
    (username content : Option (List Nat)) (client_id : Int) : chat_message_t :=
  let message : chat_message_t :=
    { message with type := type, client_id := client_id, timestamp := now }
  let message : chat_message_t :=
    match username with
    | some u =>
      { message with
        username := (strncpy message.username u (MAX_USERNAME_SIZE - 1)).set
          (MAX_USERNAME_SIZE - 1) 0 }
    | none => { message with username := message.username.set 0 0 }
  match content with
  | some c =>
    { message with
      content := (strncpy message.content c (MAX_MESSAGE_SIZE - 1)).set
        (MAX_MESSAGE_SIZE - 1) 0 }
  | none => { message with content := message.content.set 0 0 }

/-- The function `validate_message`. -/
def validate_message (message : chat_message_t) : Bool :=
  if message.type < MSG_LOGIN ∨ message.type > MSG_HEARTBEAT then false
  else
    let username_len : Nat := strlen message.username
    if username_len = 0 ∨ username_len ≥ MAX_USERNAME_SIZE then false
    else if strlen message.content ≥ MAX_MESSAGE_SIZE then false
    else true

/-- The string "Hello, World!". -/
def hello_world : List Nat := [72, 101, 108, 108, 111, 44, 32, 87, 111, 114, 108, 100, 33]

/-- A message object filled with zero bytes. -/
def zero_message : chat_message_t :=
  { type := 0, username := List.replicate MAX_USERNAME_SIZE 0,
    content := List.replicate MAX_MESSAGE_SIZE 0, timestamp := 0, client_id := 0 }

end TcpChat

namespace UdpChat

/-! # UDP chat (udp_chat.h, udp_chat.c)

The message checksum and the client table of the server.  Strings are lists of bytes; the
value of `time(NULL)` is a parameter `now`; log output is not modelled. -/

/-- The constant `MAX_MESSAGE_SIZE`. -/
def MAX_MESSAGE_SIZE : Nat := 1024

/-- The constant `MAX_USERNAME_SIZE`. -/
def MAX_USERNAME_SIZE : Nat := 64

/-- The constant `MAX_CLIENTS`. -/
def MAX_CLIENTS : Nat := 10

/-- The value of `sizeof(unsigned int)`, also the size of an enum object. -/
def sizeof_unsigned_int : Nat := 4

/-- The enum `message_type_t`. -/
inductive message_type_t where
  | MSG_JOIN
  | MSG_LEAVE
  | MSG_CHAT
  | MSG_USER_LIST
  | MSG_SERVER_INFO
  | MSG_ERROR
  deriving DecidableEq, Repr

/-- The integer value of an enumerator. -/
def message_type_t.toNat : message_type_t → Nat
  | .MSG_JOIN => 0
  | .MSG_LEAVE => 1
  | .MSG_CHAT => 2
  | .MSG_USER_LIST => 3
  | .MSG_SERVER_INFO => 4
  | .MSG_ERROR => 5

/-- The struct `chat_message_t`: `username` holds the `MAX_USERNAME_SIZE` bytes and
`content` the `MAX_MESSAGE_SIZE` bytes of the two arrays. -/
structure chat_message_t where
  type : message_type_t
  username : List Nat
  content : List Nat
  timestamp : Int
  checksum : Nat
  deriving DecidableEq, Repr

/-! ## Object layout

`calculate_checksum` reads the message object byte by byte, so the layout of the struct
matters.  The layout is the usual one: every member at the next offset that is a multiple of
its alignment, the struct padded to a multiple of its strictest alignment.  `int`, the enum
and `unsigned int` take 4 bytes; the size of `time_t`, which is also its alignment, is the
parameter `sizeof_time_t`: 8 on the 64-bit systems, 4 on a 32-bit system with the old
`time_t`. -/

/-- The size of `time_t` on a 64-bit system (LP64). -/
def LP64 : Nat := 8

/-- The size of `time_t` on a 32-bit system with a 32-bit `time_t` (ILP32). -/
def ILP32 : Nat := 4

/-- The least multiple of `a` that is at least `n`. -/
def align_up (n a : Nat) : Nat := (n + a - 1) / a * a

/-- The value of `offsetof(chat_message_t, timestamp)`. -/
def offsetof_timestamp (sizeof_time_t : Nat) : Nat :=
  align_up (sizeof_unsigned_int + MAX_USERNAME_SIZE + MAX_MESSAGE_SIZE) sizeof_time_t

/-- The value of `offsetof(chat_message_t, checksum)`. -/
def offsetof_checksum (sizeof_time_t : Nat) : Nat :=
  offsetof_timestamp sizeof_time_t + sizeof_time_t

/-- The value of `sizeof(chat_message_t)`. -/
def sizeof_chat_message_t (sizeof_time_t : Nat) : Nat :=
  align_up (offsetof_checksum sizeof_time_t + sizeof_unsigned_int)
    (max sizeof_unsigned_int sizeof_time_t)

/-- The `n` bytes of the unsigned value `v`, least significant first.  The checksum is a sum
of bytes, so the byte order does not enter it. -/
def value_bytes (n v : Nat) : List Nat :=
  (List.range n).map (fun i => v / 256 ^ i % 256)

/-- The bytes of a `time_t` (two's complement). -/
def time_bytes (sizeof_time_t : Nat) (t : Int) : List Nat :=
  value_bytes sizeof_time_t (t % 256 ^ sizeof_time_t).toNat

/-- The bytes of a `chat_message_t` object: the members at their offsets, and zero bytes in
the padding before `timestamp` and after `checksum`, as in an object that began as
`chat_message_t msg = {0}`. -/
def message_bytes (sizeof_time_t : Nat) (msg : chat_message_t) : List Nat :=
  value_bytes sizeof_unsigned_int msg.type.toNat ++ msg.username ++ msg.content
    ++ List.replicate (offsetof_timestamp sizeof_time_t
        - (sizeof_unsigned_int + MAX_USERNAME_SIZE + MAX_MESSAGE_SIZE)) 0
    ++ time_bytes sizeof_time_t msg.timestamp
    ++ value_bytes sizeof_unsigned_int msg.checksum
    ++ List.replicate (sizeof_chat_message_t sizeof_time_t
        - (offsetof_checksum sizeof_time_t + sizeof_unsigned_int)) 0

/-- The function `calculate_checksum` for a non-null `msg`: the wrapping sum of the first
`sizeof(chat_message_t) - sizeof(msg->checksum)` bytes of the object. -/
def calculate_checksum (sizeof_time_t : Nat) (msg : chat_message_t) : Nat :=
  ((message_bytes sizeof_time_t msg).take
      (sizeof_chat_message_t sizeof_time_t - sizeof_unsigned_int)).foldl
    (fun checksum b => (checksum + b) % 4294967296) 0

/-- The function `verify_message_integrity` for a non-null `msg`. -/
def verify_message_integrity (sizeof_time_t : Nat) (msg : chat_message_t) : Bool :=
  calculate_checksum sizeof_time_t msg == msg.checksum

/-- The last two statements of the clients before sending, and of the test: the checksum of
the object, whose `checksum` member is still zero, is stored in that member. -/
def seal_message (sizeof_time_t : Nat) (msg : chat_message_t) : chat_message_t :=
  let msg : chat_message_t := { msg with checksum := 0 }
  { msg with checksum := calculate_checksum sizeof_time_t msg }

/-- The string "testuser". -/
def testuser : List Nat := [116, 101, 115, 116, 117, 115, 101, 114]

/-- The string "test message". -/
def test_text : List Nat := [116, 101, 115, 116, 32, 109, 101, 115, 115, 97, 103, 101]

/-- The message of `test_checksum_calculation` before its checksum is stored. -/
def test_message : chat_message_t :=
  { type := .MSG_CHAT,
    username := testuser ++ List.replicate (MAX_USERNAME_SIZE - 8) 0,
    content := test_text ++ List.replicate (MAX_MESSAGE_SIZE - 12) 0,
    timestamp := 1234567890,
    checksum := 0 }

/-! ## Client table -/

/-- The members of `struct sockaddr_in`; `s_addr` is `sin_addr.s_addr`. -/
structure sockaddr_in where
  sin_family : Nat
  sin_port : Nat
  s_addr : Nat
  deriving DecidableEq, Repr

/-- The struct `client_info_t`. -/
structure client_info_t where
  address : sockaddr_in
  username : List Nat
  last_activity : Int
  is_active : Bool
  deriving DecidableEq, Repr

/-- The members of `server_state_t` that the table functions use: `clients` holds the
`MAX_CLIENTS` entries of the array. -/
structure server_state_t where
  clients : List client_info_t
  client_count : Int
  deriving DecidableEq, Repr

/-- An entry of zero bytes. -/
def zero_client_info : client_info_t :=
  { address := { sin_family := 0, sin_port := 0, s_addr := 0 },
    username := List.replicate MAX_USERNAME_SIZE 0, last_activity := 0, is_active := false }

/-- The table after the `memset` of `server_init`. -/
def empty_server : server_state_t :=
  { clients := List.replicate MAX_CLIENTS zero_client_info, client_count := 0 }

/-- The function `is_valid_username` for a non-null string. -/
def is_valid_username (username : List Nat) : Bool :=
  if TcpChat.strlen username = 0 ∨ TcpChat.strlen username ≥ MAX_USERNAME_SIZE then false
  else if (TcpChat.c_string username).any
      (fun p => p == 32 || p == 9 || p == 10 || p == 13) then false
  else true

/-- The function `compare_addresses` for non-null arguments. -/
def compare_addresses (addr1 addr2 : sockaddr_in) : Bool :=
  addr1.s_addr == addr2.s_addr && addr1.sin_port == addr2.sin_port

/-- The object `server->clients[i]`, for an index inside the array. -/
def client_at (server : server_state_t) (i : Nat) : client_info_t :=
  server.clients.getD i zero_client_info

/-- The function `server_find_client`; the result is the index of the entry the returned
pointer points to, `none` for the null pointer. -/
def server_find_client (server : server_state_t) (client_addr : sockaddr_in) : Option Nat :=
  (List.range server.client_count.toNat).find?
    (fun i => compare_addresses (client_at server i).address client_addr)

/-- The function `server_add_client`: the result of the call and the table after it. -/
def server_add_client (now : Int) (server : server_state_t) (client_addr : sockaddr_in)
    (username : List Nat) : Int × server_state_t :=
  if server.client_count ≥ MAX_CLIENTS then (-1, server)
  else if !is_valid_username username then (-1, server)
  else
    match server_find_client server client_addr with
    | some i =>
      let existing_client : client_info_t :=
        { client_at server i with
          username := (TcpChat.strncpy (client_at server i).username username
            (MAX_USERNAME_SIZE - 1)).set (MAX_USERNAME_SIZE - 1) 0,
          last_activity := now,
          is_active := true }
      (0, { server with clients := server.clients.set i existing_client })
    | none =>
      let new_client : client_info_t :=
        { address := client_addr,
          username := (TcpChat.strncpy (client_at server server.client_count.toNat).username
            username (MAX_USERNAME_SIZE - 1)).set (MAX_USERNAME_SIZE - 1) 0,
          last_activity := now,
          is_active := true }
      (0, { clients := server.clients.set server.client_count.toNat new_client,
            client_count := server.client_count + 1 })

/-- The function `server_remove_client`: the result of the call and the table after it.
The entries behind the removed one move one place forward. -/
def server_remove_client (server : server_state_t) (client_addr : sockaddr_in) :
    Int × server_state_t :=
  match (List.range server.client_count.toNat).find?
      (fun i => compare_addresses (client_at server i).address client_addr) with
  | some i =>
    let clients := (List.range' i (server.client_count.toNat - 1 - i)).foldl
      (fun clients j => clients.set j (clients.getD (j + 1) zero_client_info))
      server.clients
    (0, { clients := clients, client_count := server.client_count - 1 })
  | none => (-1, server)

/-- The loop of `test_boundary_conditions`: the requests are added in order; the first
component counts the calls that return 0. -/
def add_clients (now : Int) (server : server_state_t) :
    List (sockaddr_in × List Nat) → Nat × server_state_t
  | [] => (0, server)
  | request :: rest =>
    let r := server_add_client now server request.1 request.2
    let t := add_clients now r.2 rest
    (if r.1 = 0 then t.1 + 1 else t.1, t.2)

/-- The address 127.0.0.1 with the port `port`. -/
def local_address (port : Nat) : sockaddr_in :=
  { sin_family := 2, sin_port := port, s_addr := 2130706433 }

/-- The string "user". -/
def user_name : List Nat := [117, 115, 101, 114]

/-- The string "guest". -/
def guest_name : List Nat := [103, 117, 101, 115, 116]

/-- The requests of `MAX_CLIENTS + 2` clients with the ports 20000, 20001, ... -/
def boundary_requests : List (sockaddr_in × List Nat) :=
  (List.range (MAX_CLIENTS + 2)).map (fun i => (local_address (20000 + i), user_name))

/-- The table after the loop of `test_boundary_conditions`: it is full. -/
def full_server : server_state_t := (add_clients 0 empty_server boundary_requests).2

/-- The shape of a table: the array has its `MAX_CLIENTS` entries, every `username` array
its `MAX_USERNAME_SIZE` bytes, and `client_count` lies between 0 and `MAX_CLIENTS`. -/
def table_invariant (server : server_state_t) : Prop :=
  server.clients.length = MAX_CLIENTS
    ∧ (∀ c ∈ server.clients, c.username.length = MAX_USERNAME_SIZE)
    ∧ 0 ≤ server.client_count ∧ server.client_count ≤ MAX_CLIENTS

end UdpChat

namespace SlidingWindow

/-! ## Checksum lemmas -/

theorem checksum_foldl (l : List Nat) (a : Nat) :
    l.foldl (fun sum b => (sum + b) % 4294967296) (a % 4294967296)
      = (a + l.sum) % 4294967296 := by
  induction l generalizing a with
  | nil => simp
  | cons b l ih =>
    simp only [List.foldl_cons, List.sum_cons]
    rw [ih]
    omega

theorem calculate_checksum_eq (bytes : List Nat) (n : Nat) :
    calculate_checksum bytes n = (bytes.take n).sum % 4294967296 := by
  have h := checksum_foldl (bytes.take n) 0
  simpa [calculate_checksum] using h

theorem uint_bytes_length (u : Nat) : (uint_bytes u).length = 4 := rfl

theorem int_bytes_length (x : Int) : (int_bytes x).length = 4 := rfl

theorem data_frame_bytes_take (f : data_frame_t) (h : f.data.length = MAX_DATA_SIZE) :
    (data_frame_bytes f).take (sizeof_data_frame_t - sizeof_unsigned_int)
      = int_bytes f.type.toInt ++ int_bytes f.seq_num ++ int_bytes f.data_length ++ f.data := by
  unfold data_frame_bytes
  apply List.take_left'
  simp [int_bytes_length, h, sizeof_data_frame_t, sizeof_unsigned_int, MAX_DATA_SIZE]

theorem ack_frame_bytes_take (a : ack_frame_t) :
    (ack_frame_bytes a).take (sizeof_ack_frame_t - sizeof_unsigned_int)
      = int_bytes a.type.toInt ++ int_bytes a.ack_num := by
  unfold ack_frame_bytes
  apply List.take_left'
  simp [int_bytes_length, sizeof_ack_frame_t, sizeof_unsigned_int]

theorem data_checksum_val (f : data_frame_t) (h : f.data.length = MAX_DATA_SIZE) :
    calculate_checksum (data_frame_bytes f) (sizeof_data_frame_t - sizeof_unsigned_int)
      = (int_bytes f.type.toInt ++ int_bytes f.seq_num ++ int_bytes f.data_length
          ++ f.data).sum % 4294967296 := by
  rw [calculate_checksum_eq, data_frame_bytes_take f h]

theorem ack_checksum_val (a : ack_frame_t) :
    calculate_checksum (ack_frame_bytes a) (sizeof_ack_frame_t - sizeof_unsigned_int)
      = (int_bytes a.type.toInt ++ int_bytes a.ack_num).sum % 4294967296 := by
  rw [calculate_checksum_eq, ack_frame_bytes_take a]

theorem memcpy_length (dst src : List Nat) (n : Nat) (h : n ≤ src.length) :
    (memcpy dst src n).length = dst.length := by
  simp [memcpy]
  omega

theorem create_data_frame_data_length (frame : data_frame_t) (seq_num : Int)
    (data : List Nat) (length : Nat) (h : frame.data.length = MAX_DATA_SIZE)
    (hl : length ≤ data.length) :
    (filled_data_frame frame seq_num data length).data.length = MAX_DATA_SIZE := by
  simp [filled_data_frame, memcpy_length _ _ _ hl, h]

theorem strlen_le (s : List Nat) : strlen s ≤ s.length := by
  unfold strlen
  exact (List.takeWhile_sublist _).length_le

theorem create_data_frame_checksum (frame : data_frame_t) (seq_num : Int)
    (data : List Nat) (length : Nat) (h : frame.data.length = MAX_DATA_SIZE)
    (hl : length ≤ data.length) :
    (filled_data_frame frame seq_num data length).checksum
      = calculate_checksum (data_frame_bytes (filled_data_frame frame seq_num data length))
          (sizeof_data_frame_t - sizeof_unsigned_int) := by
  have hlen := create_data_frame_data_length frame seq_num data length h hl
  rw [data_checksum_val _ hlen]
  simp only [filled_data_frame] at hlen ⊢
  rw [data_checksum_val _ hlen]

theorem size_t_to_int_small (n : Nat) (h : n < 2147483648) :
    size_t_to_int n = (n : Int) := by
  have hd : size_t_to_int n
      = if n % 4294967296 < 2147483648 then ((n % 4294967296 : Nat) : Int)
        else ((n % 4294967296 : Nat) : Int) - 4294967296 := rfl
  rw [hd]
  split_ifs <;> omega

theorem create_data_frame_ok (frame : data_frame_t) (seq_num : Int) (data : List Nat)
    (length : Nat) (h : length ≤ MAX_DATA_SIZE) :
    create_data_frame frame seq_num data length
      = .ok (filled_data_frame frame seq_num data length) := by
  unfold create_data_frame
  rw [if_neg (by omega), Int.toNat_ofNat]

theorem create_data_frame_fault (frame : data_frame_t) (seq_num : Int) (data : List Nat)
    (length : Int) (h : length < 0 ∨ (MAX_DATA_SIZE : Int) < length) :
    create_data_frame frame seq_num data length = .error .out_of_bounds := by
  unfold create_data_frame
  rw [if_pos h]

theorem receive_data_frame_verified (junk : data_frame_t) (w : world_t)
    (ht : w.data_in_transit = true)
    (hlen : w.network_data_buffer.data.length = MAX_DATA_SIZE)
    (hc : w.network_data_buffer.checksum
      = calculate_checksum (data_frame_bytes w.network_data_buffer)
          (sizeof_data_frame_t - sizeof_unsigned_int)) :
    receive_data_frame junk w
      = (true, w.network_data_buffer,
          { w with
            data_in_transit := false
            stats := { w.stats with frames_received := w.stats.frames_received + 1 } }) := by
  rw [data_checksum_val _ hlen] at hc
  have h0 : ({ w.network_data_buffer with checksum := 0 } : data_frame_t).data.length
      = MAX_DATA_SIZE := hlen
  simp only [receive_data_frame, ht, data_checksum_val _ h0]
  simp [hc]

/-- C2. Checksum round trip: for every sequence number in {0, 1} and every payload of
length between 1 and `MAX_DATA_SIZE - 1`, `create_data_frame` builds a frame, the checksum
field of that frame equals `calculate_checksum` over all bytes of the frame before the
checksum field, and `receive_data_frame` returns true when that frame is the one in
transit. -/
theorem checksum_round_trip (frame : data_frame_t) (seq_num : Int) (data : List Nat)
    (length : Nat) (junk : data_frame_t) (w : world_t)
    (hframe : frame.data.length = MAX_DATA_SIZE)
    (_hseq : seq_num = 0 ∨ seq_num = 1)
    (_hlen1 : 1 ≤ length) (hlen2 : length ≤ MAX_DATA_SIZE - 1) (hdata : length ≤ data.length)
    (htransit : w.data_in_transit = true) :
    ∃ f : data_frame_t,
      create_data_frame frame seq_num data length = .ok f
        ∧ f.checksum
            = calculate_checksum (data_frame_bytes f)
                (sizeof_data_frame_t - sizeof_unsigned_int)
        ∧ (w.network_data_buffer = f → (receive_data_frame junk w).1 = true) := by
  have hc := create_data_frame_checksum frame seq_num data length hframe hdata
  have hmax : length ≤ MAX_DATA_SIZE := Nat.le_trans hlen2 (Nat.sub_le _ _)
  refine ⟨_, create_data_frame_ok frame seq_num data length hmax, hc, ?_⟩
  intro hbuf
  rw [receive_data_frame_verified junk w htransit]
  · rw [hbuf]; exact create_data_frame_data_length frame seq_num data length hframe hdata
  · rw [hbuf]; exact hc

/-! ## Single-bit corruption -/

theorem sum_set_getD (l : List Nat) (i v : Nat) (h : i < l.length) :
    (l.set i v).sum + l.getD i 0 = l.sum + v := by
  induction l generalizing i with
  | nil => simp at h
  | cons a l ih =>
    cases i with
    | zero => simp; omega
    | succ i =>
      have hi : i < l.length := by simpa using h
      have := ih i hi
      simp only [List.set_cons_succ, List.sum_cons, List.getD_cons_succ]
      omega

theorem sum_le_of_bytes (l : List Nat) (h : ∀ b ∈ l, b < 256) : l.sum ≤ 255 * l.length := by
  induction l with
  | nil => simp
  | cons a l ih =>
    have ha : a < 256 := h a (List.mem_cons_self a l)
    have := ih (fun b hb => h b (List.mem_cons_of_mem a hb))
    simp only [List.sum_cons, List.length_cons]
    omega

theorem int_bytes_sum_le (x : Int) : (int_bytes x).sum ≤ 1020 := by
  simp only [int_bytes, uint_bytes, List.sum_cons, List.sum_nil]
  omega

theorem memcpy_bytes (dst src : List Nat) (n : Nat) (hd : ∀ b ∈ dst, b < 256)
    (hs : ∀ b ∈ src, b < 256) : ∀ b ∈ memcpy dst src n, b < 256 := by
  intro b hb
  have hb1 := List.mem_of_mem_take hb
  rcases List.mem_append.mp hb1 with h | h
  · exact hs b (List.mem_of_mem_take h)
  · exact hd b (List.mem_of_mem_drop h)

theorem create_data_frame_bytes (frame : data_frame_t) (seq_num : Int) (data : List Nat)
    (length : Nat) (hd : ∀ b ∈ frame.data, b < 256) (hs : ∀ b ∈ data, b < 256) :
    ∀ b ∈ (filled_data_frame frame seq_num data length).data, b < 256 := by
  intro b hb
  simp only [filled_data_frame] at hb
  rcases List.mem_or_eq_of_mem_set hb with h | h
  · exact memcpy_bytes _ _ _ hd hs b h
  · omega

theorem flip_bit_ne (b k : Nat) : flip_bit b k ≠ b := by
  intro h
  have h1 : b ^^^ 2 ^ k = b ^^^ 0 := by simpa [flip_bit] using h
  have h2 := Nat.xor_right_inj.mp h1
  exact absurd h2 (by positivity)

theorem flip_bit_lt (b k : Nat) (hb : b < 256) (hk : k < 8) : flip_bit b k < 256 := by
  have h1 : b < 2 ^ 8 := by simpa using hb
  have h2 : 2 ^ k < 2 ^ 8 := Nat.pow_lt_pow_right (by decide) hk
  simpa [flip_bit] using Nat.xor_lt_two_pow h1 h2

/-- C8. Single-bit corruption is detected: `create_data_frame` builds a frame for every
sequence number in {0, 1} and every payload of length between 1 and `MAX_DATA_SIZE - 1`;
invert bit `k < 8` of payload byte `i < length` of that frame and leave the checksum field
as created; when the result is the frame in transit, `receive_data_frame` returns false. -/
theorem single_bit_flip_detected (frame : data_frame_t) (seq_num : Int) (data : List Nat)
    (length i k : Nat) (junk : data_frame_t) (w : world_t)
    (hframe : frame.data.length = MAX_DATA_SIZE)
    (hframe_bytes : ∀ b ∈ frame.data, b < 256) (hdata_bytes : ∀ b ∈ data, b < 256)
    (_hseq : seq_num = 0 ∨ seq_num = 1)
    (_hlen1 : 1 ≤ length) (hlen2 : length ≤ MAX_DATA_SIZE - 1) (hdata : length ≤ data.length)
    (hi : i < length) (hk : k < 8)
    (htransit : w.data_in_transit = true) :
    ∃ f : data_frame_t,
      create_data_frame frame seq_num data length = .ok f
        ∧ (w.network_data_buffer
              = { f with data := f.data.set i (flip_bit (f.data.getD i 0) k) } →
            (receive_data_frame junk w).1 = false) := by
  have hmax : length ≤ MAX_DATA_SIZE := Nat.le_trans hlen2 (Nat.sub_le _ _)
  refine ⟨_, create_data_frame_ok frame seq_num data length hmax, ?_⟩
  intro hbuf
  have hlen := create_data_frame_data_length frame seq_num data length hframe hdata
  have hbytes := create_data_frame_bytes frame seq_num data length hframe_bytes hdata_bytes
  have hck := create_data_frame_checksum frame seq_num data length hframe hdata
  rw [data_checksum_val _ hlen] at hck
  generalize filled_data_frame frame seq_num data length = f at *
  have hi' : i < f.data.length := by
    rw [hlen]; simp only [MAX_DATA_SIZE] at hlen2 ⊢; omega
  have hv : f.data.getD i 0 < 256 := by
    rw [List.getD_eq_getElem _ _ hi']
    exact hbytes _ (List.getElem_mem _)
  have hsum := sum_set_getD f.data i (flip_bit (f.data.getD i 0) k) hi'
  have hne := flip_bit_ne (f.data.getD i 0) k
  have hlt := flip_bit_lt (f.data.getD i 0) k hv hk
  have hS := sum_le_of_bytes f.data hbytes
  have h1 := int_bytes_sum_le f.type.toInt
  have h2 := int_bytes_sum_le f.seq_num
  have h3 := int_bytes_sum_le f.data_length
  have hlen' : (f.data.set i (flip_bit (f.data.getD i 0) k)).length = MAX_DATA_SIZE := by
    simpa using hlen
  have h0 : ({ w.network_data_buffer with checksum := 0 } : data_frame_t).data.length
      = MAX_DATA_SIZE := by
    rw [hbuf]; exact hlen'
  simp only [receive_data_frame, htransit, data_checksum_val _ h0]
  simp only [hbuf, List.sum_append] at hck ⊢
  rw [hlen] at hS
  simp only [MAX_DATA_SIZE] at hS
  have : ¬ (((int_bytes f.type.toInt).sum + (int_bytes f.seq_num).sum
      + (int_bytes f.data_length).sum
      + (f.data.set i (flip_bit (f.data.getD i 0) k)).sum) % 4294967296 = f.checksum) := by
    rw [hck]; omega
  simp only [ne_eq, this, not_false_eq_true, if_true]
  rfl

/-! ## The network path -/

theorem frame_lost_zero (config : network_config_t) (r : Nat)
    (h : config.loss_probability = 0) : frame_lost config r = false := by
  have h0 : (0 : ℚ) ≤ (r : ℚ) / (RAND_MAX : ℚ) := by positivity
  simp only [frame_lost, h, decide_eq_false_iff_not, not_lt]
  exact h0

theorem simulate_network_delay_ok (E : env_t) (config : network_config_t) (w : world_t)
    (h : config.max_delay_ms - config.min_delay_ms + 1 ≠ 0) :
    simulate_network_delay E config w = .ok { w with rand_calls := w.rand_calls + 1 } := by
  simp [simulate_network_delay, network_delay, h]

theorem send_data_frame_delivered (E : env_t) (frame : data_frame_t)
    (config : network_config_t) (w : world_t)
    (h : config.max_delay_ms - config.min_delay_ms + 1 ≠ 0)
    (hl : frame_lost config (E.rand (w.rand_calls + 1)) = false) :
    send_data_frame E frame config w
      = .ok (true,
          { w with
            stats := { w.stats with frames_sent := w.stats.frames_sent + 1 }
            rand_calls := w.rand_calls + 2
            network_data_buffer := frame
            data_in_transit := true }) := by
  simp [send_data_frame, simulate_network_delay_ok _ _ _ h, simulate_frame_loss, hl]

theorem send_data_frame_lost (E : env_t) (frame : data_frame_t)
    (config : network_config_t) (w : world_t)
    (h : config.max_delay_ms - config.min_delay_ms + 1 ≠ 0)
    (hl : frame_lost config (E.rand (w.rand_calls + 1)) = true) :
    send_data_frame E frame config w
      = .ok (false,
          { w with
            stats :=
              { w.stats with
                frames_sent := w.stats.frames_sent + 1
                frames_lost := w.stats.frames_lost + 1 }
            rand_calls := w.rand_calls + 2 }) := by
  simp [send_data_frame, simulate_network_delay_ok _ _ _ h, simulate_frame_loss, hl]

theorem send_ack_frame_delivered (E : env_t) (ack : ack_frame_t)
    (config : network_config_t) (w : world_t)
    (h : config.max_delay_ms - config.min_delay_ms + 1 ≠ 0)
    (hl : frame_lost config (E.rand (w.rand_calls + 1)) = false) :
    send_ack_frame E ack config w
      = .ok (true,
          { w with
            stats := { w.stats with acks_sent := w.stats.acks_sent + 1 }
            rand_calls := w.rand_calls + 2
            network_ack_buffer := ack
            ack_in_transit := true }) := by
  simp [send_ack_frame, simulate_network_delay_ok _ _ _ h, simulate_frame_loss, hl]

theorem send_ack_frame_lost (E : env_t) (ack : ack_frame_t)
    (config : network_config_t) (w : world_t)
    (h : config.max_delay_ms - config.min_delay_ms + 1 ≠ 0)
    (hl : frame_lost config (E.rand (w.rand_calls + 1)) = true) :
    send_ack_frame E ack config w
      = .ok (false,
          { w with
            stats :=
              { w.stats with
                acks_sent := w.stats.acks_sent + 1
                frames_lost := w.stats.frames_lost + 1 }
            rand_calls := w.rand_calls + 2 }) := by
  simp [send_ack_frame, simulate_network_delay_ok _ _ _ h, simulate_frame_loss, hl]

theorem receive_ack_frame_created (sender : sender_state_t) (w : world_t) (a : ack_frame_t)
    (n : Int) (ht : w.ack_in_transit = true)
    (hbuf : w.network_ack_buffer = create_ack_frame a n) :
    receive_ack_frame sender w
      = (decide (n = sender.seq_num),
          { w with
            ack_in_transit := false
            stats := { w.stats with acks_received := w.stats.acks_received + 1 } }) := by
  simp only [receive_ack_frame, ht, hbuf, create_ack_frame, ack_checksum_val]
  by_cases hn : n = sender.seq_num <;> simp [hn]

/-! ## Steps of the main loop -/

theorem receiver_step_idle (E : env_t) (config : network_config_t) (s : loop_state_t)
    (h : s.w.data_in_transit = false) : receiver_step E config s = .ok s := by
  simp [receiver_step, receive_data_frame, h]

theorem receiver_step_duplicate (E : env_t) (config : network_config_t) (s : loop_state_t)
    (ht : s.w.data_in_transit = true)
    (hlen : s.w.network_data_buffer.data.length = MAX_DATA_SIZE)
    (hc : s.w.network_data_buffer.checksum
      = calculate_checksum (data_frame_bytes s.w.network_data_buffer)
          (sizeof_data_frame_t - sizeof_unsigned_int))
    (hseq : s.w.network_data_buffer.seq_num ≠ s.receiver.expected_seq) :
    receiver_step E config s
      = .ok { s with
              w := { s.w with
                     data_in_transit := false
                     stats := { s.w.stats with
                                frames_received := s.w.stats.frames_received + 1 } } } := by
  simp [receiver_step, receive_data_frame_verified _ _ ht hlen hc, hseq]

theorem receiver_step_accept (E : env_t) (config : network_config_t) (s : loop_state_t)
    (ht : s.w.data_in_transit = true)
    (hlen : s.w.network_data_buffer.data.length = MAX_DATA_SIZE)
    (hc : s.w.network_data_buffer.checksum
      = calculate_checksum (data_frame_bytes s.w.network_data_buffer)
          (sizeof_data_frame_t - sizeof_unsigned_int))
    (hseq : s.w.network_data_buffer.seq_num = s.receiver.expected_seq)
    (hmod : config.max_delay_ms - config.min_delay_ms + 1 ≠ 0)
    (hl : frame_lost config (E.rand (s.w.rand_calls + 1)) = false) :
    receiver_step E config s
      = .ok { s with
              receiver := { s.receiver with
                            expected_seq := Int.tmod (s.receiver.expected_seq + 1) MAX_SEQ_NUM }
              w := { s.w with
                     data_in_transit := false
                     stats := { s.w.stats with
                                frames_received := s.w.stats.frames_received + 1
                                acks_sent := s.w.stats.acks_sent + 1 }
                     rand_calls := s.w.rand_calls + 2
                     network_ack_buffer :=
                       create_ack_frame zero_ack_frame s.w.network_data_buffer.seq_num
                     ack_in_transit := true } } := by
  simp [receiver_step, receive_data_frame_verified _ _ ht hlen hc, hseq,
    send_ack_frame_delivered, hmod, hl]

theorem receiver_step_accept_ack_lost (E : env_t) (config : network_config_t)
    (s : loop_state_t) (ht : s.w.data_in_transit = true)
    (hlen : s.w.network_data_buffer.data.length = MAX_DATA_SIZE)
    (hc : s.w.network_data_buffer.checksum
      = calculate_checksum (data_frame_bytes s.w.network_data_buffer)
          (sizeof_data_frame_t - sizeof_unsigned_int))
    (hseq : s.w.network_data_buffer.seq_num = s.receiver.expected_seq)
    (hmod : config.max_delay_ms - config.min_delay_ms + 1 ≠ 0)
    (hl : frame_lost config (E.rand (s.w.rand_calls + 1)) = true) :
    receiver_step E config s
      = .ok { s with
              receiver := { s.receiver with
                            expected_seq := Int.tmod (s.receiver.expected_seq + 1) MAX_SEQ_NUM }
              w := { s.w with
                     data_in_transit := false
                     stats := { s.w.stats with
                                frames_received := s.w.stats.frames_received + 1
                                acks_sent := s.w.stats.acks_sent + 1
                                frames_lost := s.w.stats.frames_lost + 1 }
                     rand_calls := s.w.rand_calls + 2 } } := by
  simp [receiver_step, receive_data_frame_verified _ _ ht hlen hc, hseq,
    send_ack_frame_lost, hmod, hl]

theorem sender_step_acked (E : env_t) (config : network_config_t) (s : loop_state_t)
    (ht : s.w.ack_in_transit = true)
    (hbuf : s.w.network_ack_buffer = create_ack_frame zero_ack_frame s.sender.seq_num) :
    sender_step E config s
      = .ok (.ret true
          { s with
            sender := { s.sender with
                        state := .WAITING_FOR_CALL
                        seq_num := Int.tmod (s.sender.seq_num + 1) MAX_SEQ_NUM
                        retry_count := 0 }
            w := { s.w with
                   ack_in_transit := false
                   stats := { s.w.stats with
                              acks_received := s.w.stats.acks_received + 1 } } }) := by
  simp [sender_step, receive_ack_frame_created _ _ zero_ack_frame _ ht hbuf]

theorem sender_step_waiting (E : env_t) (config : network_config_t) (s : loop_state_t)
    (ha : s.w.ack_in_transit = false) (hs : s.sender.state = .WAITING_FOR_ACK)
    (ht : E.timer_expired s.w.timer_polls = false) :
    sender_step E config s
      = .ok (.next { s with w := { s.w with timer_polls := s.w.timer_polls + 1 } }) := by
  simp [sender_step, receive_ack_frame, ha, is_timeout, hs, ht]

theorem sender_step_resend_lost (E : env_t) (config : network_config_t) (s : loop_state_t)
    (ha : s.w.ack_in_transit = false) (hs : s.sender.state = .WAITING_FOR_ACK)
    (ht : E.timer_expired s.w.timer_polls = true)
    (hr : s.sender.retry_count + 1 < MAX_RETRIES)
    (hmod : config.max_delay_ms - config.min_delay_ms + 1 ≠ 0)
    (hl : frame_lost config (E.rand (s.w.rand_calls + 1)) = true) :
    sender_step E config s
      = .ok (.next
          { s with
            sender := { s.sender with retry_count := s.sender.retry_count + 1 }
            w := { s.w with
                   timer_polls := s.w.timer_polls + 1
                   stats := { s.w.stats with
                              retransmissions := s.w.stats.retransmissions + 1
                              frames_sent := s.w.stats.frames_sent + 1
                              frames_lost := s.w.stats.frames_lost + 1 }
                   rand_calls := s.w.rand_calls + 2 } }) := by
  have hr' : ¬ (MAX_RETRIES ≤ s.sender.retry_count + 1) := by omega
  simp [sender_step, receive_ack_frame, ha, is_timeout, hs, ht, handle_timeout, hr',
    reset_timer, send_data_frame_lost, hmod, hl]

theorem sender_step_resend_delivered (E : env_t) (config : network_config_t)
    (s : loop_state_t)
    (ha : s.w.ack_in_transit = false) (hs : s.sender.state = .WAITING_FOR_ACK)
    (ht : E.timer_expired s.w.timer_polls = true)
    (hr : s.sender.retry_count + 1 < MAX_RETRIES)
    (hmod : config.max_delay_ms - config.min_delay_ms + 1 ≠ 0)
    (hl : frame_lost config (E.rand (s.w.rand_calls + 1)) = false) :
    sender_step E config s
      = .ok (.next
          { s with
            sender := { s.sender with retry_count := s.sender.retry_count + 1 }
            w := { s.w with
                   timer_polls := s.w.timer_polls + 1
                   stats := { s.w.stats with
                              retransmissions := s.w.stats.retransmissions + 1
                              frames_sent := s.w.stats.frames_sent + 1 }
                   rand_calls := s.w.rand_calls + 2
                   network_data_buffer := s.sender.current_frame
                   data_in_transit := true } }) := by
  have hr' : ¬ (MAX_RETRIES ≤ s.sender.retry_count + 1) := by omega
  simp [sender_step, receive_ack_frame, ha, is_timeout, hs, ht, handle_timeout, hr',
    reset_timer, send_data_frame_delivered, hmod, hl]

theorem sender_step_give_up (E : env_t) (config : network_config_t) (s : loop_state_t)
    (ha : s.w.ack_in_transit = false) (hs : s.sender.state = .WAITING_FOR_ACK)
    (ht : E.timer_expired s.w.timer_polls = true)
    (hr : MAX_RETRIES ≤ s.sender.retry_count + 1) :
    sender_step E config s
      = .ok (.ret false
          { s with
            sender := { s.sender with
                        retry_count := s.sender.retry_count + 1
                        state := .WAITING_FOR_CALL }
            w := { s.w with
                   timer_polls := s.w.timer_polls + 1
                   stats := { s.w.stats with
                              retransmissions := s.w.stats.retransmissions + 1 } } }) := by
  simp [sender_step, receive_ack_frame, ha, is_timeout, hs, ht, handle_timeout, hr]

theorem transmit_loop_start (E : env_t) (config : network_config_t) (fuel : Nat)
    (s : loop_state_t) (hs : s.sender.state = .WAITING_FOR_CALL)
    (hr : s.sender.retry_count = 0) :
    transmit_loop E config (fuel + 1) s
      = match send_data_frame E s.sender.current_frame config s.w with
        | .error e => .error e
        | .ok (_, w1) =>
          transmit_loop E config fuel
            { s with sender := { s.sender with state := .WAITING_FOR_ACK }, w := w1 } := by
  simp only [transmit_loop, transmit_iteration, hs, hr, reset_timer]
  cases send_data_frame E s.sender.current_frame config s.w <;> simp

theorem transmit_loop_wait (E : env_t) (config : network_config_t) (fuel : Nat)
    (s : loop_state_t) (hs : s.sender.state = .WAITING_FOR_ACK) :
    transmit_loop E config (fuel + 1) s
      = match receiver_step E config s with
        | .error e => .error e
        | .ok s1 =>
          match sender_step E config s1 with
          | .error e => .error e
          | .ok (.ret result s2) => .ok (result, s2)
          | .ok (.next s2) => transmit_loop E config fuel s2 := by
  simp only [transmit_loop, transmit_iteration, hs]
  cases receiver_step E config s <;> simp

/-! ## Transmission over an ideal network -/

theorem first_frame_data_length (message : List Nat) :
    (filled_data_frame init_sender.current_frame init_sender.seq_num message
      (strlen message)).data.length = MAX_DATA_SIZE :=
  create_data_frame_data_length _ _ _ _ (by simp [init_sender, zero_data_frame])
    (strlen_le message)

theorem first_frame_checksum (message : List Nat) :
    (filled_data_frame init_sender.current_frame init_sender.seq_num message
      (strlen message)).checksum
      = calculate_checksum (data_frame_bytes (filled_data_frame init_sender.current_frame
          init_sender.seq_num message (strlen message)))
          (sizeof_data_frame_t - sizeof_unsigned_int) :=
  create_data_frame_checksum _ _ _ _ (by simp [init_sender, zero_data_frame])
    (strlen_le message)

theorem transmit_message_locals_valid (fuel : Nat) (E : env_t) (message : List Nat)
    (config : network_config_t) (w : world_t)
    (hlen1 : 1 ≤ strlen message) (hlen2 : strlen message ≤ MAX_DATA_SIZE - 1) :
    transmit_message_locals fuel E message config w
      = transmit_loop E config fuel
          { sender := { init_sender with
                        current_frame := filled_data_frame init_sender.current_frame
                          init_sender.seq_num message (strlen message) }
            receiver := init_receiver
            w := w } := by
  have hmax : MAX_DATA_SIZE = 1024 := rfl
  have hs : size_t_to_int (strlen message) = (strlen message : Int) :=
    size_t_to_int_small _ (by omega)
  simp only [transmit_message_locals, hs]
  rw [if_neg (by omega), if_neg (by omega), create_data_frame_ok _ _ _ _ (by omega)]

theorem filled_data_frame_take (frame : data_frame_t) (seq_num : Int) (data : List Nat)
    (length : Nat) :
    filled_data_frame frame seq_num data length
      = filled_data_frame frame seq_num (data.take length) length := by
  simp only [filled_data_frame, memcpy, List.take_take, Nat.min_self]

theorem strlen_take (s : List Nat) (n : Nat) (h : n ≤ strlen s) : strlen (s.take n) = n := by
  induction s generalizing n with
  | nil =>
    have h0 : n = 0 := Nat.le_zero.mp h
    rw [h0]
    rfl
  | cons b s ih =>
    cases n with
    | zero => rfl
    | succ n =>
      by_cases hb : (b != 0) = true
      · have e : strlen (b :: s) = strlen s + 1 := by
          simp only [strlen, List.takeWhile_cons, hb, if_true, List.length_cons]
        have hn : n ≤ strlen s := by omega
        simp only [strlen, List.take_succ_cons, List.takeWhile_cons, hb, if_true,
          List.length_cons]
        exact congrArg (· + 1) (ih n hn)
      · have e : strlen (b :: s) = 0 := by
          simp only [strlen, List.takeWhile_cons, hb, Bool.false_eq_true, if_false,
            List.length_nil]
        omega

/-- The three ways a call of `transmit_message` can go, by the message alone: it is rejected
at one of the two length checks, or `create_data_frame` is called with a negative length,
or the main loop is entered with the frame of a valid payload (the first `message_len`
bytes of the message). -/
theorem transmit_message_locals_cases (message : List Nat) :
    (∀ (fuel : Nat) (E : env_t) (config : network_config_t) (w : world_t),
        transmit_message_locals fuel E message config w
          = .ok (false, { sender := init_sender, receiver := init_receiver, w := w }))
      ∨ (∀ (fuel : Nat) (E : env_t) (config : network_config_t) (w : world_t),
          transmit_message_locals fuel E message config w = .error .out_of_bounds)
      ∨ ∃ payload : List Nat, 1 ≤ strlen payload ∧ strlen payload ≤ MAX_DATA_SIZE - 1
          ∧ ∀ (fuel : Nat) (E : env_t) (config : network_config_t) (w : world_t),
              transmit_message_locals fuel E message config w
                = transmit_loop E config fuel (initial_loop_state payload w) := by
  have hmax : MAX_DATA_SIZE = 1024 := rfl
  by_cases h0 : size_t_to_int (strlen message) = 0
  · left
    intro fuel E config w
    simp only [transmit_message_locals]
    rw [if_pos h0]
  · by_cases h1 : size_t_to_int (strlen message) > (MAX_DATA_SIZE : Int) - 1
    · left
      intro fuel E config w
      simp only [transmit_message_locals]
      rw [if_neg h0, if_pos h1]
    · by_cases h2 : size_t_to_int (strlen message) < 0
      · right
        left
        intro fuel E config w
        simp only [transmit_message_locals]
        rw [if_neg h0, if_neg h1, create_data_frame_fault _ _ _ _ (Or.inl h2)]
      · right
        right
        obtain ⟨n, hn⟩ := Int.eq_ofNat_of_zero_le
          (show 0 ≤ size_t_to_int (strlen message) by omega)
        have hle : n ≤ strlen message := by
          have hd : size_t_to_int (strlen message)
              = if strlen message % 4294967296 < 2147483648
                then ((strlen message % 4294967296 : Nat) : Int)
                else ((strlen message % 4294967296 : Nat) : Int) - 4294967296 := rfl
          split_ifs at hd <;> omega
        refine ⟨message.take n, ?_, ?_, ?_⟩
        · rw [strlen_take _ _ hle]
          omega
        · rw [strlen_take _ _ hle]
          omega
        · intro fuel E config w
          simp only [transmit_message_locals]
          rw [if_neg h0, if_neg h1, hn, create_data_frame_ok _ _ _ _ (by omega)]
          simp only [initial_loop_state]
          rw [strlen_take _ _ hle, ← filled_data_frame_take]

theorem loss_free_run (fuel : Nat) (E : env_t) (message : List Nat)
    (config : network_config_t) (w : world_t)
    (hlen1 : 1 ≤ strlen message) (hlen2 : strlen message ≤ MAX_DATA_SIZE - 1)
    (hmod : config.max_delay_ms - config.min_delay_ms + 1 ≠ 0)
    (hd0 : frame_lost config (E.rand (w.rand_calls + 1)) = false)
    (ha0 : frame_lost config (E.rand (w.rand_calls + 2 + 1)) = false) :
    transmit_message_locals (fuel + 2) E message config w
      = .ok (true,
          { sender :=
              { init_sender with
                current_frame := filled_data_frame init_sender.current_frame
                  init_sender.seq_num message (strlen message)
                seq_num := 1 }
            receiver := { init_receiver with expected_seq := 1 }
            w := { w with
                   stats := { w.stats with
                              frames_sent := w.stats.frames_sent + 1
                              frames_received := w.stats.frames_received + 1
                              acks_sent := w.stats.acks_sent + 1
                              acks_received := w.stats.acks_received + 1 }
                   network_data_buffer := filled_data_frame init_sender.current_frame
                     init_sender.seq_num message (strlen message)
                   network_ack_buffer := create_ack_frame zero_ack_frame 0
                   data_in_transit := false
                   ack_in_transit := false
                   rand_calls := w.rand_calls + 4 } }) := by
  have hflen := first_frame_data_length message
  have hfck := first_frame_checksum message
  have hfseq : (filled_data_frame init_sender.current_frame init_sender.seq_num message
      (strlen message)).seq_num = 0 := rfl
  have he : Int.tmod (0 + 1) MAX_SEQ_NUM = 1 := by decide
  rw [transmit_message_locals_valid _ _ _ _ _ hlen1 hlen2]
  generalize filled_data_frame init_sender.current_frame init_sender.seq_num message
      (strlen message) = f at *
  simp only [init_sender, init_receiver]
  rw [transmit_loop_start _ _ _ _ rfl rfl]
  simp only [send_data_frame_delivered, hmod, hd0, ne_eq, not_false_eq_true]
  rw [transmit_loop_wait _ _ _ _ rfl]
  simp only [receiver_step_accept, hmod, ha0, ne_eq, not_false_eq_true, hflen, hfck.symm,
    hfseq]
  simp only [sender_step_acked, he]

/-- C1. For every message whose length is between 1 and `MAX_DATA_SIZE - 1`, every network
configuration with loss probability 0 and `0 ≤ min_delay_ms ≤ max_delay_ms`, and every
outcome of `rand()` and of the timer, `transmit_message` called with empty network slots
returns true (two loop iterations suffice, so any fuel of at least 2 gives the result) and
increases `frames_sent`, `frames_received`, `acks_sent` and `acks_received` by exactly 1
each, while `frames_lost` and `retransmissions` keep their values. -/
theorem ideal_network_transmission (fuel : Nat) (E : env_t) (message : List Nat)
    (config : network_config_t) (w : world_t)
    (hlen1 : 1 ≤ strlen message) (hlen2 : strlen message ≤ MAX_DATA_SIZE - 1)
    (hloss : config.loss_probability = 0)
    (_hmin : 0 ≤ config.min_delay_ms) (hmax : config.min_delay_ms ≤ config.max_delay_ms)
    (_hdata : w.data_in_transit = false) (_hack : w.ack_in_transit = false) :
    ∃ w1 : world_t,
      transmit_message (fuel + 2) E message config w = .ok (true, w1)
      ∧ w1.stats.frames_sent = w.stats.frames_sent + 1
      ∧ w1.stats.frames_received = w.stats.frames_received + 1
      ∧ w1.stats.acks_sent = w.stats.acks_sent + 1
      ∧ w1.stats.acks_received = w.stats.acks_received + 1
      ∧ w1.stats.frames_lost = w.stats.frames_lost
      ∧ w1.stats.retransmissions = w.stats.retransmissions := by
  have hmod : config.max_delay_ms - config.min_delay_ms + 1 ≠ 0 := by omega
  have hrun := loss_free_run fuel E message config w hlen1 hlen2 hmod
    (frame_lost_zero config _ hloss) (frame_lost_zero config _ hloss)
  simp only [transmit_message, hrun]
  exact ⟨_, rfl, rfl, rfl, rfl, rfl, rfl, rfl⟩

/-! ## Rejection of invalid payloads -/

/-- A message of length 0, and a message of `MAX_DATA_SIZE` or more bytes whose length
still fits an `int`, is rejected by `transmit_message`: the call returns false and the
world is exactly as before; no frame is built, the sender still holds the zero frame of
`init_sender`. -/
theorem short_of_wrapping_rejected (fuel : Nat) (E : env_t) (message : List Nat)
    (config : network_config_t) (w : world_t)
    (hlen : strlen message = 0
      ∨ (MAX_DATA_SIZE ≤ strlen message ∧ strlen message < 2147483648)) :
    transmit_message fuel E message config w = .ok (false, w)
      ∧ transmit_message_locals fuel E message config w
          = .ok (false, { sender := init_sender, receiver := init_receiver, w := w }) := by
  have hmax : MAX_DATA_SIZE = 1024 := rfl
  have hs : size_t_to_int (strlen message) = (strlen message : Int) :=
    size_t_to_int_small _ (by omega)
  have hrun : transmit_message_locals fuel E message config w
      = .ok (false, { sender := init_sender, receiver := init_receiver, w := w }) := by
    simp only [transmit_message_locals, hs]
    rcases hlen with h | h
    · rw [if_pos (by omega)]
    · rw [if_neg (by omega), if_pos (by omega)]
  refine ⟨?_, hrun⟩
  simp only [transmit_message, hrun]

theorem strlen_replicate (n b : Nat) (hb : b ≠ 0) : strlen (List.replicate n b) = n := by
  simp [strlen, List.takeWhile_replicate, hb]

theorem strlen_wrapping_message : strlen wrapping_message = 4294967299 :=
  strlen_replicate _ _ (by decide)

theorem strlen_negative_length_message : strlen negative_length_message = 2147483648 :=
  strlen_replicate _ _ (by decide)

theorem size_t_to_int_wrapping : size_t_to_int 4294967299 = 3 := by decide

theorem size_t_to_int_negative : size_t_to_int 2147483648 = -2147483648 := by decide

theorem wrapping_message_locals (fuel : Nat) (E : env_t) (config : network_config_t)
    (w : world_t) :
    transmit_message_locals fuel E wrapping_message config w
      = transmit_message_locals fuel E message_AAA config w := by
  have h3 : strlen message_AAA = 3 := by decide
  have ht : wrapping_message.take 3 = message_AAA := by
    rw [wrapping_message, List.take_replicate]
    rfl
  rw [transmit_message_locals_valid fuel E message_AAA config w (by decide) (by decide), h3]
  simp only [transmit_message_locals, strlen_wrapping_message, size_t_to_int_wrapping]
  have hok : create_data_frame init_sender.current_frame init_sender.seq_num
      wrapping_message 3
      = .ok (filled_data_frame init_sender.current_frame init_sender.seq_num
          wrapping_message 3) :=
    create_data_frame_ok _ _ _ 3 (by decide)
  rw [if_neg (by decide), if_neg (by decide), hok, filled_data_frame_take, ht]

/-! ## The timeout transition -/

theorem handle_timeout_give_up (E : env_t) (sender : sender_state_t)
    (config : network_config_t) (w : world_t)
    (hr : MAX_RETRIES ≤ sender.retry_count + 1) :
    handle_timeout E sender config w
      = .ok ({ sender with
               retry_count := sender.retry_count + 1
               state := .WAITING_FOR_CALL },
             { w with
               stats := { w.stats with retransmissions := w.stats.retransmissions + 1 } }) := by
  simp [handle_timeout, hr]

/-- C6, the code at the failing input: for a sender in `WAITING_FOR_ACK` with
`retry_count = 2`, which is below `MAX_RETRIES = 3`, `handle_timeout` counts a retransmission
and raises `retry_count` to 3, but moves the sender to `WAITING_FOR_CALL` and sends nothing:
`frames_sent` keeps its value and no value of `rand()` is drawn. -/
theorem handle_timeout_after_two_timeouts :
    handle_timeout zero_rand_env sender_after_two_timeouts half_loss_config initial_world
      = .ok ({ sender_after_two_timeouts with
               retry_count := 3
               state := .WAITING_FOR_CALL },
             { initial_world with
               stats := { initial_world.stats with retransmissions := 1 } }) := by
  rw [handle_timeout_give_up _ _ _ _ (by decide)]
  rfl

/-! ## The receiver's step -/

theorem create_ack_frame_fields (a : ack_frame_t) (n : Int) :
    (create_ack_frame a n).type = .ACK_FRAME
      ∧ (create_ack_frame a n).ack_num = n
      ∧ (create_ack_frame a n).checksum
          = calculate_checksum (ack_frame_bytes (create_ack_frame a n))
              (sizeof_ack_frame_t - sizeof_unsigned_int) := by
  refine ⟨rfl, rfl, ?_⟩
  simp only [create_ack_frame, ack_checksum_val]

/-- C10. The receiver step of one waiting iteration, for a configuration with
`min_delay_ms ≤ max_delay_ms`, always completes.  If a data frame is in transit, its checksum
verifies and its sequence number equals `expected_seq`, then an acknowledgement is sent
(`acks_sent` grows by 1), `expected_seq` becomes `(expected_seq + 1) % MAX_SEQ_NUM` (the
mathematical `(expected_seq + 1) mod 2` for a non-negative `expected_seq`), and unless the
network drops it the acknowledgement in transit has type ACK, `ack_num` equal to the frame
sequence number and a valid checksum.  In every other case (no frame, corrupted frame, or
a sequence number other than `expected_seq`) no acknowledgement is sent: `acks_sent`,
`expected_seq` and the acknowledgement slot are unchanged. -/
theorem receiver_step_spec (E : env_t) (config : network_config_t) (s : loop_state_t)
    (hconfig : config.min_delay_ms ≤ config.max_delay_ms) :
    ∃ s1 : loop_state_t, receiver_step E config s = .ok s1
      ∧ ((s.w.data_in_transit = true
            ∧ verify_checksum (data_frame_bytes { s.w.network_data_buffer with checksum := 0 })
                (sizeof_data_frame_t - sizeof_unsigned_int)
                s.w.network_data_buffer.checksum = true
            ∧ s.w.network_data_buffer.seq_num = s.receiver.expected_seq)
          → s1.w.stats.acks_sent = s.w.stats.acks_sent + 1
            ∧ s1.receiver.expected_seq = Int.tmod (s.receiver.expected_seq + 1) MAX_SEQ_NUM
            ∧ (0 ≤ s.receiver.expected_seq
                → s1.receiver.expected_seq = (s.receiver.expected_seq + 1) % 2)
            ∧ (frame_lost config (E.rand (s.w.rand_calls + 1)) = false
                → s1.w.ack_in_transit = true
                  ∧ s1.w.network_ack_buffer.type = .ACK_FRAME
                  ∧ s1.w.network_ack_buffer.ack_num = s.w.network_data_buffer.seq_num
                  ∧ s1.w.network_ack_buffer.checksum
                      = calculate_checksum (ack_frame_bytes s1.w.network_ack_buffer)
                          (sizeof_ack_frame_t - sizeof_unsigned_int)))
      ∧ (¬ (s.w.data_in_transit = true
            ∧ verify_checksum (data_frame_bytes { s.w.network_data_buffer with checksum := 0 })
                (sizeof_data_frame_t - sizeof_unsigned_int)
                s.w.network_data_buffer.checksum = true
            ∧ s.w.network_data_buffer.seq_num = s.receiver.expected_seq)
          → s1.w.stats.acks_sent = s.w.stats.acks_sent
            ∧ s1.receiver.expected_seq = s.receiver.expected_seq
            ∧ s1.w.ack_in_transit = s.w.ack_in_transit
            ∧ s1.w.network_ack_buffer = s.w.network_ack_buffer) := by
  have hmod : config.max_delay_ms - config.min_delay_ms + 1 ≠ 0 := by omega
  have hfields := create_ack_frame_fields zero_ack_frame s.w.network_data_buffer.seq_num
  have hmath : 0 ≤ s.receiver.expected_seq
      → Int.tmod (s.receiver.expected_seq + 1) MAX_SEQ_NUM = (s.receiver.expected_seq + 1) % 2 := by
    intro h0
    rw [Int.tmod_eq_emod (by omega) (by decide)]
    rfl
  cases hstep : receiver_step E config s with
  | error e =>
    exfalso
    revert hstep
    simp only [receiver_step, receive_data_frame, send_ack_frame,
      simulate_network_delay_ok _ _ _ hmod, simulate_frame_loss]
    split_ifs <;> simp
  | ok s1 =>
    simp only [receiver_step, receive_data_frame, send_ack_frame,
      simulate_network_delay_ok _ _ _ hmod, simulate_frame_loss] at hstep
    simp only [verify_checksum, beq_iff_eq]
    generalize calculate_checksum
      (data_frame_bytes { s.w.network_data_buffer with checksum := 0 })
      (sizeof_data_frame_t - sizeof_unsigned_int) = c at hstep ⊢
    refine ⟨s1, rfl, ?_, ?_⟩
    · rintro ⟨ht, hv, hseq⟩
      by_cases hl : frame_lost config (E.rand (s.w.rand_calls + 1)) = true
      · simp [ht, hv, hseq, hl] at hstep
        subst hstep
        simp [hl]
        exact hmath
      · have hl' : frame_lost config (E.rand (s.w.rand_calls + 1)) = false := by simpa using hl
        simp [ht, hv, hseq, hl'] at hstep
        subst hstep
        simp [hl']
        exact ⟨hmath, hseq ▸ hfields⟩
    · intro hn
      by_cases ht : s.w.data_in_transit = true
      · by_cases hv : c = s.w.network_data_buffer.checksum
        · have hseq : ¬ s.w.network_data_buffer.seq_num = s.receiver.expected_seq :=
            fun h => hn ⟨ht, hv, h⟩
          simp [ht, hv, hseq] at hstep
          subst hstep
          simp
        · simp [ht, hv] at hstep
          subst hstep
          simp
      · simp [ht] at hstep
        subst hstep
        simp

/-! ## Frame creation and over-long payloads -/

theorem transmit_loop_idle (E : env_t) (config : network_config_t) (g fuel : Nat)
    (s : loop_state_t) (hs : s.sender.state = .WAITING_FOR_ACK)
    (hd : s.w.data_in_transit = false) (ha : s.w.ack_in_transit = false)
    (ht : ∀ j, j < g → E.timer_expired (s.w.timer_polls + j) = false) :
    transmit_loop E config (g + fuel) s
      = transmit_loop E config fuel
          { s with w := { s.w with timer_polls := s.w.timer_polls + g } } := by
  induction g generalizing s with
  | zero =>
    rw [Nat.zero_add]
    rfl
  | succ g ih =>
    have h0 : E.timer_expired s.w.timer_polls = false := by simpa using ht 0 (by omega)
    have hfuel : g + 1 + fuel = (g + fuel) + 1 := by omega
    rw [hfuel, transmit_loop_wait _ _ _ _ hs, receiver_step_idle _ _ _ hd]
    simp only [sender_step_waiting _ _ _ ha hs h0]
    refine (ih _ (by exact hs) (by exact hd) (by exact ha) ?_).trans ?_
    · intro j hj
      have := ht (j + 1) (by omega)
      simpa [Nat.add_assoc, Nat.add_comm 1 j] using this
    · simp only [Nat.add_assoc, Nat.add_comm 1 g]

theorem transmit_loop_until_timeout (E : env_t) (config : network_config_t) (g fuel : Nat)
    (s s1 : loop_state_t) (hs : s.sender.state = .WAITING_FOR_ACK)
    (hrecv : receiver_step E config s = .ok s1)
    (hs1 : s1.sender = s.sender)
    (hd : s1.w.data_in_transit = false) (ha : s1.w.ack_in_transit = false)
    (ht : expires_after E s1.w.timer_polls g) :
    transmit_loop E config (g + fuel + 1) s
      = match sender_step E config
          { s1 with w := { s1.w with timer_polls := s1.w.timer_polls + g } } with
        | .error e => .error e
        | .ok (.ret result s2) => .ok (result, s2)
        | .ok (.next s2) => transmit_loop E config fuel s2 := by
  have hs' : s1.sender.state = .WAITING_FOR_ACK := by rw [hs1]; exact hs
  cases g with
  | zero =>
    rw [Nat.zero_add, transmit_loop_wait _ _ _ _ hs, hrecv]
    rfl
  | succ g =>
    have h0 : E.timer_expired s1.w.timer_polls = false := by simpa using ht.1 0 (by omega)
    have hfuel : g + 1 + fuel + 1 = (g + (fuel + 1)) + 1 := by omega
    rw [hfuel, transmit_loop_wait _ _ _ _ hs, hrecv]
    simp only [sender_step_waiting _ _ _ ha hs' h0]
    refine (transmit_loop_idle _ _ _ _ _ (by exact hs') (by exact hd) (by exact ha)
      ?_).trans ?_
    · intro j hj
      have := ht.1 (j + 1) (by omega)
      simpa [Nat.add_assoc, Nat.add_comm 1 j] using this
    · rw [transmit_loop_wait _ _ _ _ (by exact hs'), receiver_step_idle _ _ _ (by exact hd)]
      simp only [Nat.add_assoc, Nat.add_comm 1 g]

/-! ## Every data frame lost -/

theorem all_data_lost_run (fuel g1 g2 g3 : Nat) (E : env_t) (message : List Nat)
    (config : network_config_t) (w : world_t)
    (hlen1 : 1 ≤ strlen message) (hlen2 : strlen message ≤ MAX_DATA_SIZE - 1)
    (hmod : config.max_delay_ms - config.min_delay_ms + 1 ≠ 0)
    (hdata : w.data_in_transit = false) (hack : w.ack_in_transit = false)
    (hlost : ∀ k, k < 3 → frame_lost config (E.rand (w.rand_calls + 2 * k + 1)) = true)
    (ht1 : expires_after E w.timer_polls g1)
    (ht2 : expires_after E (w.timer_polls + g1 + 1) g2)
    (ht3 : expires_after E (w.timer_polls + g1 + 1 + g2 + 1) g3) :
    transmit_message_locals (fuel + g1 + g2 + g3 + 4) E message config w
      = .ok (false,
          { sender :=
              { init_sender with
                current_frame := filled_data_frame init_sender.current_frame
                  init_sender.seq_num message (strlen message)
                retry_count := 3 }
            receiver := init_receiver
            w := { w with
                   stats := { w.stats with
                              frames_sent := w.stats.frames_sent + 3
                              frames_lost := w.stats.frames_lost + 3
                              retransmissions := w.stats.retransmissions + 3 }
                   rand_calls := w.rand_calls + 6
                   timer_polls := w.timer_polls + g1 + 1 + g2 + 1 + g3 + 1 } }) := by
  have hl0 : frame_lost config (E.rand (w.rand_calls + 1)) = true := by
    simpa using hlost 0 (by omega)
  have hl1 : frame_lost config (E.rand (w.rand_calls + 2 + 1)) = true := by
    simpa using hlost 1 (by omega)
  have hl2 : frame_lost config (E.rand (w.rand_calls + 2 + 2 + 1)) = true := by
    simpa [Nat.add_assoc] using hlost 2 (by omega)
  have hfuel : fuel + g1 + g2 + g3 + 4 = (g1 + (g2 + (g3 + fuel + 1) + 1) + 1) + 1 := by omega
  have hr0 : (0 : Int) + 1 < MAX_RETRIES := by decide
  have hr1 : (0 : Int) + 1 + 1 < MAX_RETRIES := by decide
  have hr2 : MAX_RETRIES ≤ (0 : Int) + 1 + 1 + 1 := by decide
  rw [transmit_message_locals_valid _ _ _ _ _ hlen1 hlen2, hfuel]
  generalize filled_data_frame init_sender.current_frame init_sender.seq_num message
      (strlen message) = f
  simp only [init_sender]
  -- the first transmission is lost
  rw [transmit_loop_start _ _ _ _ rfl rfl]
  simp only [send_data_frame_lost, hmod, hl0, ne_eq, not_false_eq_true]
  -- first timeout: the frame is sent again and lost
  rw [transmit_loop_until_timeout E config g1 _ _ _ rfl (receiver_step_idle _ _ _ hdata) rfl
    hdata hack ht1]
  simp only [sender_step_resend_lost, hack, ht1.2, hr0, hmod, hl1, ne_eq, not_false_eq_true]
  -- second timeout: the frame is sent again and lost
  rw [transmit_loop_until_timeout E config g2 _ _ _ rfl (receiver_step_idle _ _ _ hdata) rfl
    hdata rfl ht2]
  simp only [sender_step_resend_lost, ht2.2, hr1, hmod, hl2, ne_eq, not_false_eq_true]
  -- third timeout: the sender gives up
  rw [transmit_loop_until_timeout E config g3 _ _ _ rfl (receiver_step_idle _ _ _ hdata) rfl
    hdata rfl ht3]
  simp only [sender_step_give_up, ht3.2, hr2]
  simp only [hdata, Int.add_assoc, Nat.add_assoc]
  rfl

/-! ## The first acknowledgement lost -/

theorem ack_lost_run (fuel g1 g2 g3 : Nat) (E : env_t) (message : List Nat)
    (config : network_config_t) (w : world_t)
    (hlen1 : 1 ≤ strlen message) (hlen2 : strlen message ≤ MAX_DATA_SIZE - 1)
    (hmod : config.max_delay_ms - config.min_delay_ms + 1 ≠ 0)
    (hdata : w.data_in_transit = false) (hack : w.ack_in_transit = false)
    (hlost : frame_lost config (E.rand (w.rand_calls + 2 * 1 + 1)) = true)
    (hkept : ∀ k, k ≠ 1 → frame_lost config (E.rand (w.rand_calls + 2 * k + 1)) = false)
    (ht1 : expires_after E w.timer_polls g1)
    (ht2 : expires_after E (w.timer_polls + g1 + 1) g2)
    (ht3 : expires_after E (w.timer_polls + g1 + 1 + g2 + 1) g3) :
    transmit_message_locals (fuel + g1 + g2 + g3 + 4) E message config w
      = .ok (false,
          { sender :=
              { init_sender with
                current_frame := filled_data_frame init_sender.current_frame
                  init_sender.seq_num message (strlen message)
                retry_count := 3 }
            receiver := { init_receiver with expected_seq := 1 }
            w := { w with
                   stats := { w.stats with
                              frames_sent := w.stats.frames_sent + 3
                              frames_received := w.stats.frames_received + 3
                              acks_sent := w.stats.acks_sent + 1
                              frames_lost := w.stats.frames_lost + 1
                              retransmissions := w.stats.retransmissions + 3 }
                   network_data_buffer := filled_data_frame init_sender.current_frame
                     init_sender.seq_num message (strlen message)
                   rand_calls := w.rand_calls + 8
                   timer_polls := w.timer_polls + g1 + 1 + g2 + 1 + g3 + 1 } }) := by
  have hd0 : frame_lost config (E.rand (w.rand_calls + 1)) = false := by
    simpa using hkept 0 (by omega)
  have hak : frame_lost config (E.rand (w.rand_calls + 2 + 1)) = true := by
    simpa using hlost
  have hd1 : frame_lost config (E.rand (w.rand_calls + 2 + 2 + 1)) = false := by
    simpa [Nat.add_assoc] using hkept 2 (by omega)
  have hd2 : frame_lost config (E.rand (w.rand_calls + 2 + 2 + 2 + 1)) = false := by
    simpa [Nat.add_assoc] using hkept 3 (by omega)
  have hfuel : fuel + g1 + g2 + g3 + 4 = (g1 + (g2 + (g3 + fuel + 1) + 1) + 1) + 1 := by omega
  have hr0 : (0 : Int) + 1 < MAX_RETRIES := by decide
  have hr1 : (0 : Int) + 1 + 1 < MAX_RETRIES := by decide
  have hr2 : MAX_RETRIES ≤ (0 : Int) + 1 + 1 + 1 := by decide
  have he : Int.tmod (0 + 1) MAX_SEQ_NUM = 1 := by decide
  have hflen := first_frame_data_length message
  have hfck := first_frame_checksum message
  have hfseq : (filled_data_frame init_sender.current_frame init_sender.seq_num message
      (strlen message)).seq_num = 0 := rfl
  rw [transmit_message_locals_valid _ _ _ _ _ hlen1 hlen2, hfuel]
  generalize filled_data_frame init_sender.current_frame init_sender.seq_num message
      (strlen message) = f at *
  have hdup : f.seq_num ≠ 1 := by rw [hfseq]; decide
  simp only [init_sender, init_receiver]
  -- the first transmission is delivered
  rw [transmit_loop_start _ _ _ _ rfl rfl]
  simp only [send_data_frame_delivered, hmod, hd0, ne_eq, not_false_eq_true]
  -- the receiver accepts the frame, its acknowledgement is lost, the timer expires
  refine (transmit_loop_until_timeout E config g1 _ _ _ (by rfl)
    (receiver_step_accept_ack_lost E config _ (by rfl) (by exact hflen) (by exact hfck)
      (by exact hfseq) hmod (by exact hak))
    (by rfl) (by rfl) (by exact hack) (by exact ht1)).trans ?_
  simp only [sender_step_resend_delivered, hack, ht1.2, hr0, hmod, hd1, ne_eq,
    not_false_eq_true, he]
  -- the retransmitted frame is a duplicate: no acknowledgement, second timeout
  refine (transmit_loop_until_timeout E config g2 _ _ _ (by rfl)
    (receiver_step_duplicate E config _ (by rfl) (by exact hflen) (by exact hfck)
      (by exact hdup))
    (by rfl) (by rfl) (by rfl) (by exact ht2)).trans ?_
  simp only [sender_step_resend_delivered, ht2.2, hr1, hmod, hd2, ne_eq, not_false_eq_true]
  -- the same again, and at the third timeout the sender gives up
  refine (transmit_loop_until_timeout E config g3 _ _ _ (by rfl)
    (receiver_step_duplicate E config _ (by rfl) (by exact hflen) (by exact hfck)
      (by exact hdup))
    (by rfl) (by rfl) (by rfl) (by exact ht3)).trans ?_
  simp only [sender_step_give_up, ht3.2, hr2]
  simp only [hdata, Int.add_assoc, Nat.add_assoc]
  rfl

/-! ## What every run preserves -/

theorem receiver_step_sender (E : env_t) (config : network_config_t) (s s1 : loop_state_t)
    (h : receiver_step E config s = .ok s1) : s1.sender = s.sender := by
  simp only [receiver_step] at h
  split_ifs at h
  · split at h
    · simp at h
    · simp only [Except.ok.injEq] at h
      rw [← h]
  · simp only [Except.ok.injEq] at h
    rw [← h]
  · simp only [Except.ok.injEq] at h
    rw [← h]

theorem handle_timeout_sender (E : env_t) (config : network_config_t)
    (sender sender1 : sender_state_t) (w w1 : world_t)
    (h : handle_timeout E sender config w = .ok (sender1, w1)) :
    sender1.seq_num = sender.seq_num ∧ sender1.current_frame = sender.current_frame := by
  simp only [handle_timeout, reset_timer] at h
  split_ifs at h
  · simp only [Except.ok.injEq, Prod.mk.injEq] at h
    rw [← h.1]
    exact ⟨rfl, rfl⟩
  · split at h
    · simp at h
    · simp only [Except.ok.injEq, Prod.mk.injEq] at h
      rw [← h.1]
      exact ⟨rfl, rfl⟩

theorem sender_step_next (E : env_t) (config : network_config_t) (s s1 : loop_state_t)
    (h : sender_step E config s = .ok (.next s1)) :
    s1.sender.seq_num = s.sender.seq_num
      ∧ s1.sender.current_frame = s.sender.current_frame := by
  simp only [sender_step] at h
  split_ifs at h
  · simp at h
  · split at h
    · simp at h
    · rename_i sender w3 hto
      have := handle_timeout_sender _ _ _ _ _ _ hto
      split_ifs at h
      · simp at h
      · simp only [Except.ok.injEq, step_t.next.injEq] at h
        rw [← h]
        exact this
  · simp only [Except.ok.injEq, step_t.next.injEq] at h
    rw [← h]
    exact ⟨rfl, rfl⟩

theorem sender_step_ret_true (E : env_t) (config : network_config_t) (s s1 : loop_state_t)
    (h : sender_step E config s = .ok (.ret true s1)) :
    s1.sender.seq_num = Int.tmod (s.sender.seq_num + 1) MAX_SEQ_NUM
      ∧ s1.sender.current_frame = s.sender.current_frame := by
  simp only [sender_step] at h
  split_ifs at h
  · simp only [Except.ok.injEq, step_t.ret.injEq, true_and] at h
    rw [← h]
    exact ⟨rfl, rfl⟩
  · split at h
    · simp at h
    · split_ifs at h <;> simp at h
  · simp at h

theorem transmit_iteration_next (E : env_t) (config : network_config_t)
    (s s1 : loop_state_t) (h : transmit_iteration E config s = .ok (.next s1)) :
    s1.sender.seq_num = s.sender.seq_num
      ∧ s1.sender.current_frame = s.sender.current_frame := by
  simp only [transmit_iteration, reset_timer] at h
  split at h
  · split at h
    · simp at h
    · simp only [Except.ok.injEq, step_t.next.injEq] at h
      rw [← h]
      exact ⟨rfl, rfl⟩
  · split at h
    · simp at h
    · rename_i s2 hrecv
      have h1 := receiver_step_sender _ _ _ _ hrecv
      have h2 := sender_step_next _ _ _ _ h
      rw [h1] at h2
      exact h2
  · simp at h

theorem transmit_iteration_ret_true (E : env_t) (config : network_config_t)
    (s s1 : loop_state_t) (h : transmit_iteration E config s = .ok (.ret true s1)) :
    s1.sender.seq_num = Int.tmod (s.sender.seq_num + 1) MAX_SEQ_NUM
      ∧ s1.sender.current_frame = s.sender.current_frame := by
  simp only [transmit_iteration, reset_timer] at h
  split at h
  · split at h <;> simp at h
  · split at h
    · simp at h
    · rename_i s2 hrecv
      have h1 := receiver_step_sender _ _ _ _ hrecv
      have h2 := sender_step_ret_true _ _ _ _ h
      rw [h1] at h2
      exact h2
  · simp at h

theorem transmit_loop_success (E : env_t) (config : network_config_t) (fuel : Nat)
    (s s1 : loop_state_t) (h : transmit_loop E config fuel s = .ok (true, s1)) :
    s1.sender.seq_num = Int.tmod (s.sender.seq_num + 1) MAX_SEQ_NUM
      ∧ s1.sender.current_frame = s.sender.current_frame := by
  induction fuel generalizing s with
  | zero => simp [transmit_loop] at h
  | succ fuel ih =>
    simp only [transmit_loop] at h
    split_ifs at h
    · split at h
      · simp at h
      · rename_i result s2 hit
        simp only [Except.ok.injEq, Prod.mk.injEq] at h
        rw [h.1, h.2] at hit
        exact transmit_iteration_ret_true _ _ _ _ hit
      · rename_i s2 hit
        have h1 := transmit_iteration_next _ _ _ _ hit
        have h2 := ih _ h
        rw [h1.1, h1.2] at h2
        exact h2
    · simp at h

theorem transmit_message_success (fuel : Nat) (E : env_t) (message : List Nat)
    (config : network_config_t) (w : world_t) (s1 : loop_state_t)
    (h : transmit_message_locals fuel E message config w = .ok (true, s1)) :
    s1.sender.current_frame.seq_num = 0 ∧ s1.sender.seq_num = 1 := by
  rcases transmit_message_locals_cases message with hc | hc | ⟨payload, -, -, hc⟩
  · rw [hc] at h
    simp at h
  · rw [hc] at h
    cases h
  · rw [hc] at h
    have := transmit_loop_success _ _ _ _ _ h
    rw [this.1, this.2]
    exact ⟨rfl, rfl⟩

/-! ## Facts about the concrete inputs -/

theorem strlen_message_ABC : strlen message_ABC = 3 := by decide

theorem frame_lost_half_zero : frame_lost half_loss_config 0 = true := by
  simp [frame_lost, half_loss_config]

theorem frame_lost_half_max : frame_lost half_loss_config RAND_MAX = false := by
  simp only [frame_lost, half_loss_config, RAND_MAX, decide_eq_false_iff_not]
  norm_num

theorem zero_data_frame_length : zero_data_frame.data.length = MAX_DATA_SIZE := by
  simp [zero_data_frame]

theorem zero_data_frame_bytes : ∀ b ∈ zero_data_frame.data, b < 256 := by
  intro b hb
  simp only [zero_data_frame, List.mem_replicate] at hb
  omega

theorem expires_at_once (rand : Nat → Nat) (start : Nat) :
    expires_after { rand := rand, timer_expired := fun _ => true } start 0 :=
  ⟨fun j hj => absurd hj (Nat.not_lt_zero j), rfl⟩

theorem ack_lost_env_kept (k : Nat) (hk : k ≠ 1) :
    frame_lost half_loss_config (ack_lost_env.rand (initial_world.rand_calls + 2 * k + 1))
      = false := by
  have h3 : ¬ (initial_world.rand_calls + 2 * k + 1 = 3) := by
    simp only [initial_world]; omega
  simp only [ack_lost_env, h3, if_false]
  exact frame_lost_half_max

/-! ## The claims about whole runs -/

theorem ideal_network_transmission_witness :
    1 ≤ strlen message_ABC ∧ strlen message_ABC ≤ MAX_DATA_SIZE - 1
      ∧ ideal_config.loss_probability = 0
      ∧ ∃ w1 : world_t,
          transmit_message 2 zero_rand_env message_ABC ideal_config initial_world
              = .ok (true, w1)
          ∧ w1.stats.frames_sent = initial_world.stats.frames_sent + 1
          ∧ w1.stats.frames_received = initial_world.stats.frames_received + 1
          ∧ w1.stats.acks_sent = initial_world.stats.acks_sent + 1
          ∧ w1.stats.acks_received = initial_world.stats.acks_received + 1
          ∧ w1.stats.frames_lost = initial_world.stats.frames_lost
          ∧ w1.stats.retransmissions = initial_world.stats.retransmissions :=
  ⟨by decide, by decide, rfl,
   ideal_network_transmission 0 zero_rand_env message_ABC ideal_config initial_world
     (by decide) (by decide) rfl (by decide) (by decide) rfl rfl⟩

theorem frame_ABC_created :
    create_data_frame zero_data_frame 0 message_ABC 3 = .ok frame_ABC :=
  create_data_frame_ok zero_data_frame 0 message_ABC 3 (by decide)

theorem checksum_round_trip_witness :
    create_data_frame zero_data_frame 0 message_ABC 3 = .ok frame_ABC
      ∧ frame_ABC.checksum
        = calculate_checksum (data_frame_bytes frame_ABC)
            (sizeof_data_frame_t - sizeof_unsigned_int)
      ∧ (receive_data_frame zero_data_frame world_ABC_in_transit).1 = true := by
  obtain ⟨f, hf, hc, hr⟩ := checksum_round_trip zero_data_frame 0 message_ABC 3
    zero_data_frame world_ABC_in_transit zero_data_frame_length (Or.inl rfl) (by decide)
    (by decide) (by decide) rfl
  have hfe : frame_ABC = f := Except.ok.inj (frame_ABC_created.symm.trans hf)
  rw [hfe]
  exact ⟨hf, hc, hr (by rw [← hfe]; rfl)⟩

theorem single_bit_flip_detected_witness :
    create_data_frame zero_data_frame 0 message_ABC 3 = .ok frame_ABC
      ∧ (receive_data_frame zero_data_frame world_ABC_corrupted).1 = false := by
  obtain ⟨f, hf, hr⟩ := single_bit_flip_detected zero_data_frame 0 message_ABC 3 0 0
    zero_data_frame world_ABC_corrupted zero_data_frame_length zero_data_frame_bytes
    (by decide) (Or.inl rfl) (by decide) (by decide) (by decide) (by decide) (by decide) rfl
  have hfe : frame_ABC = f := Except.ok.inj (frame_ABC_created.symm.trans hf)
  exact ⟨frame_ABC_created, hr (by rw [← hfe]; rfl)⟩

/-- C3. For every valid payload, in every run of `transmit_message` (started with empty
network slots, the delay modulus not zero) in which each of the three transmissions of the
data frame is dropped by the network and the timer expires after each transmission (after
`g1`, `g2`, `g3` polls that answer "not yet"), `transmit_message` returns false, given fuel
for the `g1 + g2 + g3 + 4` loop iterations; `stats.retransmissions` has then increased by
exactly `MAX_RETRIES` and the final state of the sender is `WAITING_FOR_CALL`. -/
theorem permanent_failure_when_data_lost (fuel g1 g2 g3 : Nat) (E : env_t)
    (message : List Nat) (config : network_config_t) (w : world_t)
    (hlen1 : 1 ≤ strlen message) (hlen2 : strlen message ≤ MAX_DATA_SIZE - 1)
    (hmod : config.max_delay_ms - config.min_delay_ms + 1 ≠ 0)
    (hdata : w.data_in_transit = false) (hack : w.ack_in_transit = false)
    (hlost : ∀ k, k < 3 → frame_lost config (E.rand (w.rand_calls + 2 * k + 1)) = true)
    (ht1 : expires_after E w.timer_polls g1)
    (ht2 : expires_after E (w.timer_polls + g1 + 1) g2)
    (ht3 : expires_after E (w.timer_polls + g1 + 1 + g2 + 1) g3) :
    ∃ s1 : loop_state_t,
      transmit_message_locals (fuel + g1 + g2 + g3 + 4) E message config w = .ok (false, s1)
      ∧ transmit_message (fuel + g1 + g2 + g3 + 4) E message config w = .ok (false, s1.w)
      ∧ s1.w.stats.retransmissions = w.stats.retransmissions + MAX_RETRIES
      ∧ s1.sender.state = .WAITING_FOR_CALL := by
  have hrun := all_data_lost_run fuel g1 g2 g3 E message config w hlen1 hlen2 hmod hdata hack
    hlost ht1 ht2 ht3
  refine ⟨_, hrun, ?_, rfl, rfl⟩
  simp only [transmit_message, hrun]

theorem permanent_failure_when_data_lost_witness :
    ∃ s1 : loop_state_t,
      transmit_message_locals 4 zero_rand_env message_ABC half_loss_config initial_world
          = .ok (false, s1)
      ∧ transmit_message 4 zero_rand_env message_ABC half_loss_config initial_world
          = .ok (false, s1.w)
      ∧ s1.w.stats.retransmissions = initial_world.stats.retransmissions + MAX_RETRIES
      ∧ s1.sender.state = .WAITING_FOR_CALL :=
  permanent_failure_when_data_lost 0 0 0 0 zero_rand_env message_ABC half_loss_config
    initial_world (by decide) (by decide) (by decide) rfl rfl
    (fun _ _ => frame_lost_half_zero) (expires_at_once _ _) (expires_at_once _ _)
    (expires_at_once _ _)

/-- C4, counterexample: "ABC" is sent with loss probability one half, `rand()` returning 0
only for the first acknowledgement (which is therefore the only transmission dropped) and
the timer expired at every poll.  `transmit_message` returns false, not true, with 3
retransmissions counted, not 1; the receiver took the frame 3 times and sent 1
acknowledgement. -/
theorem ack_loss_ends_in_failure :
    ∃ w1 : world_t,
      transmit_message 4 ack_lost_env message_ABC half_loss_config initial_world
          = .ok (false, w1)
      ∧ w1.stats.retransmissions = 3
      ∧ w1.stats.frames_received = 3
      ∧ w1.stats.acks_sent = 1 := by
  have hrun := ack_lost_run 0 0 0 0 ack_lost_env message_ABC half_loss_config initial_world
    (by decide) (by decide) (by decide) rfl rfl frame_lost_half_zero ack_lost_env_kept
    (expires_at_once _ _) (expires_at_once _ _) (expires_at_once _ _)
  simp only [transmit_message, hrun]
  exact ⟨_, rfl, rfl, rfl, rfl⟩

/-- C4, amended: no recovery from a lost acknowledgement.  For every valid payload, in every
run (started with empty network slots, the delay modulus not zero) in which the first
acknowledgement is the only transmission dropped and the timer expires after each
transmission of the data frame, the receiver takes the same frame (sequence number 0) three
times, acknowledges only the first one and discards the two duplicates without an
acknowledgement (`expected_seq` is 1 by then), no acknowledgement reaches the sender, and
`transmit_message` returns false with `stats.retransmissions` increased by `MAX_RETRIES`. -/
theorem no_recovery_from_ack_loss (fuel g1 g2 g3 : Nat) (E : env_t)
    (message : List Nat) (config : network_config_t) (w : world_t)
    (hlen1 : 1 ≤ strlen message) (hlen2 : strlen message ≤ MAX_DATA_SIZE - 1)
    (hmod : config.max_delay_ms - config.min_delay_ms + 1 ≠ 0)
    (hdata : w.data_in_transit = false) (hack : w.ack_in_transit = false)
    (hlost : frame_lost config (E.rand (w.rand_calls + 2 * 1 + 1)) = true)
    (hkept : ∀ k, k ≠ 1 → frame_lost config (E.rand (w.rand_calls + 2 * k + 1)) = false)
    (ht1 : expires_after E w.timer_polls g1)
    (ht2 : expires_after E (w.timer_polls + g1 + 1) g2)
    (ht3 : expires_after E (w.timer_polls + g1 + 1 + g2 + 1) g3) :
    ∃ s1 : loop_state_t,
      transmit_message_locals (fuel + g1 + g2 + g3 + 4) E message config w = .ok (false, s1)
      ∧ transmit_message (fuel + g1 + g2 + g3 + 4) E message config w = .ok (false, s1.w)
      ∧ s1.w.stats.retransmissions = w.stats.retransmissions + MAX_RETRIES
      ∧ s1.w.stats.frames_sent = w.stats.frames_sent + 3
      ∧ s1.w.stats.frames_received = w.stats.frames_received + 3
      ∧ s1.w.stats.acks_sent = w.stats.acks_sent + 1
      ∧ s1.w.stats.acks_received = w.stats.acks_received
      ∧ s1.w.network_data_buffer = s1.sender.current_frame
      ∧ s1.sender.current_frame.seq_num = 0
      ∧ s1.receiver.expected_seq = 1 := by
  have hrun := ack_lost_run fuel g1 g2 g3 E message config w hlen1 hlen2 hmod hdata hack
    hlost hkept ht1 ht2 ht3
  refine ⟨_, hrun, ?_, rfl, rfl, rfl, rfl, rfl, rfl, rfl, rfl⟩
  simp only [transmit_message, hrun]

theorem no_recovery_from_ack_loss_witness :
    ∃ s1 : loop_state_t,
      transmit_message_locals 4 ack_lost_env message_ABC half_loss_config initial_world
          = .ok (false, s1)
      ∧ transmit_message 4 ack_lost_env message_ABC half_loss_config initial_world
          = .ok (false, s1.w)
      ∧ s1.w.stats.retransmissions = initial_world.stats.retransmissions + MAX_RETRIES
      ∧ s1.w.stats.frames_sent = initial_world.stats.frames_sent + 3
      ∧ s1.w.stats.frames_received = initial_world.stats.frames_received + 3
      ∧ s1.w.stats.acks_sent = initial_world.stats.acks_sent + 1
      ∧ s1.w.stats.acks_received = initial_world.stats.acks_received
      ∧ s1.w.network_data_buffer = s1.sender.current_frame
      ∧ s1.sender.current_frame.seq_num = 0
      ∧ s1.receiver.expected_seq = 1 :=
  no_recovery_from_ack_loss 0 0 0 0 ack_lost_env message_ABC half_loss_config initial_world
    (by decide) (by decide) (by decide) rfl rfl frame_lost_half_zero ack_lost_env_kept
    (expires_at_once _ _) (expires_at_once _ _) (expires_at_once _ _)

theorem first_call_ABC :
    transmit_message_locals 2 zero_rand_env message_ABC ideal_config initial_world
      = .ok (true,
          { sender :=
              { init_sender with
                current_frame := filled_data_frame init_sender.current_frame
                  init_sender.seq_num message_ABC (strlen message_ABC)
                seq_num := 1 }
            receiver := { init_receiver with expected_seq := 1 }
            w := world_after_ABC }) :=
  loss_free_run 0 zero_rand_env message_ABC ideal_config initial_world
    (by decide) (by decide) (by decide) (frame_lost_zero _ _ rfl) (frame_lost_zero _ _ rfl)

/-- C7, counterexample: two consecutive successful calls of `transmit_message` for "ABC"
over the ideal network.  The data frame of the second call carries sequence number 0, not
1, and after the second success the sequence number of the sender is 1, not 0. -/
theorem second_call_starts_from_zero :
    ∃ s1 s2 : loop_state_t,
      transmit_message_locals 2 zero_rand_env message_ABC ideal_config initial_world
          = .ok (true, s1)
      ∧ transmit_message_locals 2 zero_rand_env message_ABC ideal_config s1.w
          = .ok (true, s2)
      ∧ s2.sender.current_frame.seq_num = 0
      ∧ s2.w.network_data_buffer.seq_num = 0
      ∧ s2.sender.seq_num = 1 := by
  have h2 := loss_free_run 0 zero_rand_env message_ABC ideal_config world_after_ABC
    (by decide) (by decide) (by decide) (frame_lost_zero _ _ rfl) (frame_lost_zero _ _ rfl)
  exact ⟨_, _, first_call_ABC, h2, rfl, rfl, rfl⟩

/-- C7, amended: the sequence number restarts in every call.  For two consecutive
successful calls of `transmit_message` (any messages, configuration, environment and fuel),
the data frame of each call carries sequence number 0 and the sequence number of the sender
is 1 when each call returns: 0 to 1 in the first call and again 0 to 1 in the second. -/
theorem sequence_number_restarts_each_call (fuel1 fuel2 : Nat) (E : env_t)
    (message1 message2 : List Nat) (config : network_config_t) (w : world_t)
    (s1 s2 : loop_state_t)
    (hfirst : transmit_message_locals fuel1 E message1 config w = .ok (true, s1))
    (hsecond : transmit_message_locals fuel2 E message2 config s1.w = .ok (true, s2)) :
    s1.sender.current_frame.seq_num = 0 ∧ s1.sender.seq_num = 1
      ∧ s2.sender.current_frame.seq_num = 0 ∧ s2.sender.seq_num = 1 := by
  have h1 := transmit_message_success _ _ _ _ _ _ hfirst
  have h2 := transmit_message_success _ _ _ _ _ _ hsecond
  exact ⟨h1.1, h1.2, h2.1, h2.2⟩

theorem sequence_number_restarts_each_call_witness :
    ∃ s1 s2 : loop_state_t,
      transmit_message_locals 2 zero_rand_env message_ABC ideal_config initial_world
          = .ok (true, s1)
      ∧ transmit_message_locals 2 zero_rand_env message_ABC ideal_config s1.w
          = .ok (true, s2)
      ∧ s1.sender.current_frame.seq_num = 0 ∧ s1.sender.seq_num = 1
      ∧ s2.sender.current_frame.seq_num = 0 ∧ s2.sender.seq_num = 1 := by
  have h2 := loss_free_run 0 zero_rand_env message_ABC ideal_config world_after_ABC
    (by decide) (by decide) (by decide) (frame_lost_zero _ _ rfl) (frame_lost_zero _ _ rfl)
  exact ⟨_, _, first_call_ABC, h2,
    sequence_number_restarts_each_call 2 2 zero_rand_env message_ABC message_ABC ideal_config
      initial_world _ _ first_call_ABC h2⟩

theorem verify_of_checksum (f : data_frame_t) (hlen : f.data.length = MAX_DATA_SIZE)
    (hc : f.checksum = calculate_checksum (data_frame_bytes f)
      (sizeof_data_frame_t - sizeof_unsigned_int)) :
    verify_checksum (data_frame_bytes { f with checksum := 0 })
      (sizeof_data_frame_t - sizeof_unsigned_int) f.checksum = true := by
  have hlen0 : ({ f with checksum := 0 } : data_frame_t).data.length = MAX_DATA_SIZE := hlen
  rw [data_checksum_val _ hlen] at hc
  simp only [verify_checksum, beq_iff_eq]
  rw [data_checksum_val _ hlen0, hc]

theorem frame_ABC_verifies :
    verify_checksum (data_frame_bytes { frame_ABC with checksum := 0 })
      (sizeof_data_frame_t - sizeof_unsigned_int) frame_ABC.checksum = true := by
  apply verify_of_checksum
  · unfold frame_ABC
    exact create_data_frame_data_length _ _ _ _ zero_data_frame_length (by decide)
  · unfold frame_ABC
    exact create_data_frame_checksum _ _ _ _ zero_data_frame_length (by decide)

theorem receiver_step_spec_witness :
    ideal_config.min_delay_ms ≤ ideal_config.max_delay_ms
      ∧ ∃ s1 : loop_state_t,
          receiver_step zero_rand_env ideal_config
              { sender := init_sender, receiver := init_receiver, w := world_ABC_in_transit }
            = .ok s1
          ∧ s1.w.stats.acks_sent = world_ABC_in_transit.stats.acks_sent + 1
          ∧ s1.receiver.expected_seq = 1
          ∧ s1.w.ack_in_transit = true
          ∧ s1.w.network_ack_buffer.ack_num = 0 := by
  refine ⟨by decide, ?_⟩
  obtain ⟨s1, h1, hacc, _⟩ := receiver_step_spec zero_rand_env ideal_config
    { sender := init_sender, receiver := init_receiver, w := world_ABC_in_transit }
    (by decide)
  obtain ⟨h2, h3, _, h4⟩ := hacc ⟨rfl, frame_ABC_verifies, rfl⟩
  obtain ⟨h5, _, h6, _⟩ := h4 (frame_lost_zero _ _ rfl)
  exact ⟨s1, h1, h2, h3, h5, h6⟩

/-! ## Acceptance of an acknowledgement -/

theorem receive_ack_frame_world (sender : sender_state_t) (w : world_t) :
    (receive_ack_frame sender w).2
      = if w.ack_in_transit = true then
          { w with
            ack_in_transit := false
            stats := { w.stats with acks_received := w.stats.acks_received + 1 } }
        else w := by
  simp only [receive_ack_frame]
  split_ifs <;> simp_all

/-- C11. Sender ack acceptance: `receive_ack_frame` returns true if and only if an ack frame
is in transit, its stored checksum equals the checksum recomputed over its bytes before the
checksum field, and its `ack_num` equals `sender.seq_num`.  Its only effect is on the world:
an ack in transit is taken out of the slot and counted in `acks_received`; the function has
no sender output because the source never writes through `sender`.  In the waiting
iteration of `transmit_message`, when it returns false (no ack, invalid ack or wrong number)
and the timer has not expired, the next loop state has the same sender: state, `seq_num`,
`retry_count` and current frame are unchanged. -/
theorem ack_acceptance (E : env_t) (config : network_config_t) (s : loop_state_t) :
    ((receive_ack_frame s.sender s.w).1 = true
        ↔ (s.w.ack_in_transit = true
            ∧ verify_checksum (ack_frame_bytes { s.w.network_ack_buffer with checksum := 0 })
                (sizeof_ack_frame_t - sizeof_unsigned_int)
                s.w.network_ack_buffer.checksum = true
            ∧ s.w.network_ack_buffer.ack_num = s.sender.seq_num))
      ∧ (receive_ack_frame s.sender s.w).2
          = (if s.w.ack_in_transit = true then
              { s.w with
                ack_in_transit := false
                stats := { s.w.stats with acks_received := s.w.stats.acks_received + 1 } }
            else s.w)
      ∧ ((receive_ack_frame s.sender s.w).1 = false
          → (is_timeout E s.sender (receive_ack_frame s.sender s.w).2).1 = false
          → sender_step E config s
              = .ok (.next
                  { s with
                    w := (is_timeout E s.sender (receive_ack_frame s.sender s.w).2).2 })) := by
  refine ⟨?_, receive_ack_frame_world s.sender s.w, ?_⟩
  · simp only [receive_ack_frame, verify_checksum, beq_iff_eq]
    by_cases ht : s.w.ack_in_transit = true
    · simp only [ht, Bool.not_true, if_false, true_and]
      split_ifs with h1 h2 <;> simp_all
    · simp [ht]
  · intro h1 h2
    simp only [sender_step, h1, h2]
    simp

/-! ## The loss decision and the delay -/

theorem frame_lost_certain_below_max (config : network_config_t) (r : Nat)
    (hp : config.loss_probability = 1) (hr : r < RAND_MAX) : frame_lost config r = true := by
  have h0 : (0 : ℚ) < (RAND_MAX : ℚ) := by simp [RAND_MAX]
  have h1 : (r : ℚ) < (RAND_MAX : ℚ) := by exact_mod_cast hr
  simp only [frame_lost, hp, decide_eq_true_eq]
  rw [div_lt_one h0]
  exact h1

/-- C12, the code at the failing input: with loss probability 1 and `rand()` returning
`RAND_MAX`, the compared value is `RAND_MAX / RAND_MAX = 1`, which is not below 1, so
`simulate_frame_loss` reports the frame as not lost. -/
theorem certain_loss_misses_rand_max :
    frame_lost certain_loss_config RAND_MAX = false
      ∧ (simulate_frame_loss max_rand_env certain_loss_config initial_world).1 = false := by
  have h : frame_lost certain_loss_config RAND_MAX = false := by
    simp only [frame_lost, certain_loss_config, RAND_MAX, decide_eq_false_iff_not]
    norm_num
  exact ⟨h, h⟩

/-- C13. For every network configuration with `0 ≤ min_delay_ms ≤ max_delay_ms` (and
`max_delay_ms - min_delay_ms + 1` representable as `int`) and every value `r` of `rand()`,
the modulus `max_delay_ms - min_delay_ms + 1` is not zero, so `simulate_network_delay`
computes a delay, the delay is `min_delay_ms + r mod (max_delay_ms - min_delay_ms + 1)`,
and it lies between `min_delay_ms` and `max_delay_ms`. -/
theorem network_delay_in_range (config : network_config_t) (r : Nat)
    (_hmin : 0 ≤ config.min_delay_ms) (hmax : config.min_delay_ms ≤ config.max_delay_ms)
    (_hrep : config.max_delay_ms - config.min_delay_ms + 1 ≤ 2147483647) :
    config.max_delay_ms - config.min_delay_ms + 1 ≠ 0
      ∧ ∃ delay : Int,
          network_delay config r = .ok delay
          ∧ delay = config.min_delay_ms
              + (r : Int) % (config.max_delay_ms - config.min_delay_ms + 1)
          ∧ config.min_delay_ms ≤ delay ∧ delay ≤ config.max_delay_ms := by
  have hmod : config.max_delay_ms - config.min_delay_ms + 1 ≠ 0 := by omega
  have hpos : 0 < config.max_delay_ms - config.min_delay_ms + 1 := by omega
  have hr : (0 : Int) ≤ (r : Int) := Int.ofNat_nonneg r
  have htmod : Int.tmod (r : Int) (config.max_delay_ms - config.min_delay_ms + 1)
      = (r : Int) % (config.max_delay_ms - config.min_delay_ms + 1) :=
    Int.tmod_eq_emod hr (le_of_lt hpos)
  have h1 := Int.emod_nonneg (r : Int) hmod
  have h2 := Int.emod_lt_of_pos (r : Int) hpos
  refine ⟨hmod, _, ?_, rfl, ?_, ?_⟩
  · simp only [network_delay, hmod, if_false, htmod]
  · omega
  · omega

theorem network_delay_in_range_witness :
    ideal_config.min_delay_ms ≤ ideal_config.max_delay_ms
      ∧ ideal_config.max_delay_ms - ideal_config.min_delay_ms + 1 ≠ 0
      ∧ ∃ delay : Int,
          network_delay ideal_config 7 = .ok delay
          ∧ delay = ideal_config.min_delay_ms
              + ((7 : Nat) : Int) % (ideal_config.max_delay_ms - ideal_config.min_delay_ms + 1)
          ∧ ideal_config.min_delay_ms ≤ delay ∧ delay ≤ ideal_config.max_delay_ms :=
  ⟨by decide, network_delay_in_range ideal_config 7 (by decide) (by decide) (by decide)⟩

/-! ## The frame in the data slot -/

theorem send_data_frame_buffer (E : env_t) (frame : data_frame_t) (config : network_config_t)
    (w w1 : world_t) (b : Bool) (h : send_data_frame E frame config w = .ok (b, w1))
    (hinv : w.data_in_transit = true → w.network_data_buffer = frame) :
    w1.data_in_transit = true → w1.network_data_buffer = frame := by
  simp only [send_data_frame, simulate_network_delay, simulate_frame_loss] at h
  split at h
  · simp at h
  · rename_i w2 hdelay
    split at hdelay
    · simp at hdelay
    · simp only [Except.ok.injEq] at hdelay
      split_ifs at h
      · simp only [Except.ok.injEq, Prod.mk.injEq] at h
        rw [← h.2, ← hdelay]
        exact hinv
      · simp only [Except.ok.injEq, Prod.mk.injEq] at h
        rw [← h.2]
        intro _
        rfl

theorem receive_data_frame_slot (frame : data_frame_t) (w : world_t) :
    (receive_data_frame frame w).2.2.data_in_transit = false
      ∧ (receive_data_frame frame w).2.2.ack_in_transit = w.ack_in_transit := by
  simp only [receive_data_frame]
  split_ifs with h1 h2
  · simp at h1
    exact ⟨h1, rfl⟩
  · exact ⟨rfl, rfl⟩
  · exact ⟨rfl, rfl⟩

theorem send_ack_frame_data_slot (E : env_t) (ack : ack_frame_t) (config : network_config_t)
    (w w1 : world_t) (b : Bool) (h : send_ack_frame E ack config w = .ok (b, w1)) :
    w1.data_in_transit = w.data_in_transit := by
  simp only [send_ack_frame, simulate_network_delay, simulate_frame_loss] at h
  split at h
  · simp at h
  · rename_i w2 hdelay
    split at hdelay
    · simp at hdelay
    · simp only [Except.ok.injEq] at hdelay
      split_ifs at h
      · simp only [Except.ok.injEq, Prod.mk.injEq] at h
        rw [← h.2, ← hdelay]
      · simp only [Except.ok.injEq, Prod.mk.injEq] at h
        rw [← h.2, ← hdelay]

theorem receiver_step_data_slot (E : env_t) (config : network_config_t)
    (s s1 : loop_state_t) (h : receiver_step E config s = .ok s1) :
    s1.w.data_in_transit = false := by
  have hslot := (receive_data_frame_slot zero_data_frame s.w).1
  simp only [receiver_step] at h
  split_ifs at h
  · split at h
    · simp at h
    · rename_i b w2 hack
      simp only [Except.ok.injEq] at h
      rw [← h]
      exact (send_ack_frame_data_slot _ _ _ _ _ _ hack).trans hslot
  · simp only [Except.ok.injEq] at h
    rw [← h]
    exact hslot
  · simp only [Except.ok.injEq] at h
    rw [← h]
    exact hslot

theorem receive_ack_frame_slot (sender : sender_state_t) (w : world_t) :
    (receive_ack_frame sender w).2.data_in_transit = w.data_in_transit
      ∧ (receive_ack_frame sender w).2.network_data_buffer = w.network_data_buffer
      ∧ (receive_ack_frame sender w).2.ack_in_transit = false := by
  simp only [receive_ack_frame]
  split_ifs with h1
  · simp at h1
    exact ⟨rfl, rfl, h1⟩
  all_goals exact ⟨rfl, rfl, rfl⟩

theorem is_timeout_slot (E : env_t) (sender : sender_state_t) (w : world_t) :
    (is_timeout E sender w).2.data_in_transit = w.data_in_transit
      ∧ (is_timeout E sender w).2.network_data_buffer = w.network_data_buffer
      ∧ (is_timeout E sender w).2.ack_in_transit = w.ack_in_transit := by
  simp only [is_timeout]
  split_ifs <;> exact ⟨rfl, rfl, rfl⟩

theorem handle_timeout_buffer (E : env_t) (config : network_config_t)
    (sender sender1 : sender_state_t) (w w1 : world_t)
    (h : handle_timeout E sender config w = .ok (sender1, w1))
    (hinv : w.data_in_transit = true → w.network_data_buffer = sender.current_frame) :
    w1.data_in_transit = true → w1.network_data_buffer = sender.current_frame := by
  simp only [handle_timeout, reset_timer] at h
  split_ifs at h
  · simp only [Except.ok.injEq, Prod.mk.injEq] at h
    rw [← h.2]
    exact hinv
  · split at h
    · simp at h
    · rename_i b w2 hsend
      simp only [Except.ok.injEq, Prod.mk.injEq] at h
      rw [← h.2]
      exact send_data_frame_buffer _ _ _ _ _ _ hsend hinv

theorem sender_step_buffer (E : env_t) (config : network_config_t) (s s1 : loop_state_t)
    (h : sender_step E config s = .ok (.next s1))
    (hinv : s.w.data_in_transit = true → s.w.network_data_buffer = s.sender.current_frame) :
    s1.w.data_in_transit = true → s1.w.network_data_buffer = s.sender.current_frame := by
  have hack := receive_ack_frame_slot s.sender s.w
  have hpoll := is_timeout_slot E s.sender (receive_ack_frame s.sender s.w).2
  have hinv2 : (is_timeout E s.sender (receive_ack_frame s.sender s.w).2).2.data_in_transit
        = true →
      (is_timeout E s.sender (receive_ack_frame s.sender s.w).2).2.network_data_buffer
        = s.sender.current_frame := by
    rw [hpoll.1, hpoll.2.1, hack.1, hack.2.1]
    exact hinv
  simp only [sender_step] at h
  split_ifs at h
  · simp at h
  · split at h
    · simp at h
    · rename_i sender w3 hto
      split_ifs at h
      · simp at h
      · simp only [Except.ok.injEq, step_t.next.injEq] at h
        rw [← h]
        exact handle_timeout_buffer _ _ _ _ _ _ hto hinv2
  · simp only [Except.ok.injEq, step_t.next.injEq] at h
    rw [← h]
    exact hinv2

theorem transmit_iteration_buffer (E : env_t) (config : network_config_t)
    (s s1 : loop_state_t) (h : transmit_iteration E config s = .ok (.next s1))
    (hinv : s.w.data_in_transit = true → s.w.network_data_buffer = s.sender.current_frame) :
    s1.sender.current_frame = s.sender.current_frame
      ∧ (s1.w.data_in_transit = true →
          s1.w.network_data_buffer = s1.sender.current_frame) := by
  have hframe := (transmit_iteration_next E config s s1 h).2
  refine ⟨hframe, ?_⟩
  rw [hframe]
  simp only [transmit_iteration, reset_timer] at h
  split at h
  · split at h
    · simp at h
    · rename_i b w1 hsend
      simp only [Except.ok.injEq, step_t.next.injEq] at h
      rw [← h]
      exact send_data_frame_buffer _ _ _ _ _ _ hsend hinv
  · split at h
    · simp at h
    · rename_i s2 hrecv
      have h1 := receiver_step_sender _ _ _ _ hrecv
      have h2 := receiver_step_data_slot _ _ _ _ hrecv
      have h3 := sender_step_buffer _ _ _ _ h (by rw [h2]; intro hc; cases hc)
      rw [h1] at h3
      exact h3
  · simp at h

theorem loop_states_buffer (E : env_t) (config : network_config_t) (fuel : Nat)
    (s : loop_state_t)
    (hinv : s.w.data_in_transit = true → s.w.network_data_buffer = s.sender.current_frame) :
    ∀ t ∈ loop_states E config fuel s,
      t.sender.current_frame = s.sender.current_frame
        ∧ (t.w.data_in_transit = true →
            t.w.network_data_buffer = s.sender.current_frame) := by
  induction fuel generalizing s with
  | zero =>
    intro t ht
    simp [loop_states] at ht
  | succ fuel ih =>
    intro t ht
    simp only [loop_states] at ht
    split_ifs at ht
    · rcases List.mem_cons.mp ht with ht1 | ht1
      · rw [ht1]
        exact ⟨rfl, hinv⟩
      · split at ht1
        · rename_i s2 hit
          have h1 := transmit_iteration_buffer _ _ _ _ hit hinv
          have h2 := ih s2 h1.2 t ht1
          rw [h1.1] at h2
          exact h2
        · simp at ht1
    · simp at ht

theorem frame_taken_buffer (s : loop_state_t) (g : data_frame_t)
    (h : frame_taken s = some g) :
    s.w.data_in_transit = true ∧ g = s.w.network_data_buffer := by
  simp only [frame_taken] at h
  split_ifs at h with hc
  simp only [Option.some.injEq] at h
  refine ⟨hc.2, ?_⟩
  rw [← h]
  simp only [receive_data_frame, hc.2]
  split_ifs <;> simp_all

theorem take_set_self (l : List Nat) (n a : Nat) : (l.set n a).take n = l.take n := by
  rw [List.set_eq_take_append_cons_drop]
  split_ifs with h
  · rw [List.take_append_of_le_length (by rw [List.length_take]; omega), List.take_take,
      Nat.min_self]
  · rfl

theorem create_data_frame_payload (frame : data_frame_t) (seq_num : Int) (data : List Nat)
    (length : Nat) (h : frame.data.length = MAX_DATA_SIZE) (hl : length ≤ data.length)
    (hmax : length ≤ MAX_DATA_SIZE) :
    (filled_data_frame frame seq_num data length).data.take length = data.take length := by
  simp only [filled_data_frame, memcpy]
  rw [take_set_self, List.take_take, h, Nat.min_eq_left hmax,
    List.take_append_of_le_length (by rw [List.length_take]; omega), List.take_take,
    Nat.min_self]

/-! ## Messages whose length does not fit an `int` -/

theorem transmit_message_def (fuel : Nat) (E : env_t) (message : List Nat)
    (config : network_config_t) (w : world_t) :
    transmit_message fuel E message config w
      = match transmit_message_locals fuel E message config w with
        | .error e => .error e
        | .ok (result, s) => .ok (result, s.w) := rfl

/-- C5, the code at the failing inputs.  The `size_t` result of `strlen` is stored in the
`int` variable `message_len` before the two length checks.  A message of `2^32 + 3` bytes
has `message_len = 3`: it passes both checks and is treated in every respect as the
message "AAA"; over the ideal network the call returns true after a frame with
`data_length = 3` was built, sent and received.  A message of `2^31` bytes has
`message_len = -2^31`: it passes both checks too and `create_data_frame` is called with a
negative length, which `memcpy` takes as a huge size (no defined behaviour, a fault here).
Both messages are longer than `MAX_DATA_SIZE`.  What the claim says does hold for a message
of length 0 and for a message of `MAX_DATA_SIZE` to `2^31 - 1` bytes. -/
theorem over_long_message_accepted :
    MAX_DATA_SIZE ≤ strlen wrapping_message
      ∧ size_t_to_int (strlen wrapping_message) = 3
      ∧ (∀ (fuel : Nat) (E : env_t) (config : network_config_t) (w : world_t),
          transmit_message fuel E wrapping_message config w
            = transmit_message fuel E message_AAA config w)
      ∧ (∃ w1 : world_t,
          transmit_message 2 zero_rand_env wrapping_message ideal_config initial_world
              = .ok (true, w1)
            ∧ w1.stats.frames_sent = initial_world.stats.frames_sent + 1
            ∧ w1.stats.frames_received = initial_world.stats.frames_received + 1
            ∧ w1.network_data_buffer.data_length = 3
            ∧ w1.network_data_buffer.data.take 3 = message_AAA)
      ∧ MAX_DATA_SIZE ≤ strlen negative_length_message
      ∧ size_t_to_int (strlen negative_length_message) = -2147483648
      ∧ (∀ (fuel : Nat) (E : env_t) (config : network_config_t) (w : world_t),
          transmit_message fuel E negative_length_message config w
            = .error .out_of_bounds)
      ∧ ∀ (fuel : Nat) (E : env_t) (message : List Nat) (config : network_config_t)
          (w : world_t),
          strlen message = 0
              ∨ (MAX_DATA_SIZE ≤ strlen message ∧ strlen message < 2147483648) →
            transmit_message fuel E message config w = .ok (false, w) := by
  refine ⟨?_, ?_, ?_, ?_, ?_, ?_, ?_, ?_⟩
  · rw [strlen_wrapping_message]
    decide
  · rw [strlen_wrapping_message]
    exact size_t_to_int_wrapping
  · intro fuel E config w
    rw [transmit_message_def, transmit_message_def, wrapping_message_locals]
  · have hrun := loss_free_run 0 zero_rand_env message_AAA ideal_config initial_world
      (by decide) (by decide) (by decide) (frame_lost_zero ideal_config _ rfl)
      (frame_lost_zero ideal_config _ rfl)
    rw [transmit_message_def, wrapping_message_locals, hrun]
    refine ⟨_, rfl, rfl, rfl, rfl, ?_⟩
    exact create_data_frame_payload _ _ message_AAA 3 zero_data_frame_length (by decide)
      (by decide)
  · rw [strlen_negative_length_message]
    decide
  · rw [strlen_negative_length_message]
    exact size_t_to_int_negative
  · intro fuel E config w
    have hrun : transmit_message_locals fuel E negative_length_message config w
        = .error .out_of_bounds := by
      simp only [transmit_message_locals, strlen_negative_length_message,
        size_t_to_int_negative]
      rw [if_neg (by decide), if_neg (by decide),
        create_data_frame_fault _ _ _ _ (Or.inl (by decide))]
    rw [transmit_message_def, hrun]
  · intro fuel E message config w hlen
    exact (short_of_wrapping_rejected fuel E message config w hlen).1

theorem loop_states_first_send (E : env_t) (config : network_config_t) (fuel : Nat)
    (s : loop_state_t) (b : Bool) (w1 : world_t)
    (hs : s.sender.state = .WAITING_FOR_CALL) (hr : s.sender.retry_count = 0)
    (hsend : send_data_frame E s.sender.current_frame config s.w = .ok (b, w1)) :
    ({ s with sender := { s.sender with state := .WAITING_FOR_ACK }, w := w1 } : loop_state_t)
      ∈ loop_states E config (fuel + 2) s := by
  simp only [loop_states, transmit_iteration, hs, hr, hsend, reset_timer]
  simp

theorem frames_taken_first_delivered (fuel : Nat) (E : env_t) (message : List Nat)
    (config : network_config_t) (w : world_t)
    (hmod : config.max_delay_ms - config.min_delay_ms + 1 ≠ 0)
    (hd0 : frame_lost config (E.rand (w.rand_calls + 1)) = false) :
    (initial_loop_state message w).sender.current_frame
      ∈ frames_taken E config (fuel + 2) (initial_loop_state message w) := by
  have hsend := send_data_frame_delivered E (initial_loop_state message w).sender.current_frame
    config (initial_loop_state message w).w hmod hd0
  have hmem := loop_states_first_send E config fuel (initial_loop_state message w) _ _ rfl rfl
    hsend
  rw [frames_taken, List.mem_filterMap]
  refine ⟨_, hmem, ?_⟩
  generalize (initial_loop_state message w).sender.current_frame = f
  simp only [frame_taken, receive_data_frame]
  simp
  split_ifs <;> rfl

/-- C14. Every retransmission carries the same frame unchanged: for every valid message, in
every run of transmit_message that starts with the data slot empty, each data frame the
receiver takes from the network, in whichever iteration of the main loop, is the frame that
create_data_frame built at the start of the call: type DATA, sequence number 0, data_length
equal to the length of the message, the message as payload, and the checksum of its own
bytes.  The main loop of the call starts in the state initial_loop_state. -/
theorem retransmissions_carry_same_frame (fuel : Nat) (E : env_t) (message : List Nat)
    (config : network_config_t) (w : world_t)
    (hlen1 : 1 ≤ strlen message) (hlen2 : strlen message ≤ MAX_DATA_SIZE - 1)
    (hdata : w.data_in_transit = false) :
    transmit_message_locals fuel E message config w
        = transmit_loop E config fuel (initial_loop_state message w)
      ∧ ∀ g ∈ frames_taken E config fuel (initial_loop_state message w),
          create_data_frame init_sender.current_frame init_sender.seq_num message
                (strlen message) = .ok g
            ∧ g.type = .DATA_FRAME ∧ g.seq_num = 0 ∧ g.data_length = strlen message
            ∧ g.data.take (strlen message) = message.take (strlen message)
            ∧ g.checksum
                = calculate_checksum (data_frame_bytes g)
                    (sizeof_data_frame_t - sizeof_unsigned_int) := by
  refine ⟨transmit_message_locals_valid fuel E message config w hlen1 hlen2, ?_⟩
  intro g hg
  rw [frames_taken, List.mem_filterMap] at hg
  obtain ⟨t, ht, htaken⟩ := hg
  have hinv := loop_states_buffer E config fuel (initial_loop_state message w)
    (by intro hc; rw [show (initial_loop_state message w).w.data_in_transit = false from hdata]
          at hc; cases hc) t ht
  obtain ⟨htransit, hbuf⟩ := frame_taken_buffer t g htaken
  have hg : g = filled_data_frame init_sender.current_frame init_sender.seq_num message
      (strlen message) := by
    rw [hbuf, hinv.2 htransit]
    rfl
  have hmax : strlen message ≤ MAX_DATA_SIZE := by
    have : MAX_DATA_SIZE - 1 ≤ MAX_DATA_SIZE := Nat.sub_le _ _
    omega
  refine ⟨?_, ?_, ?_, ?_, ?_, ?_⟩
  · rw [hg]; exact create_data_frame_ok _ _ _ _ hmax
  · rw [hg]; rfl
  · rw [hg]; rfl
  · rw [hg]; rfl
  · rw [hg]
    exact create_data_frame_payload _ _ _ _ (by simp [init_sender, zero_data_frame])
      (strlen_le message) hmax
  · rw [hg]
    exact first_frame_checksum message

theorem retransmissions_carry_same_frame_witness :
    1 ≤ strlen message_ABC ∧ strlen message_ABC ≤ MAX_DATA_SIZE - 1
      ∧ initial_world.data_in_transit = false
      ∧ frames_taken zero_rand_env ideal_config 2 (initial_loop_state message_ABC initial_world)
          ≠ []
      ∧ transmit_message_locals 2 zero_rand_env message_ABC ideal_config initial_world
          = transmit_loop zero_rand_env ideal_config 2
              (initial_loop_state message_ABC initial_world)
      ∧ (∀ g ∈ frames_taken zero_rand_env ideal_config 2
            (initial_loop_state message_ABC initial_world),
          create_data_frame init_sender.current_frame init_sender.seq_num message_ABC
                (strlen message_ABC) = .ok g
            ∧ g.type = .DATA_FRAME ∧ g.seq_num = 0 ∧ g.data_length = strlen message_ABC
            ∧ g.data.take (strlen message_ABC) = message_ABC.take (strlen message_ABC)
            ∧ g.checksum
                = calculate_checksum (data_frame_bytes g)
                    (sizeof_data_frame_t - sizeof_unsigned_int))
      ∧ (∃ w1 : world_t,
          transmit_message 4 ack_lost_env message_ABC half_loss_config initial_world
              = .ok (false, w1)
            ∧ w1.stats.frames_received = initial_world.stats.frames_received + 3
            ∧ w1.stats.retransmissions = initial_world.stats.retransmissions + 3)
      ∧ ∀ g ∈ frames_taken ack_lost_env half_loss_config 4
            (initial_loop_state message_ABC initial_world),
          create_data_frame init_sender.current_frame init_sender.seq_num message_ABC
                (strlen message_ABC) = .ok g
            ∧ g.type = .DATA_FRAME ∧ g.seq_num = 0 ∧ g.data_length = strlen message_ABC
            ∧ g.data.take (strlen message_ABC) = message_ABC.take (strlen message_ABC)
            ∧ g.checksum
                = calculate_checksum (data_frame_bytes g)
                    (sizeof_data_frame_t - sizeof_unsigned_int) := by
  have hrun := ack_lost_run 0 0 0 0 ack_lost_env message_ABC half_loss_config initial_world
    (by decide) (by decide) (by decide) rfl rfl frame_lost_half_zero ack_lost_env_kept
    (expires_at_once _ _) (expires_at_once _ _) (expires_at_once _ _)
  obtain ⟨s1, hs1, hrecv, hretr⟩ : ∃ s1, transmit_message_locals 4 ack_lost_env message_ABC
      half_loss_config initial_world = .ok (false, s1)
      ∧ s1.w.stats.frames_received = initial_world.stats.frames_received + 3
      ∧ s1.w.stats.retransmissions = initial_world.stats.retransmissions + 3 :=
    ⟨_, hrun, rfl, rfl⟩
  have hcall : transmit_message 4 ack_lost_env message_ABC half_loss_config initial_world
      = .ok (false, s1.w) := by
    rw [transmit_message_def, hs1]
  have hideal := retransmissions_carry_same_frame 2 zero_rand_env message_ABC ideal_config
    initial_world (by decide) (by decide) rfl
  exact ⟨by decide, by decide, rfl,
    List.ne_nil_of_mem (frames_taken_first_delivered 0 zero_rand_env message_ABC ideal_config
      initial_world (by decide) (frame_lost_zero ideal_config _ rfl)),
    hideal.1, hideal.2, ⟨s1.w, hcall, hrecv, hretr⟩,
    (retransmissions_carry_same_frame 4 ack_lost_env message_ABC half_loss_config
      initial_world (by decide) (by decide) rfl).2⟩

/-! ## The slots when a call returns -/

theorem handle_timeout_outcome (E : env_t) (config : network_config_t)
    (sender sender1 : sender_state_t) (w w1 : world_t)
    (h : handle_timeout E sender config w = .ok (sender1, w1)) :
    (sender1.retry_count ≥ MAX_RETRIES →
        w1.data_in_transit = w.data_in_transit ∧ w1.ack_in_transit = w.ack_in_transit)
      ∧ (¬ sender1.retry_count ≥ MAX_RETRIES → sender1.state = sender.state) := by
  simp only [handle_timeout, reset_timer] at h
  split_ifs at h with hc
  · simp only [Except.ok.injEq, Prod.mk.injEq] at h
    rw [← h.1, ← h.2]
    exact ⟨fun _ => ⟨rfl, rfl⟩, fun hn => absurd hc hn⟩
  · split at h
    · simp at h
    · simp only [Except.ok.injEq, Prod.mk.injEq] at h
      rw [← h.1]
      exact ⟨fun hge => absurd hge hc, fun _ => rfl⟩

theorem sender_step_ret_slots (E : env_t) (config : network_config_t) (s s1 : loop_state_t)
    (result : Bool) (h : sender_step E config s = .ok (.ret result s1))
    (hdata : s.w.data_in_transit = false) :
    s1.w.data_in_transit = false ∧ s1.w.ack_in_transit = false := by
  have hack := receive_ack_frame_slot s.sender s.w
  have hpoll := is_timeout_slot E s.sender (receive_ack_frame s.sender s.w).2
  simp only [sender_step] at h
  split_ifs at h
  · simp only [Except.ok.injEq, step_t.ret.injEq] at h
    rw [← h.2]
    exact ⟨hack.1.trans hdata, hack.2.2⟩
  · split at h
    · simp at h
    · rename_i sender w3 hto
      have hout := (handle_timeout_outcome _ _ _ _ _ _ hto).1
      split_ifs at h with hge
      · simp only [Except.ok.injEq, step_t.ret.injEq] at h
        rw [← h.2]
        obtain ⟨h1, h2⟩ := hout hge
        exact ⟨by rw [h1, hpoll.1, hack.1]; exact hdata, by rw [h2, hpoll.2.2]; exact hack.2.2⟩
      · simp at h
  · simp at h

theorem sender_step_next_state (E : env_t) (config : network_config_t) (s s1 : loop_state_t)
    (h : sender_step E config s = .ok (.next s1)) : s1.sender.state = s.sender.state := by
  simp only [sender_step] at h
  split_ifs at h
  · simp at h
  · split at h
    · simp at h
    · rename_i sender w3 hto
      have hout := (handle_timeout_outcome _ _ _ _ _ _ hto).2
      split_ifs at h with hge
      · simp at h
      · simp only [Except.ok.injEq, step_t.next.injEq] at h
        rw [← h]
        exact hout hge
  · simp only [Except.ok.injEq, step_t.next.injEq] at h
    rw [← h]

theorem transmit_iteration_next_state (E : env_t) (config : network_config_t)
    (s s1 : loop_state_t) (h : transmit_iteration E config s = .ok (.next s1)) :
    s1.sender.state = .WAITING_FOR_ACK := by
  simp only [transmit_iteration, reset_timer] at h
  split at h
  · split at h
    · simp at h
    · simp only [Except.ok.injEq, step_t.next.injEq] at h
      rw [← h]
  · rename_i hstate
    split at h
    · simp at h
    · rename_i s2 hrecv
      rw [sender_step_next_state _ _ _ _ h, receiver_step_sender _ _ _ _ hrecv]
      exact hstate
  · simp at h

theorem transmit_iteration_ret_slots (E : env_t) (config : network_config_t)
    (s s1 : loop_state_t) (result : Bool)
    (h : transmit_iteration E config s = .ok (.ret result s1))
    (hstate : s.sender.state ≠ .WAITING_FOR_DATA) :
    s1.w.data_in_transit = false ∧ s1.w.ack_in_transit = false := by
  simp only [transmit_iteration, reset_timer] at h
  split at h
  · split at h <;> simp at h
  · split at h
    · simp at h
    · rename_i s2 hrecv
      exact sender_step_ret_slots _ _ _ _ _ h (receiver_step_data_slot _ _ _ _ hrecv)
  · rename_i hwfd
    exact absurd hwfd hstate

theorem transmit_loop_ret_slots (E : env_t) (config : network_config_t) (fuel : Nat)
    (s s1 : loop_state_t) (result : Bool)
    (h : transmit_loop E config fuel s = .ok (result, s1))
    (hinv : s.sender.state = .WAITING_FOR_ACK
      ∨ (s.sender.state = .WAITING_FOR_CALL ∧ s.sender.retry_count = 0)) :
    s1.w.data_in_transit = false ∧ s1.w.ack_in_transit = false := by
  induction fuel generalizing s with
  | zero => simp [transmit_loop] at h
  | succ fuel ih =>
    have hstate : s.sender.state ≠ .WAITING_FOR_DATA := by
      rcases hinv with h1 | h1
      · rw [h1]; decide
      · rw [h1.1]; decide
    simp only [transmit_loop] at h
    split_ifs at h with hc
    · split at h
      · simp at h
      · rename_i r s2 hit
        simp only [Except.ok.injEq, Prod.mk.injEq] at h
        rw [← h.2]
        exact transmit_iteration_ret_slots _ _ _ _ _ hit hstate
      · rename_i s2 hit
        exact ih s2 h (Or.inl (transmit_iteration_next_state _ _ _ _ hit))
    · exfalso
      apply hc
      rcases hinv with h1 | h1
      · left; rw [h1]; decide
      · right; exact h1.2

theorem transmit_message_ret_slots (fuel : Nat) (E : env_t) (message : List Nat)
    (config : network_config_t) (w w1 : world_t) (result : Bool)
    (hdata : w.data_in_transit = false) (hack : w.ack_in_transit = false)
    (h : transmit_message fuel E message config w = .ok (result, w1)) :
    w1.data_in_transit = false ∧ w1.ack_in_transit = false := by
  simp only [transmit_message] at h
  split at h
  · simp at h
  · rename_i r s hrun
    simp only [Except.ok.injEq, Prod.mk.injEq] at h
    rw [← h.2]
    rcases transmit_message_locals_cases message with hc | hc | ⟨payload, -, -, hc⟩
    · rw [hc] at hrun
      simp only [Except.ok.injEq, Prod.mk.injEq] at hrun
      rw [← hrun.2]
      exact ⟨hdata, hack⟩
    · rw [hc] at hrun
      cases hrun
    · rw [hc] at hrun
      exact transmit_loop_ret_slots _ _ _ _ _ _ hrun (Or.inr ⟨rfl, rfl⟩)

/-! ## Runs from agreeing worlds -/

theorem worlds_agree_of (E1 E2 : env_t) (d : statistics_t) (w1 w2 v1 v2 : world_t)
    (a b : Nat) (h : worlds_agree E1 E2 d w1 w2) (hnet : same_network v1 v2)
    (hr1 : v1.rand_calls = w1.rand_calls + a) (hr2 : v2.rand_calls = w2.rand_calls + a)
    (ht1 : v1.timer_polls = w1.timer_polls + b) (ht2 : v2.timer_polls = w2.timer_polls + b)
    (hstats : stats_delta w1.stats v1.stats = stats_delta w2.stats v2.stats) :
    worlds_agree E1 E2 d v1 v2 := by
  obtain ⟨_, ⟨hrand, htimer⟩, hd⟩ := h
  refine ⟨hnet, ⟨?_, ?_⟩, ?_⟩
  · intro k
    rw [hr1, hr2, Nat.add_assoc, Nat.add_assoc]
    exact hrand (a + k)
  · intro k
    rw [ht1, ht2, Nat.add_assoc, Nat.add_assoc]
    exact htimer (b + k)
  · rw [← hd]
    simp only [stats_delta, statistics_t.mk.injEq] at hstats ⊢
    omega

theorem worlds_agree_rand (E1 E2 : env_t) (d : statistics_t) (w1 w2 : world_t) (k : Nat)
    (h : worlds_agree E1 E2 d w1 w2) :
    E1.rand (w1.rand_calls + k) = E2.rand (w2.rand_calls + k) := h.2.1.1 k

theorem worlds_agree_timer (E1 E2 : env_t) (d : statistics_t) (w1 w2 : world_t)
    (h : worlds_agree E1 E2 d w1 w2) :
    E1.timer_expired w1.timer_polls = E2.timer_expired w2.timer_polls := h.2.1.2 0

theorem send_data_frame_fault (E : env_t) (frame : data_frame_t) (config : network_config_t)
    (w : world_t) (h : config.max_delay_ms - config.min_delay_ms + 1 = 0) :
    send_data_frame E frame config w = .error .division_by_zero := by
  simp [send_data_frame, simulate_network_delay, network_delay, h]

theorem send_ack_frame_fault (E : env_t) (ack : ack_frame_t) (config : network_config_t)
    (w : world_t) (h : config.max_delay_ms - config.min_delay_ms + 1 = 0) :
    send_ack_frame E ack config w = .error .division_by_zero := by
  simp [send_ack_frame, simulate_network_delay, network_delay, h]

theorem send_data_frame_agree (E1 E2 : env_t) (d : statistics_t) (frame : data_frame_t)
    (config : network_config_t) (w1 w2 : world_t) (h : worlds_agree E1 E2 d w1 w2) :
    results_agree (fun a b => a.1 = b.1 ∧ worlds_agree E1 E2 d a.2 b.2)
      (send_data_frame E1 frame config w1) (send_data_frame E2 frame config w2) := by
  by_cases hmod : config.max_delay_ms - config.min_delay_ms + 1 = 0
  · rw [send_data_frame_fault _ _ _ _ hmod, send_data_frame_fault _ _ _ _ hmod]
    rfl
  · have hr := worlds_agree_rand E1 E2 d w1 w2 1 h
    cases hl : frame_lost config (E1.rand (w1.rand_calls + 1))
    · rw [send_data_frame_delivered E1 frame config w1 hmod hl,
        send_data_frame_delivered E2 frame config w2 hmod (by rw [← hr]; exact hl)]
      refine ⟨rfl, worlds_agree_of E1 E2 d w1 w2 _ _ 2 0 h ?_ rfl rfl rfl rfl ?_⟩
      · exact ⟨rfl, h.1.2.1, fun _ => rfl, h.1.2.2.2⟩
      · simp [stats_delta]
    · rw [send_data_frame_lost E1 frame config w1 hmod hl,
        send_data_frame_lost E2 frame config w2 hmod (by rw [← hr]; exact hl)]
      refine ⟨rfl, worlds_agree_of E1 E2 d w1 w2 _ _ 2 0 h ?_ rfl rfl rfl rfl ?_⟩
      · exact h.1
      · simp [stats_delta]

theorem send_ack_frame_agree (E1 E2 : env_t) (d : statistics_t) (ack : ack_frame_t)
    (config : network_config_t) (w1 w2 : world_t) (h : worlds_agree E1 E2 d w1 w2) :
    results_agree (fun a b => a.1 = b.1 ∧ worlds_agree E1 E2 d a.2 b.2)
      (send_ack_frame E1 ack config w1) (send_ack_frame E2 ack config w2) := by
  by_cases hmod : config.max_delay_ms - config.min_delay_ms + 1 = 0
  · rw [send_ack_frame_fault _ _ _ _ hmod, send_ack_frame_fault _ _ _ _ hmod]
    rfl
  · have hr := worlds_agree_rand E1 E2 d w1 w2 1 h
    cases hl : frame_lost config (E1.rand (w1.rand_calls + 1))
    · rw [send_ack_frame_delivered E1 ack config w1 hmod hl,
        send_ack_frame_delivered E2 ack config w2 hmod (by rw [← hr]; exact hl)]
      refine ⟨rfl, worlds_agree_of E1 E2 d w1 w2 _ _ 2 0 h ?_ rfl rfl rfl rfl ?_⟩
      · exact ⟨h.1.1, rfl, h.1.2.2.1, fun _ => rfl⟩
      · simp [stats_delta]
    · rw [send_ack_frame_lost E1 ack config w1 hmod hl,
        send_ack_frame_lost E2 ack config w2 hmod (by rw [← hr]; exact hl)]
      refine ⟨rfl, worlds_agree_of E1 E2 d w1 w2 _ _ 2 0 h ?_ rfl rfl rfl rfl ?_⟩
      · exact h.1
      · simp [stats_delta]

theorem receive_data_frame_transit (frame : data_frame_t) (w : world_t)
    (ht : w.data_in_transit = true) :
    receive_data_frame frame w
      = (decide (calculate_checksum
            (data_frame_bytes { w.network_data_buffer with checksum := 0 })
            (sizeof_data_frame_t - sizeof_unsigned_int) = w.network_data_buffer.checksum),
          w.network_data_buffer,
          { w with
            data_in_transit := false
            stats := { w.stats with frames_received := w.stats.frames_received + 1 } }) := by
  simp only [receive_data_frame, ht]
  split_ifs with h1 h2
  · simp at h1
  · simp [h2]
  · simp only [ne_eq, not_not] at h2
    simp [h2]

theorem receive_data_frame_empty (frame : data_frame_t) (w : world_t)
    (ht : w.data_in_transit = false) : receive_data_frame frame w = (false, frame, w) := by
  simp [receive_data_frame, ht]

theorem receive_ack_frame_transit (sender : sender_state_t) (w : world_t)
    (ht : w.ack_in_transit = true) :
    receive_ack_frame sender w
      = (decide (calculate_checksum
              (ack_frame_bytes { w.network_ack_buffer with checksum := 0 })
              (sizeof_ack_frame_t - sizeof_unsigned_int) = w.network_ack_buffer.checksum)
            && decide (w.network_ack_buffer.ack_num = sender.seq_num),
          { w with
            ack_in_transit := false
            stats := { w.stats with acks_received := w.stats.acks_received + 1 } }) := by
  simp only [receive_ack_frame, ht]
  split_ifs with h1 h2 h3
  · simp at h1
  · rw [decide_eq_false h2]
    rfl
  · rw [decide_eq_true (not_not.mp h2), decide_eq_true h3]
    rfl
  · rw [decide_eq_true (not_not.mp h2), decide_eq_false h3]
    rfl

theorem receive_ack_frame_empty (sender : sender_state_t) (w : world_t)
    (ht : w.ack_in_transit = false) : receive_ack_frame sender w = (false, w) := by
  simp [receive_ack_frame, ht]

theorem receive_data_frame_agree (E1 E2 : env_t) (d : statistics_t) (frame : data_frame_t)
    (w1 w2 : world_t) (h : worlds_agree E1 E2 d w1 w2) :
    (receive_data_frame frame w1).1 = (receive_data_frame frame w2).1
      ∧ (receive_data_frame frame w1).2.1 = (receive_data_frame frame w2).2.1
      ∧ worlds_agree E1 E2 d (receive_data_frame frame w1).2.2
          (receive_data_frame frame w2).2.2 := by
  have hflag := h.1.1
  cases hd : w1.data_in_transit
  · have hd2 : w2.data_in_transit = false := by rw [← hflag]; exact hd
    rw [receive_data_frame_empty _ _ hd, receive_data_frame_empty _ _ hd2]
    exact ⟨rfl, rfl, h⟩
  · have hd2 : w2.data_in_transit = true := by rw [← hflag]; exact hd
    have hbuf := h.1.2.2.1 hd
    rw [receive_data_frame_transit _ _ hd, receive_data_frame_transit _ _ hd2]
    refine ⟨by rw [hbuf], hbuf, worlds_agree_of E1 E2 d w1 w2 _ _ 0 0 h ?_ rfl rfl rfl rfl ?_⟩
    · exact ⟨rfl, h.1.2.1, (fun hc => by cases hc), h.1.2.2.2⟩
    · simp [stats_delta]

theorem receive_ack_frame_agree (E1 E2 : env_t) (d : statistics_t) (sender : sender_state_t)
    (w1 w2 : world_t) (h : worlds_agree E1 E2 d w1 w2) :
    (receive_ack_frame sender w1).1 = (receive_ack_frame sender w2).1
      ∧ worlds_agree E1 E2 d (receive_ack_frame sender w1).2
          (receive_ack_frame sender w2).2 := by
  have hflag := h.1.2.1
  cases hd : w1.ack_in_transit
  · have hd2 : w2.ack_in_transit = false := by rw [← hflag]; exact hd
    rw [receive_ack_frame_empty _ _ hd, receive_ack_frame_empty _ _ hd2]
    exact ⟨rfl, h⟩
  · have hd2 : w2.ack_in_transit = true := by rw [← hflag]; exact hd
    have hbuf := h.1.2.2.2 hd
    rw [receive_ack_frame_transit _ _ hd, receive_ack_frame_transit _ _ hd2]
    refine ⟨by rw [hbuf], worlds_agree_of E1 E2 d w1 w2 _ _ 0 0 h ?_ rfl rfl rfl rfl ?_⟩
    · exact ⟨h.1.1, rfl, h.1.2.2.1, (fun hc => by cases hc)⟩
    · simp [stats_delta]

theorem is_timeout_agree (E1 E2 : env_t) (d : statistics_t) (sender : sender_state_t)
    (w1 w2 : world_t) (h : worlds_agree E1 E2 d w1 w2) :
    (is_timeout E1 sender w1).1 = (is_timeout E2 sender w2).1
      ∧ worlds_agree E1 E2 d (is_timeout E1 sender w1).2 (is_timeout E2 sender w2).2 := by
  simp only [is_timeout]
  split_ifs
  · exact ⟨rfl, h⟩
  · refine ⟨worlds_agree_timer E1 E2 d w1 w2 h,
      worlds_agree_of E1 E2 d w1 w2 _ _ 0 1 h h.1 rfl rfl rfl rfl (by simp [stats_delta])⟩

theorem handle_timeout_agree (E1 E2 : env_t) (d : statistics_t) (sender : sender_state_t)
    (config : network_config_t) (w1 w2 : world_t) (h : worlds_agree E1 E2 d w1 w2) :
    results_agree (fun a b => a.1 = b.1 ∧ worlds_agree E1 E2 d a.2 b.2)
      (handle_timeout E1 sender config w1) (handle_timeout E2 sender config w2) := by
  have hw : worlds_agree E1 E2 d
      { w1 with stats := { w1.stats with retransmissions := w1.stats.retransmissions + 1 } }
      { w2 with stats := { w2.stats with retransmissions := w2.stats.retransmissions + 1 } } := by
    refine worlds_agree_of E1 E2 d w1 w2 _ _ 0 0 h h.1 rfl rfl rfl rfl ?_
    simp [stats_delta]
  simp only [handle_timeout, reset_timer]
  split_ifs
  · exact ⟨rfl, hw⟩
  · have hsend := send_data_frame_agree E1 E2 d sender.current_frame config _ _ hw
    revert hsend
    cases send_data_frame E1 sender.current_frame config
        { w1 with stats := { w1.stats with retransmissions := w1.stats.retransmissions + 1 } }
      <;> cases send_data_frame E2 sender.current_frame config
        { w2 with stats := { w2.stats with retransmissions := w2.stats.retransmissions + 1 } }
      <;> intro hsend
    · exact hsend
    · exact hsend.elim
    · exact hsend.elim
    · exact ⟨rfl, hsend.2⟩

theorem results_agree_cases {α : Type} (r : α → α → Prop) (x y : Except fault_t α)
    (h : results_agree r x y) :
    (∃ e, x = .error e ∧ y = .error e) ∨ (∃ a b, x = .ok a ∧ y = .ok b ∧ r a b) := by
  cases x <;> cases y
  · exact Or.inl ⟨_, rfl, by rw [show _ = _ from h]⟩
  · exact h.elim
  · exact h.elim
  · exact Or.inr ⟨_, _, rfl, rfl, h⟩

theorem receiver_step_agree (E1 E2 : env_t) (d : statistics_t) (config : network_config_t)
    (s1 s2 : loop_state_t) (h : states_agree E1 E2 d s1 s2) :
    results_agree (states_agree E1 E2 d) (receiver_step E1 config s1)
      (receiver_step E2 config s2) := by
  obtain ⟨sd, rc, w1⟩ := s1
  obtain ⟨sd2, rc2, w2⟩ := s2
  obtain ⟨hs, hr, hw⟩ := h
  simp only at hs hr hw
  subst hs
  subst hr
  have hrecv := receive_data_frame_agree E1 E2 d zero_data_frame w1 w2 hw
  simp only [receiver_step]
  rw [← hrecv.1, ← hrecv.2.1]
  split_ifs
  · have hsend := send_ack_frame_agree E1 E2 d
      (create_ack_frame zero_ack_frame (receive_data_frame zero_data_frame w1).2.1.seq_num)
      config _ _ hrecv.2.2
    rcases results_agree_cases _ _ _ hsend with ⟨e, hx, hy⟩ | ⟨⟨b1, v1⟩, ⟨b2, v2⟩, hx, hy, hr⟩
    · rw [hx, hy]
      rfl
    · rw [hx, hy]
      exact ⟨rfl, rfl, hr.2⟩
  · exact ⟨rfl, rfl, hrecv.2.2⟩
  · exact ⟨rfl, rfl, hrecv.2.2⟩

theorem sender_step_agree (E1 E2 : env_t) (d : statistics_t) (config : network_config_t)
    (s1 s2 : loop_state_t) (h : states_agree E1 E2 d s1 s2) :
    results_agree (steps_agree E1 E2 d) (sender_step E1 config s1)
      (sender_step E2 config s2) := by
  obtain ⟨sd, rc, w1⟩ := s1
  obtain ⟨sd2, rc2, w2⟩ := s2
  obtain ⟨hs, hr, hw⟩ := h
  simp only at hs hr hw
  subst hs
  subst hr
  have hack := receive_ack_frame_agree E1 E2 d sd w1 w2 hw
  have hpoll := is_timeout_agree E1 E2 d sd _ _ hack.2
  simp only [sender_step]
  rw [← hack.1, ← hpoll.1]
  split_ifs
  · exact ⟨rfl, rfl, rfl, hack.2⟩
  · have hto := handle_timeout_agree E1 E2 d sd config _ _ hpoll.2
    rcases results_agree_cases _ _ _ hto with ⟨e, hx, hy⟩ | ⟨⟨sn1, v1⟩, ⟨sn2, v2⟩, hx, hy, hr⟩
    · rw [hx, hy]
      rfl
    · obtain ⟨hsender, hworld⟩ := hr
      simp only at hsender hworld
      subst hsender
      rw [hx, hy]
      simp only
      split_ifs
      · exact ⟨rfl, rfl, rfl, hworld⟩
      · exact ⟨rfl, rfl, hworld⟩
  · exact ⟨rfl, rfl, hpoll.2⟩

theorem transmit_iteration_agree (E1 E2 : env_t) (d : statistics_t)
    (config : network_config_t) (s1 s2 : loop_state_t) (h : states_agree E1 E2 d s1 s2) :
    results_agree (steps_agree E1 E2 d) (transmit_iteration E1 config s1)
      (transmit_iteration E2 config s2) := by
  have hsender := h.1
  cases hstate : s1.sender.state
  · have hstate2 : s2.sender.state = .WAITING_FOR_CALL := by rw [← hsender]; exact hstate
    have hsend := send_data_frame_agree E1 E2 d s1.sender.current_frame config _ _ h.2.2
    simp only [transmit_iteration, hstate, hstate2, reset_timer]
    rw [← hsender]
    rcases results_agree_cases _ _ _ hsend with ⟨e, hx, hy⟩ | ⟨⟨b1, v1⟩, ⟨b2, v2⟩, hx, hy, hr⟩
    · rw [hx, hy]
      rfl
    · rw [hx, hy]
      exact ⟨rfl, h.2.1, hr.2⟩
  · have hstate2 : s2.sender.state = .WAITING_FOR_ACK := by rw [← hsender]; exact hstate
    have hrecv := receiver_step_agree E1 E2 d config s1 s2 h
    simp only [transmit_iteration, hstate, hstate2]
    rcases results_agree_cases _ _ _ hrecv with ⟨e, hx, hy⟩ | ⟨t1, t2, hx, hy, hr⟩
    · rw [hx, hy]
      rfl
    · rw [hx, hy]
      exact sender_step_agree E1 E2 d config _ _ hr
  · have hstate2 : s2.sender.state = .WAITING_FOR_DATA := by rw [← hsender]; exact hstate
    simp only [transmit_iteration, hstate, hstate2]
    exact ⟨rfl, h⟩

theorem transmit_loop_agree (E1 E2 : env_t) (d : statistics_t) (config : network_config_t)
    (fuel : Nat) (s1 s2 : loop_state_t) (h : states_agree E1 E2 d s1 s2) :
    results_agree (fun a b => a.1 = b.1 ∧ states_agree E1 E2 d a.2 b.2)
      (transmit_loop E1 config fuel s1) (transmit_loop E2 config fuel s2) := by
  induction fuel generalizing s1 s2 with
  | zero =>
    simp only [transmit_loop]
    rfl
  | succ fuel ih =>
    have hstep := transmit_iteration_agree E1 E2 d config s1 s2 h
    simp only [transmit_loop]
    rw [← h.1]
    split_ifs
    · rcases results_agree_cases _ _ _ hstep with ⟨e, hx, hy⟩ | ⟨t1, t2, hx, hy, hr⟩
      · rw [hx, hy]
        rfl
      · rw [hx, hy]
        cases t1 <;> cases t2
        · exact ih _ _ hr
        · exact hr.elim
        · exact hr.elim
        · exact ⟨hr.1, hr.2⟩
    · exact ⟨rfl, h⟩

theorem transmit_message_agree (fuel : Nat) (E1 E2 : env_t) (d : statistics_t)
    (message : List Nat) (config : network_config_t) (w1 w2 : world_t)
    (h : worlds_agree E1 E2 d w1 w2) :
    results_agree (fun a b => a.1 = b.1 ∧ worlds_agree E1 E2 d a.2 b.2)
      (transmit_message fuel E1 message config w1)
      (transmit_message fuel E2 message config w2) := by
  simp only [transmit_message]
  rcases transmit_message_locals_cases message with hc | hc | ⟨payload, -, -, hc⟩
  · rw [hc, hc]
    exact ⟨rfl, h⟩
  · rw [hc, hc]
    exact rfl
  · rw [hc, hc]
    have hloop := transmit_loop_agree E1 E2 d config fuel
      (initial_loop_state payload w1) (initial_loop_state payload w2) ⟨rfl, rfl, h⟩
    rcases results_agree_cases _ _ _ hloop with ⟨e, hx, hy⟩ | ⟨⟨b1, t1⟩, ⟨b2, t2⟩, hx, hy, hr⟩
    · rw [hx, hy]
      rfl
    · rw [hx, hy]
      exact ⟨hr.1, hr.2.2.2⟩

theorem observed_agree (E1 E2 : env_t) (w1 w2 : world_t)
    (r1 r2 : Except fault_t (Bool × world_t))
    (h : results_agree
      (fun a b => a.1 = b.1 ∧ worlds_agree E1 E2 (stats_delta w1.stats w2.stats) a.2 b.2)
      r1 r2) :
    observed w1.stats r1 = observed w2.stats r2 := by
  rcases results_agree_cases _ _ _ h with ⟨e, hx, hy⟩ | ⟨⟨b1, v1⟩, ⟨b2, v2⟩, hx, hy, hr⟩
  · rw [hx, hy]
    rfl
  · obtain ⟨hb, -, -, hstats⟩ := hr
    simp only at hb hstats
    subst hb
    rw [hx, hy]
    simp only [observed, Except.ok.injEq, Prod.mk.injEq, true_and]
    simp only [stats_delta, statistics_t.mk.injEq] at hstats ⊢
    omega

/-- C15. Apart from the statistics, transmit_message carries no state from one call to the
next.  When both network slots are empty on entry they are empty again whenever the call
returns, whether with success, with permanent failure or by rejecting the message.  And
the result and the increase of every counter are the same for two calls with the same
message and configuration that start from any two worlds with empty slots (whatever
counters, stale buffer contents and consumed outcomes earlier calls left behind), provided
rand() and the timer give the same outcomes during the two calls. -/
theorem transmit_message_stateless (fuel : Nat) (E1 E2 : env_t) (message : List Nat)
    (config : network_config_t) (w1 w2 : world_t)
    (hd1 : w1.data_in_transit = false) (ha1 : w1.ack_in_transit = false)
    (hd2 : w2.data_in_transit = false) (ha2 : w2.ack_in_transit = false)
    (hsame : same_outcomes E1 w1 E2 w2) :
    (∀ result w, transmit_message fuel E1 message config w1 = .ok (result, w) →
        w.data_in_transit = false ∧ w.ack_in_transit = false)
      ∧ observed w1.stats (transmit_message fuel E1 message config w1)
          = observed w2.stats (transmit_message fuel E2 message config w2) := by
  refine ⟨fun result w h => transmit_message_ret_slots fuel E1 message config w1 w result
    hd1 ha1 h, ?_⟩
  apply observed_agree E1 E2
  apply transmit_message_agree
  refine ⟨⟨hd1.trans hd2.symm, ha1.trans ha2.symm, ?_, ?_⟩, hsame, rfl⟩
  · intro hc
    rw [hd1] at hc
    cases hc
  · intro hc
    rw [ha1] at hc
    cases hc

theorem transmit_message_stateless_witness :
    initial_world.data_in_transit = false ∧ initial_world.ack_in_transit = false
      ∧ world_after_ABC.data_in_transit = false ∧ world_after_ABC.ack_in_transit = false
      ∧ same_outcomes zero_rand_env initial_world zero_rand_env world_after_ABC
      ∧ transmit_message 2 zero_rand_env message_ABC ideal_config initial_world
          = .ok (true, world_after_ABC)
      ∧ (∀ result w,
          transmit_message 2 zero_rand_env message_ABC ideal_config initial_world
              = .ok (result, w) →
            w.data_in_transit = false ∧ w.ack_in_transit = false)
      ∧ observed initial_world.stats
            (transmit_message 2 zero_rand_env message_ABC ideal_config initial_world)
          = observed world_after_ABC.stats
              (transmit_message 2 zero_rand_env message_ABC ideal_config world_after_ABC) :=
  ⟨rfl, rfl, rfl, rfl, ⟨fun _ => rfl, fun _ => rfl⟩,
   by simp only [transmit_message, first_call_ABC],
   transmit_message_stateless 2 zero_rand_env zero_rand_env message_ABC ideal_config
     initial_world world_after_ABC rfl rfl rfl rfl ⟨fun _ => rfl, fun _ => rfl⟩⟩

/-! ## Reordering of the bytes under the checksum -/

theorem calculate_checksum_perm (bytes1 bytes2 : List Nat) (n : Nat)
    (h : (bytes1.take n).Perm (bytes2.take n)) :
    calculate_checksum bytes1 n = calculate_checksum bytes2 n := by
  rw [calculate_checksum_eq, calculate_checksum_eq, h.sum_eq]

theorem set_replicate_self (n i x : Nat) :
    (List.replicate n x).set i x = List.replicate n x := by
  apply List.ext_getElem
  · simp
  · intro j h1 h2
    rw [List.getElem_set]
    split_ifs <;> simp

theorem create_data_frame_pair (a b : Nat) :
    (filled_data_frame zero_data_frame 0 [a, b] 2).data
      = a :: b :: List.replicate 1022 0 := by
  have h3 : ([a, b] ++ List.replicate 1022 0 : List Nat).take 1024
      = [a, b] ++ List.replicate 1022 0 := by
    apply List.take_of_length_le
    rw [List.length_append, List.length_replicate]
    exact Nat.le_refl 1024
  simp only [filled_data_frame, memcpy, zero_data_frame, MAX_DATA_SIZE]
  rw [List.drop_replicate, List.length_replicate]
  simp only [List.take_succ_cons, List.take_zero, Nat.reduceSub]
  rw [h3]
  simp only [List.cons_append, List.nil_append, List.set_cons_succ]
  rw [set_replicate_self]

theorem receive_data_frame_reordered (junk f : data_frame_t) (data2 : List Nat) (w : world_t)
    (hlen : f.data.length = MAX_DATA_SIZE)
    (hc : f.checksum = calculate_checksum (data_frame_bytes f)
      (sizeof_data_frame_t - sizeof_unsigned_int))
    (hperm : data2.Perm f.data) (ht : w.data_in_transit = true)
    (hbuf : w.network_data_buffer = { f with data := data2 }) :
    (receive_data_frame junk w).1 = true
      ∧ (receive_data_frame junk w).2.1 = { f with data := data2 } := by
  have hlen2 : ({ f with data := data2 } : data_frame_t).data.length = MAX_DATA_SIZE := by
    show data2.length = MAX_DATA_SIZE
    rw [hperm.length_eq]
    exact hlen
  have hc2 : ({ f with data := data2 } : data_frame_t).checksum
      = calculate_checksum (data_frame_bytes { f with data := data2 })
          (sizeof_data_frame_t - sizeof_unsigned_int) := by
    rw [data_checksum_val _ hlen2]
    rw [data_checksum_val _ hlen] at hc
    show f.checksum = _
    rw [hc]
    simp only [List.sum_append, hperm.sum_eq]
  rw [← hbuf] at hlen2 hc2
  rw [receive_data_frame_verified junk w ht hlen2 hc2, hbuf]
  exact ⟨rfl, rfl⟩

theorem frame_AB_data : frame_AB.data = 65 :: 66 :: List.replicate 1022 0 :=
  create_data_frame_pair 65 66

theorem frame_BA_data : frame_BA.data = 66 :: 65 :: List.replicate 1022 0 :=
  create_data_frame_pair 66 65

theorem frame_AB_valid :
    frame_AB.data.length = MAX_DATA_SIZE
      ∧ frame_AB.checksum = calculate_checksum (data_frame_bytes frame_AB)
          (sizeof_data_frame_t - sizeof_unsigned_int) :=
  ⟨create_data_frame_data_length _ _ _ _ zero_data_frame_length (by decide),
   create_data_frame_checksum _ _ _ _ zero_data_frame_length (by decide)⟩

theorem frame_BA_valid :
    frame_BA.data.length = MAX_DATA_SIZE
      ∧ frame_BA.checksum = calculate_checksum (data_frame_bytes frame_BA)
          (sizeof_data_frame_t - sizeof_unsigned_int) :=
  ⟨create_data_frame_data_length _ _ _ _ zero_data_frame_length (by decide),
   create_data_frame_checksum _ _ _ _ zero_data_frame_length (by decide)⟩

theorem frame_BA_perm : frame_BA.data.Perm frame_AB.data := by
  rw [frame_AB_data, frame_BA_data]
  exact List.Perm.swap 65 66 _

/-- C30. The byte-sum checksum does not detect reordering.  The function calculate_checksum
gives the same value for any two byte sequences whose covered parts are permutations of each
other.  The frames that create_data_frame builds for "AB" and for "BA" with sequence number
0 have the same sequence number and length, different payloads and equal checksums, and
the frame for "AB" in transit with its two payload bytes transposed passes the verification
of receive_data_frame, which hands the payload "BA" to the receiver. -/
theorem checksum_blind_to_reordering (bytes1 bytes2 : List Nat) (n : Nat)
    (h : (bytes1.take n).Perm (bytes2.take n)) :
    calculate_checksum bytes1 n = calculate_checksum bytes2 n
      ∧ create_data_frame zero_data_frame 0 message_AB 2 = .ok frame_AB
      ∧ create_data_frame zero_data_frame 0 message_BA 2 = .ok frame_BA
      ∧ frame_AB.seq_num = frame_BA.seq_num ∧ frame_AB.data_length = frame_BA.data_length
      ∧ frame_AB.data.take 2 = message_AB ∧ frame_BA.data.take 2 = message_BA
      ∧ frame_AB.data ≠ frame_BA.data
      ∧ frame_AB.checksum = frame_BA.checksum
      ∧ (receive_data_frame zero_data_frame world_AB_transposed).1 = true
      ∧ (receive_data_frame zero_data_frame world_AB_transposed).2.1.data.take 2
          = message_BA := by
  have hrecv := receive_data_frame_reordered zero_data_frame frame_AB frame_BA.data
    world_AB_transposed frame_AB_valid.1 frame_AB_valid.2 frame_BA_perm rfl rfl
  refine ⟨calculate_checksum_perm bytes1 bytes2 n h,
    create_data_frame_ok zero_data_frame 0 message_AB 2 (by decide),
    create_data_frame_ok zero_data_frame 0 message_BA 2 (by decide),
    rfl, rfl, ?_, ?_, ?_, ?_, hrecv.1, ?_⟩
  · rw [frame_AB_data]
    rfl
  · rw [frame_BA_data]
    rfl
  · rw [frame_AB_data, frame_BA_data]
    intro hc
    have h0 := (List.cons.inj hc).1
    exact absurd h0 (by decide)
  · rw [frame_AB_valid.2, frame_BA_valid.2, data_checksum_val _ frame_AB_valid.1,
      data_checksum_val _ frame_BA_valid.1]
    have e1 : frame_AB.type = frame_BA.type := rfl
    have e2 : frame_AB.seq_num = frame_BA.seq_num := rfl
    have e3 : frame_AB.data_length = frame_BA.data_length := rfl
    rw [e1, e2, e3]
    simp only [List.sum_append, frame_BA_perm.sum_eq]
  · rw [hrecv.2]
    simp only
    rw [frame_BA_data]
    rfl

theorem checksum_blind_to_reordering_witness :
    (([1, 2, 3] : List Nat).take 3).Perm (([3, 1, 2] : List Nat).take 3)
      ∧ calculate_checksum [1, 2, 3] 3 = calculate_checksum [3, 1, 2] 3
      ∧ create_data_frame zero_data_frame 0 message_AB 2 = .ok frame_AB
      ∧ create_data_frame zero_data_frame 0 message_BA 2 = .ok frame_BA
      ∧ frame_AB.seq_num = frame_BA.seq_num ∧ frame_AB.data_length = frame_BA.data_length
      ∧ frame_AB.data.take 2 = message_AB ∧ frame_BA.data.take 2 = message_BA
      ∧ frame_AB.data ≠ frame_BA.data
      ∧ frame_AB.checksum = frame_BA.checksum
      ∧ (receive_data_frame zero_data_frame world_AB_transposed).1 = true
      ∧ (receive_data_frame zero_data_frame world_AB_transposed).2.1.data.take 2
          = message_BA :=
  ⟨by decide, checksum_blind_to_reordering [1, 2, 3] [3, 1, 2] 3 (by decide)⟩

/-! ## What one iteration does to the counters of the sender -/

theorem send_data_frame_counts (E : env_t) (frame : data_frame_t) (config : network_config_t)
    (w w1 : world_t) (b : Bool) (h : send_data_frame E frame config w = .ok (b, w1)) :
    w1.stats.frames_sent = w.stats.frames_sent + 1
      ∧ w1.stats.retransmissions = w.stats.retransmissions
      ∧ w1.timer_polls = w.timer_polls := by
  simp only [send_data_frame, simulate_network_delay, simulate_frame_loss] at h
  split at h
  · simp at h
  · rename_i w2 hdelay
    split at hdelay
    · simp at hdelay
    · simp only [Except.ok.injEq] at hdelay
      split_ifs at h
      · simp only [Except.ok.injEq, Prod.mk.injEq] at h
        rw [← h.2, ← hdelay]
        exact ⟨rfl, rfl, rfl⟩
      · simp only [Except.ok.injEq, Prod.mk.injEq] at h
        rw [← h.2, ← hdelay]
        exact ⟨rfl, rfl, rfl⟩

theorem send_ack_frame_counts (E : env_t) (ack : ack_frame_t) (config : network_config_t)
    (w w1 : world_t) (b : Bool) (h : send_ack_frame E ack config w = .ok (b, w1)) :
    w1.stats.frames_sent = w.stats.frames_sent
      ∧ w1.stats.retransmissions = w.stats.retransmissions
      ∧ w1.timer_polls = w.timer_polls := by
  simp only [send_ack_frame, simulate_network_delay, simulate_frame_loss] at h
  split at h
  · simp at h
  · rename_i w2 hdelay
    split at hdelay
    · simp at hdelay
    · simp only [Except.ok.injEq] at hdelay
      split_ifs at h
      · simp only [Except.ok.injEq, Prod.mk.injEq] at h
        rw [← h.2, ← hdelay]
        exact ⟨rfl, rfl, rfl⟩
      · simp only [Except.ok.injEq, Prod.mk.injEq] at h
        rw [← h.2, ← hdelay]
        exact ⟨rfl, rfl, rfl⟩

theorem receive_data_frame_counts (frame : data_frame_t) (w : world_t) :
    (receive_data_frame frame w).2.2.stats.frames_sent = w.stats.frames_sent
      ∧ (receive_data_frame frame w).2.2.stats.retransmissions = w.stats.retransmissions
      ∧ (receive_data_frame frame w).2.2.timer_polls = w.timer_polls := by
  simp only [receive_data_frame]
  split_ifs <;> exact ⟨rfl, rfl, rfl⟩

theorem receive_ack_frame_counts (sender : sender_state_t) (w : world_t) :
    (receive_ack_frame sender w).2.stats.frames_sent = w.stats.frames_sent
      ∧ (receive_ack_frame sender w).2.stats.retransmissions = w.stats.retransmissions
      ∧ (receive_ack_frame sender w).2.timer_polls = w.timer_polls := by
  simp only [receive_ack_frame]
  split_ifs <;> exact ⟨rfl, rfl, rfl⟩

theorem receiver_step_counts (E : env_t) (config : network_config_t) (s s1 : loop_state_t)
    (h : receiver_step E config s = .ok s1) :
    s1.sender = s.sender
      ∧ s1.w.stats.frames_sent = s.w.stats.frames_sent
      ∧ s1.w.stats.retransmissions = s.w.stats.retransmissions
      ∧ s1.w.timer_polls = s.w.timer_polls := by
  have hrecv := receive_data_frame_counts zero_data_frame s.w
  simp only [receiver_step] at h
  split_ifs at h
  · split at h
    · simp at h
    · rename_i b w2 hack
      have hsend := send_ack_frame_counts _ _ _ _ _ _ hack
      simp only [Except.ok.injEq] at h
      rw [← h]
      exact ⟨rfl, hsend.1.trans hrecv.1, hsend.2.1.trans hrecv.2.1, hsend.2.2.trans hrecv.2.2⟩
  · simp only [Except.ok.injEq] at h
    rw [← h]
    exact ⟨rfl, hrecv⟩
  · simp only [Except.ok.injEq] at h
    rw [← h]
    exact ⟨rfl, hrecv⟩

theorem is_timeout_counts (E : env_t) (sender : sender_state_t) (w : world_t) :
    (is_timeout E sender w).2.stats = w.stats := by
  simp only [is_timeout]
  split_ifs <;> rfl

theorem is_timeout_waiting (E : env_t) (sender : sender_state_t) (w : world_t)
    (hs : sender.state = .WAITING_FOR_ACK) :
    (is_timeout E sender w).1 = E.timer_expired w.timer_polls := by
  simp [is_timeout, hs]

theorem handle_timeout_counts (E : env_t) (config : network_config_t)
    (sender sender1 : sender_state_t) (w w1 : world_t)
    (h : handle_timeout E sender config w = .ok (sender1, w1)) :
    sender1.retry_count = sender.retry_count + 1
      ∧ w1.stats.retransmissions = w.stats.retransmissions + 1
      ∧ ((MAX_RETRIES ≤ sender1.retry_count ∧ sender1.state = .WAITING_FOR_CALL
            ∧ w1.stats.frames_sent = w.stats.frames_sent)
          ∨ (sender1.retry_count < MAX_RETRIES ∧ sender1.state = sender.state
            ∧ w1.stats.frames_sent = w.stats.frames_sent + 1)) := by
  simp only [handle_timeout, reset_timer] at h
  split_ifs at h with hc
  · simp only [Except.ok.injEq, Prod.mk.injEq] at h
    rw [← h.1, ← h.2]
    exact ⟨rfl, rfl, Or.inl ⟨hc, rfl, rfl⟩⟩
  · split at h
    · simp at h
    · rename_i b w2 hsend
      have hcount := send_data_frame_counts _ _ _ _ _ _ hsend
      simp only [Except.ok.injEq, Prod.mk.injEq] at h
      rw [← h.1, ← h.2]
      exact ⟨rfl, hcount.2.1, Or.inr ⟨lt_of_not_ge hc, rfl, hcount.1⟩⟩

theorem sender_step_next_counts (E : env_t) (config : network_config_t)
    (s s1 : loop_state_t) (h : sender_step E config s = .ok (.next s1)) :
    (receive_ack_frame s.sender s.w).1 = false
      ∧ s1.sender.state = s.sender.state
      ∧ (((is_timeout E s.sender (receive_ack_frame s.sender s.w).2).1 = false
            ∧ s1.sender.retry_count = s.sender.retry_count
            ∧ s1.w.stats.frames_sent = s.w.stats.frames_sent
            ∧ s1.w.stats.retransmissions = s.w.stats.retransmissions)
          ∨ ((is_timeout E s.sender (receive_ack_frame s.sender s.w).2).1 = true
            ∧ s1.sender.retry_count = s.sender.retry_count + 1
            ∧ s1.sender.retry_count < MAX_RETRIES
            ∧ s1.w.stats.frames_sent = s.w.stats.frames_sent + 1
            ∧ s1.w.stats.retransmissions = s.w.stats.retransmissions + 1)) := by
  have hack := receive_ack_frame_counts s.sender s.w
  have hpoll := is_timeout_counts E s.sender (receive_ack_frame s.sender s.w).2
  simp only [sender_step] at h
  split_ifs at h with hacked htimed
  · simp at h
  · split at h
    · simp at h
    · rename_i sender w3 hto
      have hcount := handle_timeout_counts _ _ _ _ _ _ hto
      rw [hpoll] at hcount
      split_ifs at h with hge
      · simp at h
      · simp only [Except.ok.injEq, step_t.next.injEq] at h
        rw [← h]
        rcases hcount.2.2 with hc | hc
        · exact absurd hc.1 hge
        · exact ⟨by simpa using hacked, hc.2.1,
            Or.inr ⟨htimed, hcount.1, hc.1, by rw [← hack.1]; exact hc.2.2,
              by rw [← hack.2.1]; exact hcount.2.1⟩⟩
  · simp only [Except.ok.injEq, step_t.next.injEq] at h
    rw [← h]
    refine ⟨by simpa using hacked, rfl, Or.inl ⟨by simpa using htimed, rfl, ?_, ?_⟩⟩
    · show (is_timeout E s.sender (receive_ack_frame s.sender s.w).2).2.stats.frames_sent = _
      rw [hpoll, hack.1]
    · show (is_timeout E s.sender (receive_ack_frame s.sender s.w).2).2.stats.retransmissions
        = _
      rw [hpoll, hack.2.1]

theorem sender_step_ret_counts (E : env_t) (config : network_config_t)
    (s s1 : loop_state_t) (result : Bool)
    (h : sender_step E config s = .ok (.ret result s1)) :
    s1.sender.state = .WAITING_FOR_CALL
      ∧ s1.w.stats.frames_sent = s.w.stats.frames_sent
      ∧ ((result = true ∧ (receive_ack_frame s.sender s.w).1 = true
            ∧ s1.sender.retry_count = 0
            ∧ s1.w.stats.retransmissions = s.w.stats.retransmissions)
          ∨ (result = false ∧ (receive_ack_frame s.sender s.w).1 = false
            ∧ (is_timeout E s.sender (receive_ack_frame s.sender s.w).2).1 = true
            ∧ s1.sender.retry_count = s.sender.retry_count + 1
            ∧ MAX_RETRIES ≤ s1.sender.retry_count
            ∧ s1.w.stats.retransmissions = s.w.stats.retransmissions + 1)) := by
  have hack := receive_ack_frame_counts s.sender s.w
  have hpoll := is_timeout_counts E s.sender (receive_ack_frame s.sender s.w).2
  simp only [sender_step] at h
  split_ifs at h with hacked htimed
  · simp only [Except.ok.injEq, step_t.ret.injEq] at h
    rw [← h.1, ← h.2]
    exact ⟨rfl, hack.1, Or.inl ⟨rfl, hacked, rfl, hack.2.1⟩⟩
  · split at h
    · simp at h
    · rename_i sender w3 hto
      have hcount := handle_timeout_counts _ _ _ _ _ _ hto
      rw [hpoll] at hcount
      split_ifs at h with hge
      · simp only [Except.ok.injEq, step_t.ret.injEq] at h
        rw [← h.1, ← h.2]
        rcases hcount.2.2 with hc | hc
        · exact ⟨hc.2.1, by rw [← hack.1]; exact hc.2.2,
            Or.inr ⟨rfl, by simpa using hacked, htimed, hcount.1, hc.1,
              by rw [← hack.2.1]; exact hcount.2.1⟩⟩
        · exact absurd hge (not_le.mpr hc.1)
      · simp at h
  · simp at h

theorem timeout_handled_waiting (E : env_t) (config : network_config_t)
    (s s2 : loop_state_t) (hs : s.sender.state = .WAITING_FOR_ACK)
    (hrecv : receiver_step E config s = .ok s2) :
    timeout_handled E config s
      = (!(receive_ack_frame s2.sender s2.w).1
          && (is_timeout E s2.sender (receive_ack_frame s2.sender s2.w).2).1) := by
  simp only [timeout_handled, hs, hrecv]

theorem timeout_handled_call (E : env_t) (config : network_config_t) (s : loop_state_t)
    (hs : s.sender.state = .WAITING_FOR_CALL) : timeout_handled E config s = false := by
  simp only [timeout_handled, hs]

theorem transmit_iteration_next_counts (E : env_t) (config : network_config_t)
    (s s1 : loop_state_t) (h : transmit_iteration E config s = .ok (.next s1)) :
    s1.sender.state = .WAITING_FOR_ACK
      ∧ ((s.sender.state = .WAITING_FOR_CALL ∧ timeout_handled E config s = false
            ∧ s1.sender.retry_count = s.sender.retry_count
            ∧ s1.w.stats.frames_sent = s.w.stats.frames_sent + 1
            ∧ s1.w.stats.retransmissions = s.w.stats.retransmissions)
          ∨ (s.sender.state = .WAITING_FOR_ACK ∧ timeout_handled E config s = false
            ∧ E.timer_expired s.w.timer_polls = false
            ∧ s1.sender.retry_count = s.sender.retry_count
            ∧ s1.w.stats.frames_sent = s.w.stats.frames_sent
            ∧ s1.w.stats.retransmissions = s.w.stats.retransmissions)
          ∨ (s.sender.state = .WAITING_FOR_ACK ∧ timeout_handled E config s = true
            ∧ s1.sender.retry_count = s.sender.retry_count + 1
            ∧ s1.sender.retry_count < MAX_RETRIES
            ∧ s1.w.stats.frames_sent = s.w.stats.frames_sent + 1
            ∧ s1.w.stats.retransmissions = s.w.stats.retransmissions + 1)) := by
  have hnext := transmit_iteration_next_state E config s s1 h
  refine ⟨hnext, ?_⟩
  cases hstate : s.sender.state
  · simp only [transmit_iteration, hstate, reset_timer] at h
    split at h
    · simp at h
    · rename_i b w1 hsend
      have hcount := send_data_frame_counts _ _ _ _ _ _ hsend
      simp only [Except.ok.injEq, step_t.next.injEq] at h
      rw [← h]
      exact Or.inl ⟨rfl, timeout_handled_call E config s hstate, rfl, hcount.1, hcount.2.1⟩
  · simp only [transmit_iteration, hstate] at h
    split at h
    · simp at h
    · rename_i s2 hrecv
      have hr := receiver_step_counts _ _ _ _ hrecv
      have hs2 : s2.sender.state = .WAITING_FOR_ACK := by rw [hr.1]; exact hstate
      have hh := timeout_handled_waiting E config s s2 hstate hrecv
      obtain ⟨hacked, -, hcases⟩ := sender_step_next_counts _ _ _ _ h
      have hpolls : (receive_ack_frame s2.sender s2.w).2.timer_polls = s.w.timer_polls := by
        rw [(receive_ack_frame_counts s2.sender s2.w).2.2, hr.2.2.2]
      rw [is_timeout_waiting E s2.sender _ hs2, hpolls] at hcases hh
      rw [hacked] at hh
      rw [hr.1, hr.2.1, hr.2.2.1] at hcases
      rcases hcases with hc | hc
      · refine Or.inr (Or.inl ⟨rfl, ?_, hc.1, hc.2⟩)
        rw [hh, hc.1]
        rfl
      · refine Or.inr (Or.inr ⟨rfl, ?_, hc.2⟩)
        rw [hh, hc.1]
        rfl
  · simp [transmit_iteration, hstate] at h

theorem transmit_iteration_ret_counts (E : env_t) (config : network_config_t)
    (s s1 : loop_state_t) (result : Bool)
    (h : transmit_iteration E config s = .ok (.ret result s1))
    (hwfd : s.sender.state ≠ .WAITING_FOR_DATA) :
    s.sender.state = .WAITING_FOR_ACK ∧ s1.sender.state = .WAITING_FOR_CALL
      ∧ s1.w.stats.frames_sent = s.w.stats.frames_sent
      ∧ ((result = true ∧ timeout_handled E config s = false
            ∧ s1.sender.retry_count = 0
            ∧ s1.w.stats.retransmissions = s.w.stats.retransmissions)
          ∨ (result = false ∧ timeout_handled E config s = true
            ∧ E.timer_expired s.w.timer_polls = true
            ∧ s1.sender.retry_count = s.sender.retry_count + 1
            ∧ MAX_RETRIES ≤ s1.sender.retry_count
            ∧ s1.w.stats.retransmissions = s.w.stats.retransmissions + 1)) := by
  cases hstate : s.sender.state
  · simp only [transmit_iteration, hstate, reset_timer] at h
    split at h <;> simp at h
  · simp only [transmit_iteration, hstate] at h
    split at h
    · simp at h
    · rename_i s2 hrecv
      have hr := receiver_step_counts _ _ _ _ hrecv
      have hs2 : s2.sender.state = .WAITING_FOR_ACK := by rw [hr.1]; exact hstate
      have hh := timeout_handled_waiting E config s s2 hstate hrecv
      obtain ⟨hstate1, hfs, hcases⟩ := sender_step_ret_counts _ _ _ _ _ h
      have hpolls : (receive_ack_frame s2.sender s2.w).2.timer_polls = s.w.timer_polls := by
        rw [(receive_ack_frame_counts s2.sender s2.w).2.2, hr.2.2.2]
      rw [is_timeout_waiting E s2.sender _ hs2, hpolls] at hcases hh
      rw [hr.1, hr.2.2.1] at hcases
      rw [hr.1] at hh
      rw [hr.2.1] at hfs
      refine ⟨rfl, hstate1, hfs, ?_⟩
      rcases hcases with hc | hc
      · refine Or.inl ⟨hc.1, ?_, hc.2.2⟩
        rw [hh, hc.2.1]
        rfl
      · refine Or.inr ⟨hc.1, ?_, hc.2.2.1, hc.2.2.2⟩
        rw [hh, hc.2.1, hc.2.2.1]
        rfl
  · exact absurd hstate hwfd

/-! ## The retry counter during a call -/

theorem sender_invariant_initial (message : List Nat) (w : world_t) :
    sender_invariant w.stats (initial_loop_state message w) :=
  ⟨Or.inl ⟨rfl, rfl, rfl⟩, Int.le_refl 0, (by decide : (0 : Int) < MAX_RETRIES),
    (Int.add_zero _).symm⟩

theorem sender_invariant_state (b : statistics_t) (s : loop_state_t)
    (h : sender_invariant b s) :
    (s.sender.state = .WAITING_FOR_CALL ∨ s.sender.state = .WAITING_FOR_ACK)
      ∧ s.sender.state ≠ .WAITING_FOR_DATA
      ∧ (s.sender.state ≠ .WAITING_FOR_CALL ∨ s.sender.retry_count = 0) := by
  rcases h.1 with h1 | h1
  · exact ⟨Or.inl h1.1, by rw [h1.1]; decide, Or.inr h1.2.1⟩
  · exact ⟨Or.inr h1.1, by rw [h1.1]; decide, Or.inl (by rw [h1.1]; decide)⟩

theorem sender_invariant_next (E : env_t) (config : network_config_t) (b : statistics_t)
    (s s1 : loop_state_t) (h : transmit_iteration E config s = .ok (.next s1))
    (hinv : sender_invariant b s) : sender_invariant b s1 := by
  obtain ⟨hstate1, hcases⟩ := transmit_iteration_next_counts E config s s1 h
  obtain ⟨hfs, h0, hmax, hretr⟩ := hinv
  have hfs2 : s.sender.state = .WAITING_FOR_ACK →
      s.w.stats.frames_sent = b.frames_sent + s.sender.retry_count + 1 := by
    intro hs
    rcases hfs with h1 | h1
    · rw [h1.1] at hs
      cases hs
    · exact h1.2
  have hfs1 : s.sender.state = .WAITING_FOR_CALL →
      s.sender.retry_count = 0 ∧ s.w.stats.frames_sent = b.frames_sent := by
    intro hs
    rcases hfs with h1 | h1
    · exact h1.2
    · rw [h1.1] at hs
      cases hs
  rcases hcases with hc | hc | hc
  · obtain ⟨hs, -, hr, hf, ht⟩ := hc
    obtain ⟨hr0, hf0⟩ := hfs1 hs
    refine ⟨Or.inr ⟨hstate1, ?_⟩, ?_, ?_, ?_⟩ <;> omega
  · obtain ⟨hs, -, -, hr, hf, ht⟩ := hc
    have hf0 := hfs2 hs
    refine ⟨Or.inr ⟨hstate1, ?_⟩, ?_, ?_, ?_⟩ <;> omega
  · obtain ⟨hs, -, hr, hlt, hf, ht⟩ := hc
    have hf0 := hfs2 hs
    refine ⟨Or.inr ⟨hstate1, ?_⟩, ?_, ?_, ?_⟩ <;> omega

theorem loop_states_sender_invariant (E : env_t) (config : network_config_t)
    (b : statistics_t) (fuel : Nat) (s : loop_state_t) (hinv : sender_invariant b s) :
    ∀ t ∈ loop_states E config fuel s, sender_invariant b t := by
  induction fuel generalizing s with
  | zero =>
    intro t ht
    simp [loop_states] at ht
  | succ fuel ih =>
    intro t ht
    simp only [loop_states] at ht
    split_ifs at ht
    · rcases List.mem_cons.mp ht with ht1 | ht1
      · rw [ht1]
        exact hinv
      · split at ht1
        · rename_i s2 hit
          exact ih s2 (sender_invariant_next E config b s s2 hit hinv) t ht1
        · simp at ht1
    · simp at ht

theorem timeouts_handled_bound (E : env_t) (config : network_config_t) (b : statistics_t)
    (fuel : Nat) (s : loop_state_t) (hinv : sender_invariant b s) :
    (((loop_states E config fuel s).filter (timeout_handled E config)).length : Int)
        + s.sender.retry_count ≤ MAX_RETRIES := by
  induction fuel generalizing s with
  | zero =>
    simp only [loop_states, List.filter_nil, List.length_nil]
    have := hinv.2.2.1
    omega
  | succ fuel ih =>
    have hlt := hinv.2.2.1
    simp only [loop_states]
    split_ifs
    · cases hit : transmit_iteration E config s with
      | error e =>
        simp only [List.filter_cons]
        split_ifs <;> simp only [List.filter_nil, List.length_cons, List.length_nil] <;> omega
      | ok step =>
        cases step with
        | ret result s2 =>
          simp only [List.filter_cons]
          split_ifs <;> simp only [List.filter_nil, List.length_cons, List.length_nil]
            <;> omega
        | next s2 =>
          have hinv2 := sender_invariant_next E config b s s2 hit hinv
          have hrec := ih s2 hinv2
          obtain ⟨-, hcases⟩ := transmit_iteration_next_counts E config s s2 hit
          simp only [List.filter_cons]
          rcases hcases with hc | hc | hc
          · rw [hc.2.1]
            simp only [Bool.false_eq_true, if_false]
            omega
          · rw [hc.2.1]
            simp only [Bool.false_eq_true, if_false]
            omega
          · rw [hc.2.1]
            simp only [if_true, List.length_cons]
            push_cast
            omega
    · simp only [List.filter_nil, List.length_nil]
      omega

theorem transmit_loop_counts (E : env_t) (config : network_config_t) (b : statistics_t)
    (fuel : Nat) (s s1 : loop_state_t) (result : Bool)
    (h : transmit_loop E config fuel s = .ok (result, s1)) (hinv : sender_invariant b s) :
    s1.sender.state = .WAITING_FOR_CALL
      ∧ (result = true →
          s1.sender.retry_count = 0
            ∧ s1.w.stats.frames_sent - b.frames_sent
              = 1 + (s1.w.stats.retransmissions - b.retransmissions)
            ∧ 0 ≤ s1.w.stats.retransmissions - b.retransmissions
            ∧ s1.w.stats.retransmissions - b.retransmissions < MAX_RETRIES)
      ∧ (result = false →
          s1.sender.retry_count = MAX_RETRIES
            ∧ s1.w.stats.frames_sent - b.frames_sent = MAX_RETRIES
            ∧ s1.w.stats.retransmissions - b.retransmissions = MAX_RETRIES) := by
  induction fuel generalizing s with
  | zero => simp [transmit_loop] at h
  | succ fuel ih =>
    obtain ⟨-, hwfd, hcond⟩ := sender_invariant_state b s hinv
    simp only [transmit_loop] at h
    rw [if_pos hcond] at h
    split at h
    · simp at h
    · rename_i r s2 hit
      simp only [Except.ok.injEq, Prod.mk.injEq] at h
      rw [h.1, h.2] at hit
      obtain ⟨hs, hstate1, hf, hcases⟩ := transmit_iteration_ret_counts E config s s1 result
        hit hwfd
      obtain ⟨hfs, h0, hmax, hretr⟩ := hinv
      have hf0 : s.w.stats.frames_sent = b.frames_sent + s.sender.retry_count + 1 := by
        rcases hfs with h1 | h1
        · rw [h1.1] at hs
          cases hs
        · exact h1.2
      refine ⟨hstate1, ?_, ?_⟩
      · intro hres
        rcases hcases with hc | hc
        · obtain ⟨-, -, hr, ht⟩ := hc
          refine ⟨hr, ?_, ?_, ?_⟩ <;> omega
        · rw [hc.1] at hres
          cases hres
      · intro hres
        rcases hcases with hc | hc
        · rw [hc.1] at hres
          cases hres
        · obtain ⟨-, -, -, hr, hge, ht⟩ := hc
          refine ⟨?_, ?_, ?_⟩ <;> omega
    · rename_i s2 hit
      exact ih s2 h (sender_invariant_next E config b s s2 hit hinv)

theorem first_call_ABC_world :
    transmit_message 2 zero_rand_env message_ABC ideal_config initial_world
      = .ok (true, world_after_ABC) := by
  simp only [transmit_message, first_call_ABC]

/-- C24. Retry bound: for every valid message, whenever an iteration of the main loop of
transmit_message starts, the state of the sender is WAITING_FOR_CALL or WAITING_FOR_ACK, so
the branch for an unknown protocol state is never taken, and retry_count lies between 0 and
MAX_RETRIES; handle_timeout is called in at most MAX_RETRIES iterations of a call; and when
the call returns, the sender is in WAITING_FOR_CALL with retry_count between 0 and
MAX_RETRIES.  This holds for every entry state, configuration and outcome of rand() and of
the timer, and for any number of iterations. -/
theorem retry_bound (fuel : Nat) (E : env_t) (message : List Nat)
    (config : network_config_t) (w : world_t)
    (hlen1 : 1 ≤ strlen message) (hlen2 : strlen message ≤ MAX_DATA_SIZE - 1) :
    transmit_message_locals fuel E message config w
        = transmit_loop E config fuel (initial_loop_state message w)
      ∧ (∀ t ∈ loop_states E config fuel (initial_loop_state message w),
          (t.sender.state = .WAITING_FOR_CALL ∨ t.sender.state = .WAITING_FOR_ACK)
            ∧ t.sender.state ≠ .WAITING_FOR_DATA
            ∧ 0 ≤ t.sender.retry_count ∧ t.sender.retry_count ≤ MAX_RETRIES)
      ∧ (((loop_states E config fuel (initial_loop_state message w)).filter
            (timeout_handled E config)).length : Int) ≤ MAX_RETRIES
      ∧ (∀ result s1, transmit_message_locals fuel E message config w = .ok (result, s1) →
          s1.sender.state = .WAITING_FOR_CALL
            ∧ 0 ≤ s1.sender.retry_count ∧ s1.sender.retry_count ≤ MAX_RETRIES) := by
  have hrun := transmit_message_locals_valid fuel E message config w hlen1 hlen2
  have hinit := sender_invariant_initial message w
  refine ⟨hrun, ?_, ?_, ?_⟩
  · intro t ht
    have hinv := loop_states_sender_invariant E config w.stats fuel _ hinit t ht
    have hstate := sender_invariant_state w.stats t hinv
    exact ⟨hstate.1, hstate.2.1, hinv.2.1, Int.le_of_lt hinv.2.2.1⟩
  · have hbound := timeouts_handled_bound E config w.stats fuel _ hinit
    have h0 : (initial_loop_state message w).sender.retry_count = 0 := rfl
    rw [h0] at hbound
    omega
  · intro result s1 h
    rw [hrun] at h
    obtain ⟨hstate, htrue, hfalse⟩ := transmit_loop_counts E config w.stats fuel _ s1 result h
      hinit
    refine ⟨hstate, ?_⟩
    cases result
    · rw [(hfalse rfl).1]
      exact ⟨by decide, Int.le_refl _⟩
    · rw [(htrue rfl).1]
      exact ⟨Int.le_refl 0, by decide⟩

theorem retry_bound_witness :
    1 ≤ strlen message_ABC ∧ strlen message_ABC ≤ MAX_DATA_SIZE - 1
      ∧ transmit_message_locals 4 zero_rand_env message_ABC half_loss_config initial_world
          = transmit_loop zero_rand_env half_loss_config 4
              (initial_loop_state message_ABC initial_world)
      ∧ (∀ t ∈ loop_states zero_rand_env half_loss_config 4
            (initial_loop_state message_ABC initial_world),
          (t.sender.state = .WAITING_FOR_CALL ∨ t.sender.state = .WAITING_FOR_ACK)
            ∧ t.sender.state ≠ .WAITING_FOR_DATA
            ∧ 0 ≤ t.sender.retry_count ∧ t.sender.retry_count ≤ MAX_RETRIES)
      ∧ (((loop_states zero_rand_env half_loss_config 4
            (initial_loop_state message_ABC initial_world)).filter
            (timeout_handled zero_rand_env half_loss_config)).length : Int) ≤ MAX_RETRIES
      ∧ (∀ result s1,
          transmit_message_locals 4 zero_rand_env message_ABC half_loss_config initial_world
              = .ok (result, s1) →
            s1.sender.state = .WAITING_FOR_CALL
              ∧ 0 ≤ s1.sender.retry_count ∧ s1.sender.retry_count ≤ MAX_RETRIES) :=
  ⟨by decide, by decide,
   retry_bound 4 zero_rand_env message_ABC half_loss_config initial_world (by decide)
     (by decide)⟩

/-- C27. Frames sent and retransmissions: for every valid message and every run of
transmit_message that returns, from any entry state, a result of true comes with an
increase of frames_sent that is 1 plus the increase of retransmissions (which is below
MAX_RETRIES), and a result of false comes with both increases equal to MAX_RETRIES: the
last timeout is counted as a retransmission although nothing is resent, so the frame is
transmitted MAX_RETRIES times in all. -/
theorem frames_sent_and_retransmissions (fuel : Nat) (E : env_t) (message : List Nat)
    (config : network_config_t) (w w1 : world_t) (result : Bool)
    (hlen1 : 1 ≤ strlen message) (hlen2 : strlen message ≤ MAX_DATA_SIZE - 1)
    (h : transmit_message fuel E message config w = .ok (result, w1)) :
    (result = true →
        w1.stats.frames_sent - w.stats.frames_sent
            = 1 + (w1.stats.retransmissions - w.stats.retransmissions)
          ∧ 0 ≤ w1.stats.retransmissions - w.stats.retransmissions
          ∧ w1.stats.retransmissions - w.stats.retransmissions < MAX_RETRIES)
      ∧ (result = false →
        w1.stats.frames_sent - w.stats.frames_sent
            = w1.stats.retransmissions - w.stats.retransmissions
          ∧ w1.stats.retransmissions - w.stats.retransmissions = MAX_RETRIES) := by
  simp only [transmit_message] at h
  split at h
  · simp at h
  · rename_i r s hrun
    simp only [Except.ok.injEq, Prod.mk.injEq] at h
    rw [h.1] at hrun
    rw [← h.2]
    rw [transmit_message_locals_valid fuel E message config w hlen1 hlen2] at hrun
    obtain ⟨-, htrue, hfalse⟩ := transmit_loop_counts E config w.stats fuel _ s result hrun
      (sender_invariant_initial message w)
    refine ⟨fun hres => (htrue hres).2, fun hres => ?_⟩
    obtain ⟨-, h1, h2⟩ := hfalse hres
    exact ⟨h1.trans h2.symm, h2⟩

theorem frames_sent_and_retransmissions_witness :
    1 ≤ strlen message_ABC ∧ strlen message_ABC ≤ MAX_DATA_SIZE - 1
      ∧ transmit_message 2 zero_rand_env message_ABC ideal_config initial_world
          = .ok (true, world_after_ABC)
      ∧ (true = true →
          world_after_ABC.stats.frames_sent - initial_world.stats.frames_sent
              = 1 + (world_after_ABC.stats.retransmissions
                  - initial_world.stats.retransmissions)
            ∧ 0 ≤ world_after_ABC.stats.retransmissions - initial_world.stats.retransmissions
            ∧ world_after_ABC.stats.retransmissions - initial_world.stats.retransmissions
                < MAX_RETRIES)
      ∧ (true = false →
          world_after_ABC.stats.frames_sent - initial_world.stats.frames_sent
              = world_after_ABC.stats.retransmissions - initial_world.stats.retransmissions
            ∧ world_after_ABC.stats.retransmissions - initial_world.stats.retransmissions
                = MAX_RETRIES)
      ∧ ∃ w1 : world_t,
          transmit_message 4 zero_rand_env message_ABC half_loss_config initial_world
              = .ok (false, w1)
            ∧ w1.stats.frames_sent - initial_world.stats.frames_sent
                = w1.stats.retransmissions - initial_world.stats.retransmissions
            ∧ w1.stats.retransmissions - initial_world.stats.retransmissions
                = MAX_RETRIES := by
  have hrun := all_data_lost_run 0 0 0 0 zero_rand_env message_ABC half_loss_config
    initial_world (by decide) (by decide) (by decide) rfl rfl
    (fun _ _ => frame_lost_half_zero) (expires_at_once _ _) (expires_at_once _ _)
    (expires_at_once _ _)
  obtain ⟨s1, hs1⟩ : ∃ s1, transmit_message_locals 4 zero_rand_env message_ABC
      half_loss_config initial_world = .ok (false, s1) := ⟨_, hrun⟩
  have hcall : transmit_message 4 zero_rand_env message_ABC half_loss_config initial_world
      = .ok (false, s1.w) := by
    rw [transmit_message_def, hs1]
  have htrue := frames_sent_and_retransmissions 2 zero_rand_env message_ABC ideal_config
    initial_world world_after_ABC true (by decide) (by decide) first_call_ABC_world
  exact ⟨by decide, by decide, first_call_ABC_world, htrue.1, htrue.2, s1.w, hcall,
    (frames_sent_and_retransmissions 4 zero_rand_env message_ABC half_loss_config
      initial_world s1.w false (by decide) (by decide) hcall).2 rfl⟩

/-! ## Termination when the timer expires -/

theorem send_data_frame_total (E : env_t) (frame : data_frame_t) (config : network_config_t)
    (w : world_t) (hmod : config.max_delay_ms - config.min_delay_ms + 1 ≠ 0) :
    ∃ r, send_data_frame E frame config w = .ok r := by
  cases hl : frame_lost config (E.rand (w.rand_calls + 1))
  · exact ⟨_, send_data_frame_delivered E frame config w hmod hl⟩
  · exact ⟨_, send_data_frame_lost E frame config w hmod hl⟩

theorem send_ack_frame_total (E : env_t) (ack : ack_frame_t) (config : network_config_t)
    (w : world_t) (hmod : config.max_delay_ms - config.min_delay_ms + 1 ≠ 0) :
    ∃ r, send_ack_frame E ack config w = .ok r := by
  cases hl : frame_lost config (E.rand (w.rand_calls + 1))
  · exact ⟨_, send_ack_frame_delivered E ack config w hmod hl⟩
  · exact ⟨_, send_ack_frame_lost E ack config w hmod hl⟩

theorem receiver_step_total (E : env_t) (config : network_config_t) (s : loop_state_t)
    (hmod : config.max_delay_ms - config.min_delay_ms + 1 ≠ 0) :
    ∃ s1, receiver_step E config s = .ok s1 := by
  simp only [receiver_step]
  split_ifs
  · obtain ⟨⟨b, w2⟩, hsend⟩ := send_ack_frame_total E
      (create_ack_frame zero_ack_frame (receive_data_frame zero_data_frame s.w).2.1.seq_num)
      config (receive_data_frame zero_data_frame s.w).2.2 hmod
    rw [hsend]
    exact ⟨_, rfl⟩
  · exact ⟨_, rfl⟩
  · exact ⟨_, rfl⟩

theorem handle_timeout_total (E : env_t) (config : network_config_t)
    (sender : sender_state_t) (w : world_t)
    (hmod : config.max_delay_ms - config.min_delay_ms + 1 ≠ 0) :
    ∃ r, handle_timeout E sender config w = .ok r := by
  simp only [handle_timeout, reset_timer]
  split_ifs
  · exact ⟨_, rfl⟩
  · obtain ⟨⟨b, w2⟩, hsend⟩ := send_data_frame_total E sender.current_frame config
      { w with stats := { w.stats with retransmissions := w.stats.retransmissions + 1 } } hmod
    rw [hsend]
    exact ⟨_, rfl⟩

theorem sender_step_total (E : env_t) (config : network_config_t) (s : loop_state_t)
    (hmod : config.max_delay_ms - config.min_delay_ms + 1 ≠ 0) :
    ∃ step, sender_step E config s = .ok step := by
  simp only [sender_step]
  split_ifs
  · exact ⟨_, rfl⟩
  · obtain ⟨⟨sender, w3⟩, hto⟩ := handle_timeout_total E config s.sender
      (is_timeout E s.sender (receive_ack_frame s.sender s.w).2).2 hmod
    rw [hto]
    simp only
    split_ifs
    · exact ⟨_, rfl⟩
    · exact ⟨_, rfl⟩
  · exact ⟨_, rfl⟩

theorem transmit_iteration_total (E : env_t) (config : network_config_t) (s : loop_state_t)
    (hmod : config.max_delay_ms - config.min_delay_ms + 1 ≠ 0) :
    ∃ step, transmit_iteration E config s = .ok step := by
  cases hstate : s.sender.state
  · obtain ⟨⟨b, w1⟩, hsend⟩ := send_data_frame_total E s.sender.current_frame config s.w hmod
    simp only [transmit_iteration, hstate, reset_timer, hsend]
    exact ⟨_, rfl⟩
  · obtain ⟨s1, hrecv⟩ := receiver_step_total E config s hmod
    simp only [transmit_iteration, hstate, hrecv]
    exact sender_step_total E config s1 hmod
  · simp only [transmit_iteration, hstate]
    exact ⟨_, rfl⟩

theorem waiting_iteration_expired (E : env_t) (config : network_config_t) (s : loop_state_t)
    (hmod : config.max_delay_ms - config.min_delay_ms + 1 ≠ 0)
    (hs : s.sender.state = .WAITING_FOR_ACK)
    (ht : E.timer_expired s.w.timer_polls = true) :
    (∃ result s1, transmit_iteration E config s = .ok (.ret result s1))
      ∨ (∃ s1, transmit_iteration E config s = .ok (.next s1)
          ∧ s1.sender.state = .WAITING_FOR_ACK
          ∧ s1.sender.retry_count = s.sender.retry_count + 1
          ∧ s1.sender.retry_count < MAX_RETRIES) := by
  obtain ⟨step, hit⟩ := transmit_iteration_total E config s hmod
  cases step with
  | ret result s1 => exact Or.inl ⟨result, s1, hit⟩
  | next s1 =>
    obtain ⟨hstate1, hcases⟩ := transmit_iteration_next_counts E config s s1 hit
    rcases hcases with hc | hc | hc
    · rw [hs] at hc
      cases hc.1
    · rw [ht] at hc
      cases hc.2.2.1
    · exact Or.inr ⟨s1, hit, hstate1, hc.2.2.1, hc.2.2.2.1⟩

theorem transmit_loop_terminates (E : env_t) (config : network_config_t)
    (hmod : config.max_delay_ms - config.min_delay_ms + 1 ≠ 0)
    (ht : ∀ k, E.timer_expired k = true) (n : Nat) :
    ∀ (fuel : Nat) (s : loop_state_t), s.sender.state = .WAITING_FOR_ACK →
      MAX_RETRIES ≤ s.sender.retry_count + n + 1 →
      ∃ r, transmit_loop E config (fuel + n + 1) s = .ok r := by
  induction n with
  | zero =>
    intro fuel s hs hretry
    have hcond : s.sender.state ≠ .WAITING_FOR_CALL ∨ s.sender.retry_count = 0 := by
      left; rw [hs]; decide
    simp only [transmit_loop, if_pos hcond]
    rcases waiting_iteration_expired E config s hmod hs (ht _) with ⟨r, s1, hit⟩ | ⟨s1, hit, -, h1, h2⟩
    · rw [hit]
      exact ⟨_, rfl⟩
    · exfalso
      omega
  | succ n ih =>
    intro fuel s hs hretry
    have hcond : s.sender.state ≠ .WAITING_FOR_CALL ∨ s.sender.retry_count = 0 := by
      left; rw [hs]; decide
    have hfuel : fuel + (n + 1) + 1 = (fuel + n + 1) + 1 := by omega
    rw [hfuel]
    simp only [transmit_loop, if_pos hcond]
    rcases waiting_iteration_expired E config s hmod hs (ht _) with ⟨r, s1, hit⟩ | ⟨s1, hit, hs1, h1, h2⟩
    · rw [hit]
      exact ⟨_, rfl⟩
    · rw [hit]
      exact ih fuel s1 hs1 (by push_cast at hretry ⊢; omega)

/-- C26. Bounded retries give termination, with the timer as an input and a delay range
whose modulus is not zero (otherwise rand() % 0 faults).  Every waiting iteration of the
main loop in which the timer has expired either returns or goes on with retry_count
increased by one and still below MAX_RETRIES; it returns when the increment reaches
MAX_RETRIES.  If the timer has expired at every poll, transmit_message on a valid message
returns within MAX_RETRIES + 1 loop iterations, whatever the network loses and whatever the
entry state. -/
theorem bounded_retries_terminate (fuel : Nat) (E : env_t) (message : List Nat)
    (config : network_config_t) (w : world_t)
    (hlen1 : 1 ≤ strlen message) (hlen2 : strlen message ≤ MAX_DATA_SIZE - 1)
    (hmod : config.max_delay_ms - config.min_delay_ms + 1 ≠ 0) :
    (∀ s : loop_state_t, s.sender.state = .WAITING_FOR_ACK →
        E.timer_expired s.w.timer_polls = true →
        (∃ result s1, transmit_iteration E config s = .ok (.ret result s1))
          ∨ (∃ s1, transmit_iteration E config s = .ok (.next s1)
              ∧ s1.sender.retry_count = s.sender.retry_count + 1
              ∧ s1.sender.retry_count < MAX_RETRIES))
      ∧ (∀ s : loop_state_t, s.sender.state = .WAITING_FOR_ACK →
          E.timer_expired s.w.timer_polls = true →
          MAX_RETRIES ≤ s.sender.retry_count + 1 →
          ∃ result s1, transmit_iteration E config s = .ok (.ret result s1))
      ∧ ((∀ k, E.timer_expired k = true) →
          ∃ result s1,
            transmit_message_locals (fuel + (MAX_RETRIES + 1).toNat) E message config w
              = .ok (result, s1)) := by
  refine ⟨?_, ?_, ?_⟩
  · intro s hs ht
    rcases waiting_iteration_expired E config s hmod hs ht with h | ⟨s1, hit, -, h1, h2⟩
    · exact Or.inl h
    · exact Or.inr ⟨s1, hit, h1, h2⟩
  · intro s hs ht hretry
    rcases waiting_iteration_expired E config s hmod hs ht with h | ⟨s1, hit, -, h1, h2⟩
    · exact h
    · exfalso
      omega
  · intro ht
    have hfuel : fuel + (MAX_RETRIES + 1).toNat = (fuel + 2 + 1) + 1 := by
      have : (MAX_RETRIES + 1).toNat = 4 := by decide
      omega
    rw [hfuel, transmit_message_locals_valid _ E message config w hlen1 hlen2,
      transmit_loop_start _ _ _ _ rfl rfl]
    obtain ⟨⟨b, w1⟩, hsend⟩ := send_data_frame_total E
      (filled_data_frame init_sender.current_frame init_sender.seq_num message
        (strlen message)) config w hmod
    simp only [hsend]
    obtain ⟨⟨result, s1⟩, hloop⟩ := transmit_loop_terminates E config hmod ht 2 fuel
      { sender :=
          { state := .WAITING_FOR_ACK, seq_num := init_sender.seq_num,
            current_frame := filled_data_frame init_sender.current_frame init_sender.seq_num
              message (strlen message),
            retry_count := init_sender.retry_count }
        receiver := init_receiver
        w := w1 } rfl (show MAX_RETRIES ≤ (0 : Int) + ((2 : Nat) : Int) + 1 by decide)
    exact ⟨result, s1, hloop⟩

theorem bounded_retries_terminate_witness :
    1 ≤ strlen message_ABC ∧ strlen message_ABC ≤ MAX_DATA_SIZE - 1
      ∧ half_loss_config.max_delay_ms - half_loss_config.min_delay_ms + 1 ≠ 0
      ∧ ∃ result s1,
          transmit_message_locals (0 + (MAX_RETRIES + 1).toNat) zero_rand_env message_ABC
              half_loss_config initial_world
            = .ok (result, s1) :=
  ⟨by decide, by decide, by decide,
   (bounded_retries_terminate 0 zero_rand_env message_ABC half_loss_config initial_world
     (by decide) (by decide) (by decide)).2.2 (fun _ => rfl)⟩

/-! ## The slots when a frame is sent -/

theorem send_data_frame_ack_slot (E : env_t) (frame : data_frame_t)
    (config : network_config_t) (w w1 : world_t) (b : Bool)
    (h : send_data_frame E frame config w = .ok (b, w1)) :
    w1.ack_in_transit = w.ack_in_transit := by
  simp only [send_data_frame, simulate_network_delay, simulate_frame_loss] at h
  split at h
  · simp at h
  · rename_i w2 hdelay
    split at hdelay
    · simp at hdelay
    · simp only [Except.ok.injEq] at hdelay
      split_ifs at h
      · simp only [Except.ok.injEq, Prod.mk.injEq] at h
        rw [← h.2, ← hdelay]
      · simp only [Except.ok.injEq, Prod.mk.injEq] at h
        rw [← h.2, ← hdelay]

theorem handle_timeout_calls (E : env_t) (config : network_config_t)
    (sender : sender_state_t) (w : world_t) :
    handle_timeout E sender config w
      = match handle_timeout_send_world sender w with
        | none =>
          .ok ({ sender with retry_count := sender.retry_count + 1, state := .WAITING_FOR_CALL },
            { w with
              stats := { w.stats with retransmissions := w.stats.retransmissions + 1 } })
        | some v =>
          match send_data_frame E sender.current_frame config v with
          | .error e => .error e
          | .ok (_, w2) => .ok ({ sender with retry_count := sender.retry_count + 1 }, w2) := by
  simp only [handle_timeout, handle_timeout_send_world, reset_timer]
  split_ifs <;> rfl

theorem receiver_step_calls (E : env_t) (config : network_config_t) (s : loop_state_t)
    (hs : s.sender.state = .WAITING_FOR_ACK) :
    receiver_step E config s
      = match ack_send_world s with
        | none => .ok { s with w := (receive_data_frame zero_data_frame s.w).2.2 }
        | some v =>
          match send_ack_frame E
              (create_ack_frame zero_ack_frame
                (receive_data_frame zero_data_frame s.w).2.1.seq_num) config v with
          | .error e => .error e
          | .ok (_, w2) =>
            .ok { s with
                  receiver :=
                    { s.receiver with
                      expected_seq := Int.tmod (s.receiver.expected_seq + 1) MAX_SEQ_NUM }
                  w := w2 } := by
  simp only [receiver_step, ack_send_world, hs, true_and]
  cases h1 : (receive_data_frame zero_data_frame s.w).1
  · simp only [Bool.false_eq_true, if_false, false_and]
  · by_cases h2 : (receive_data_frame zero_data_frame s.w).2.1.seq_num
        = s.receiver.expected_seq
    · simp only [h2, if_true, and_self]
    · simp only [h2, if_true, if_false, and_false]

theorem handle_timeout_ack_slot (E : env_t) (config : network_config_t)
    (sender sender1 : sender_state_t) (w w1 : world_t)
    (h : handle_timeout E sender config w = .ok (sender1, w1)) :
    w1.ack_in_transit = w.ack_in_transit := by
  simp only [handle_timeout, reset_timer] at h
  split_ifs at h
  · simp only [Except.ok.injEq, Prod.mk.injEq] at h
    rw [← h.2]
  · split at h
    · simp at h
    · rename_i b w2 hsend
      simp only [Except.ok.injEq, Prod.mk.injEq] at h
      rw [← h.2]
      exact (send_data_frame_ack_slot _ _ _ _ _ _ hsend).trans rfl

theorem sender_step_next_ack_slot (E : env_t) (config : network_config_t)
    (s s1 : loop_state_t) (h : sender_step E config s = .ok (.next s1)) :
    s1.w.ack_in_transit = false := by
  have hack := (receive_ack_frame_slot s.sender s.w).2.2
  have hpoll := (is_timeout_slot E s.sender (receive_ack_frame s.sender s.w).2).2.2
  simp only [sender_step] at h
  split_ifs at h
  · simp at h
  · split at h
    · simp at h
    · rename_i sender w3 hto
      split_ifs at h
      · simp at h
      · simp only [Except.ok.injEq, step_t.next.injEq] at h
        rw [← h]
        exact (handle_timeout_ack_slot _ _ _ _ _ _ hto).trans (hpoll.trans hack)
  · simp only [Except.ok.injEq, step_t.next.injEq] at h
    rw [← h]
    exact hpoll.trans hack

theorem transmit_iteration_next_ack_slot (E : env_t) (config : network_config_t)
    (s s1 : loop_state_t) (h : transmit_iteration E config s = .ok (.next s1))
    (hack : s.w.ack_in_transit = false) : s1.w.ack_in_transit = false := by
  simp only [transmit_iteration, reset_timer] at h
  split at h
  · split at h
    · simp at h
    · rename_i b w1 hsend
      simp only [Except.ok.injEq, step_t.next.injEq] at h
      rw [← h]
      exact (send_data_frame_ack_slot _ _ _ _ _ _ hsend).trans hack
  · split at h
    · simp at h
    · exact sender_step_next_ack_slot _ _ _ _ h
  · simp at h

theorem loop_states_slots (E : env_t) (config : network_config_t) (fuel : Nat)
    (s : loop_state_t) (hack : s.w.ack_in_transit = false)
    (hdata : s.sender.state = .WAITING_FOR_CALL → s.w.data_in_transit = false) :
    ∀ t ∈ loop_states E config fuel s,
      t.w.ack_in_transit = false
        ∧ (t.sender.state = .WAITING_FOR_CALL → t.w.data_in_transit = false) := by
  induction fuel generalizing s with
  | zero =>
    intro t ht
    simp [loop_states] at ht
  | succ fuel ih =>
    intro t ht
    simp only [loop_states] at ht
    split_ifs at ht
    · rcases List.mem_cons.mp ht with ht1 | ht1
      · rw [ht1]
        exact ⟨hack, hdata⟩
      · split at ht1
        · rename_i s2 hit
          have hstate := transmit_iteration_next_state E config s s2 hit
          exact ih s2 (transmit_iteration_next_ack_slot E config s s2 hit hack)
            (by intro hc; rw [hstate] at hc; cases hc) t ht1
        · simp at ht1
    · simp at ht

theorem data_send_world_slot (E : env_t) (config : network_config_t) (s : loop_state_t)
    (v : world_t) (hdata : s.sender.state = .WAITING_FOR_CALL → s.w.data_in_transit = false)
    (h : data_send_world E config s = some v) : v.data_in_transit = false := by
  cases hstate : s.sender.state
  · simp only [data_send_world, hstate, Option.some.injEq] at h
    rw [← h]
    exact hdata hstate
  · simp only [data_send_world, hstate] at h
    split at h
    · simp at h
    · rename_i s1 hrecv
      have h1 := receiver_step_data_slot _ _ _ _ hrecv
      have h2 := (receive_ack_frame_slot s1.sender s1.w).1
      have h3 := (is_timeout_slot E s1.sender (receive_ack_frame s1.sender s1.w).2).1
      split_ifs at h
      simp only [handle_timeout_send_world] at h
      split_ifs at h
      simp only [Option.some.injEq] at h
      rw [← h]
      exact h3.trans (h2.trans h1)
  · simp [data_send_world, hstate] at h

theorem ack_send_world_slot (s : loop_state_t) (v : world_t)
    (hack : s.w.ack_in_transit = false) (h : ack_send_world s = some v) :
    v.ack_in_transit = false := by
  simp only [ack_send_world] at h
  split_ifs at h
  simp only [Option.some.injEq] at h
  rw [← h]
  exact (receive_data_frame_slot zero_data_frame s.w).2.trans hack

/-- C25. Window size 1: in a call of transmit_message on a valid message that starts with
both network slots empty, no frame is overwritten before it is consumed: in every iteration
of the main loop, the world in which send_data_frame is called (from the main loop or from
handle_timeout) has data_in_transit false, and the world in which send_ack_frame is called
has ack_in_transit false.  Each slot holds one frame, so at most one data frame and one
acknowledgement are in transit at any time. -/
theorem window_size_one (fuel : Nat) (E : env_t) (message : List Nat)
    (config : network_config_t) (w : world_t)
    (hlen1 : 1 ≤ strlen message) (hlen2 : strlen message ≤ MAX_DATA_SIZE - 1)
    (hdata : w.data_in_transit = false) (hack : w.ack_in_transit = false) :
    transmit_message_locals fuel E message config w
        = transmit_loop E config fuel (initial_loop_state message w)
      ∧ ∀ t ∈ loop_states E config fuel (initial_loop_state message w),
          (∀ v, data_send_world E config t = some v → v.data_in_transit = false)
            ∧ (∀ v, ack_send_world t = some v → v.ack_in_transit = false) := by
  refine ⟨transmit_message_locals_valid fuel E message config w hlen1 hlen2, ?_⟩
  intro t ht
  obtain ⟨h1, h2⟩ := loop_states_slots E config fuel (initial_loop_state message w) hack
    (fun _ => hdata) t ht
  exact ⟨fun v hv => data_send_world_slot E config t v h2 hv,
    fun v hv => ack_send_world_slot t v h1 hv⟩

theorem window_size_one_witness :
    1 ≤ strlen message_ABC ∧ strlen message_ABC ≤ MAX_DATA_SIZE - 1
      ∧ initial_world.data_in_transit = false ∧ initial_world.ack_in_transit = false
      ∧ data_send_world zero_rand_env ideal_config
          (initial_loop_state message_ABC initial_world) = some initial_world
      ∧ transmit_message_locals 2 zero_rand_env message_ABC ideal_config initial_world
          = transmit_loop zero_rand_env ideal_config 2
              (initial_loop_state message_ABC initial_world)
      ∧ ∀ t ∈ loop_states zero_rand_env ideal_config 2
            (initial_loop_state message_ABC initial_world),
          (∀ v, data_send_world zero_rand_env ideal_config t = some v →
              v.data_in_transit = false)
            ∧ (∀ v, ack_send_world t = some v → v.ack_in_transit = false) :=
  ⟨by decide, by decide, rfl, rfl, rfl,
   window_size_one 2 zero_rand_env message_ABC ideal_config initial_world (by decide)
     (by decide) rfl rfl⟩

/-! ## What one iteration does to the network -/

theorem sender_phase (E : env_t) (config : network_config_t) (b : statistics_t)
    (s : loop_state_t) (hinv : network_invariant b s)
    (hs : s.sender.state = .WAITING_FOR_ACK) (hd : s.w.data_in_transit = false)
    (hmod : config.max_delay_ms - config.min_delay_ms + 1 ≠ 0) :
    (∃ s1, sender_step E config s = .ok (.next s1) ∧ network_invariant b s1
        ∧ s1.receiver = s.receiver)
      ∨ (∃ s1, sender_step E config s = .ok (.ret false s1) ∧ run_outcome b false s1.w) := by
  obtain ⟨hlen, hck, hseq, hsn, hst, hcall, hack, hbuf, hexp, har, hcons, hle⟩ := hinv
  simp only [hd, Bool.false_eq_true, if_false] at hcons hle
  cases ht : E.timer_expired s.w.timer_polls
  · left
    refine ⟨_, sender_step_waiting E config s hack hs ht, ?_, rfl⟩
    refine ⟨hlen, hck, hseq, hsn, hst, hcall, hack, hbuf, hexp, har, ?_, ?_⟩
    · simp only [hd, Bool.false_eq_true, if_false]
      exact hcons
    · simp only [hd, Bool.false_eq_true, if_false]
      exact hle
  · by_cases hr : MAX_RETRIES ≤ s.sender.retry_count + 1
    · right
      refine ⟨_, sender_step_give_up E config s hack hs ht hr, ?_⟩
      refine ⟨hd, hack, ?_, ?_, ?_, ?_, ?_, ?_, ?_⟩
      all_goals simp only [Bool.false_eq_true, if_false]
      all_goals rcases hexp with h1 | h1 <;> omega
    · have hr1 : s.sender.retry_count + 1 < MAX_RETRIES := lt_of_not_ge hr
      left
      cases hl : frame_lost config (E.rand (s.w.rand_calls + 1))
      · refine ⟨_, sender_step_resend_delivered E config s hack hs ht hr1 hmod hl, ?_, rfl⟩
        refine ⟨hlen, hck, hseq, hsn, hst, ?_, hack, fun _ => rfl, hexp, har, ?_, ?_⟩
        · intro hc
          rw [hs] at hc
          cases hc
        · simp only [if_true]
          omega
        · simp only [if_true]
          omega
      · refine ⟨_, sender_step_resend_lost E config s hack hs ht hr1 hmod hl, ?_, rfl⟩
        refine ⟨hlen, hck, hseq, hsn, hst, hcall, hack, hbuf, hexp, har, ?_, ?_⟩
        · simp only [hd, Bool.false_eq_true, if_false]
          omega
        · simp only [hd, Bool.false_eq_true, if_false]
          omega

theorem frame_taken_isSome (s : loop_state_t) :
    (frame_taken s).isSome
      = (decide (s.sender.state = .WAITING_FOR_ACK) && s.w.data_in_transit) := by
  simp only [frame_taken]
  by_cases h1 : s.sender.state = .WAITING_FOR_ACK <;> cases h2 : s.w.data_in_transit
    <;> simp [h1]

theorem ack_delivered_accept (E : env_t) (config : network_config_t) (s : loop_state_t)
    (hs : s.sender.state = .WAITING_FOR_ACK) (ht : s.w.data_in_transit = true)
    (hlen : s.w.network_data_buffer.data.length = MAX_DATA_SIZE)
    (hc : s.w.network_data_buffer.checksum
      = calculate_checksum (data_frame_bytes s.w.network_data_buffer)
          (sizeof_data_frame_t - sizeof_unsigned_int))
    (hseq : s.w.network_data_buffer.seq_num = s.receiver.expected_seq)
    (hmod : config.max_delay_ms - config.min_delay_ms + 1 ≠ 0) :
    ack_delivered E config s = !frame_lost config (E.rand (s.w.rand_calls + 1)) := by
  simp only [ack_delivered, ack_send_world, receive_data_frame_verified _ _ ht hlen hc, hs,
    hseq, and_self, if_true]
  cases hl : frame_lost config (E.rand (s.w.rand_calls + 1))
  · rw [send_ack_frame_delivered E _ config _ hmod (by exact hl)]
    rfl
  · rw [send_ack_frame_lost E _ config _ hmod (by exact hl)]
    rfl

theorem receiver_phase (E : env_t) (config : network_config_t) (b : statistics_t)
    (s : loop_state_t) (hinv : network_invariant b s)
    (hs : s.sender.state = .WAITING_FOR_ACK)
    (hmod : config.max_delay_ms - config.min_delay_ms + 1 ≠ 0) :
    (∃ s2, receiver_step E config s = .ok s2
        ∧ (frame_taken s).isSome = true ∧ s.receiver.expected_seq = 0
        ∧ ack_delivered E config s = true
        ∧ ∃ s1, sender_step E config s2 = .ok (.ret true s1) ∧ run_outcome b true s1.w)
      ∨ (∃ s2, receiver_step E config s = .ok s2
        ∧ network_invariant b s2 ∧ s2.sender.state = .WAITING_FOR_ACK
        ∧ s2.w.data_in_transit = false
        ∧ (((frame_taken s).isSome = false
              ∧ s2.receiver.expected_seq = s.receiver.expected_seq)
            ∨ ((frame_taken s).isSome = true ∧ s2.receiver.expected_seq = 1
              ∧ (s.receiver.expected_seq = 0 → ack_delivered E config s = false)))) := by
  have htaken := frame_taken_isSome s
  obtain ⟨hlen, hck, hseq, hsn, hst, hcall, hack, hbuf, hexp, har, hcons, hle⟩ := hinv
  cases hd : s.w.data_in_transit
  · right
    rw [hs, hd] at htaken
    refine ⟨s, receiver_step_idle E config s hd, ?_, hs, hd, Or.inl ⟨htaken, rfl⟩⟩
    exact ⟨hlen, hck, hseq, hsn, hst, hcall, hack, hbuf, hexp, har, hcons, hle⟩
  · rw [hs, hd] at htaken
    have htaken1 : (frame_taken s).isSome = true := htaken
    have hb := hbuf hd
    have hblen : s.w.network_data_buffer.data.length = MAX_DATA_SIZE := by rw [hb]; exact hlen
    have hbck : s.w.network_data_buffer.checksum
        = calculate_checksum (data_frame_bytes s.w.network_data_buffer)
            (sizeof_data_frame_t - sizeof_unsigned_int) := by rw [hb]; exact hck
    have hbseq : s.w.network_data_buffer.seq_num = 0 := by rw [hb]; exact hseq
    simp only [hd, if_true] at hcons hle
    rcases hexp with ⟨he, has, hfr⟩ | ⟨he, has, hfr⟩
    · have hseq0 : s.w.network_data_buffer.seq_num = s.receiver.expected_seq := by
        rw [hbseq, he]
      have hdel := ack_delivered_accept E config s hs hd hblen hbck hseq0 hmod
      have hmod2 : Int.tmod (s.receiver.expected_seq + 1) MAX_SEQ_NUM = 1 := by
        rw [he]
        decide
      cases hl : frame_lost config (E.rand (s.w.rand_calls + 1))
      · left
        rw [hl] at hdel
        refine ⟨_, receiver_step_accept E config s hd hblen hbck hseq0 hmod hl, htaken1, he,
          hdel, ?_⟩
        refine ⟨_, sender_step_acked E config _ rfl ?_, ?_⟩
        · show create_ack_frame zero_ack_frame s.w.network_data_buffer.seq_num
            = create_ack_frame zero_ack_frame s.sender.seq_num
          rw [hbseq, hsn]
        · refine ⟨rfl, rfl, ?_, ?_, ?_, ?_, ?_, ?_, ?_⟩
          all_goals simp only [if_true]
          all_goals omega
      · right
        rw [hl] at hdel
        refine ⟨_, receiver_step_accept_ack_lost E config s hd hblen hbck hseq0 hmod hl, ?_,
          hs, rfl, Or.inr ⟨htaken1, hmod2, fun _ => hdel⟩⟩
        refine ⟨hlen, hck, hseq, hsn, hst, fun _ => rfl, hack, ?_, Or.inr ⟨hmod2, ?_, ?_⟩, har,
          ?_, ?_⟩
        · intro hc
          cases hc
        · show s.w.stats.acks_sent + 1 = b.acks_sent + 1
          omega
        · show b.frames_received + 1 ≤ s.w.stats.frames_received + 1
          omega
        · simp only [Bool.false_eq_true, if_false]
          omega
        · simp only [Bool.false_eq_true, if_false]
          omega
    · have hseq1 : s.w.network_data_buffer.seq_num ≠ s.receiver.expected_seq := by
        rw [hbseq, he]
        decide
      right
      refine ⟨_, receiver_step_duplicate E config s hd hblen hbck hseq1, ?_, hs, rfl,
        Or.inr ⟨htaken1, he, fun h0 => ?_⟩⟩
      · refine ⟨hlen, hck, hseq, hsn, hst, fun _ => rfl, hack, ?_, Or.inr ⟨he, has, ?_⟩, har,
          ?_, ?_⟩
        · intro hc
          cases hc
        · show b.frames_received + 1 ≤ s.w.stats.frames_received + 1
          omega
        · simp only [Bool.false_eq_true, if_false]
          omega
        · simp only [Bool.false_eq_true, if_false]
          omega
      · rw [he] at h0
        exact absurd h0 (by decide)

theorem transmit_iteration_waiting (E : env_t) (config : network_config_t)
    (s : loop_state_t) (hs : s.sender.state = .WAITING_FOR_ACK) :
    transmit_iteration E config s
      = match receiver_step E config s with
        | .error e => .error e
        | .ok s1 => sender_step E config s1 := by
  simp only [transmit_iteration, hs]

theorem transmit_iteration_start_delivered (E : env_t) (config : network_config_t)
    (s : loop_state_t) (hs : s.sender.state = .WAITING_FOR_CALL)
    (hmod : config.max_delay_ms - config.min_delay_ms + 1 ≠ 0)
    (hl : frame_lost config (E.rand (s.w.rand_calls + 1)) = false) :
    transmit_iteration E config s
      = .ok (.next
          { s with
            sender := { s.sender with state := .WAITING_FOR_ACK }
            w := { s.w with
                   stats := { s.w.stats with frames_sent := s.w.stats.frames_sent + 1 }
                   rand_calls := s.w.rand_calls + 2
                   network_data_buffer := s.sender.current_frame
                   data_in_transit := true } }) := by
  simp only [transmit_iteration, hs, reset_timer,
    send_data_frame_delivered E _ config s.w hmod hl]

theorem transmit_iteration_start_lost (E : env_t) (config : network_config_t)
    (s : loop_state_t) (hs : s.sender.state = .WAITING_FOR_CALL)
    (hmod : config.max_delay_ms - config.min_delay_ms + 1 ≠ 0)
    (hl : frame_lost config (E.rand (s.w.rand_calls + 1)) = true) :
    transmit_iteration E config s
      = .ok (.next
          { s with
            sender := { s.sender with state := .WAITING_FOR_ACK }
            w := { s.w with
                   stats := { s.w.stats with
                              frames_sent := s.w.stats.frames_sent + 1
                              frames_lost := s.w.stats.frames_lost + 1 }
                   rand_calls := s.w.rand_calls + 2 } }) := by
  simp only [transmit_iteration, hs, reset_timer,
    send_data_frame_lost E _ config s.w hmod hl]

theorem network_step (E : env_t) (config : network_config_t) (b : statistics_t)
    (s : loop_state_t) (hinv : network_invariant b s)
    (hmod : config.max_delay_ms - config.min_delay_ms + 1 ≠ 0) :
    (∃ s1, transmit_iteration E config s = .ok (.next s1) ∧ network_invariant b s1
        ∧ (((frame_taken s).isSome = false
              ∧ s1.receiver.expected_seq = s.receiver.expected_seq)
            ∨ ((frame_taken s).isSome = true ∧ s1.receiver.expected_seq = 1
              ∧ (s.receiver.expected_seq = 0 → ack_delivered E config s = false))))
      ∨ (∃ result s1, transmit_iteration E config s = .ok (.ret result s1)
        ∧ run_outcome b result s1.w
        ∧ ((result = true ∧ (frame_taken s).isSome = true ∧ s.receiver.expected_seq = 0
              ∧ ack_delivered E config s = true)
            ∨ (result = false
              ∧ ((frame_taken s).isSome = true → s.receiver.expected_seq = 0 →
                  ack_delivered E config s = false)))) := by
  have hstates := hinv.2.2.2.2.1
  rcases hstates with hstate | hstate
  · left
    obtain ⟨hlen, hck, hseq, hsn, hst, hcall, hack, hbuf, hexp, har, hcons, hle⟩ := hinv
    have hd := hcall hstate
    have htaken : (frame_taken s).isSome = false := by
      rw [frame_taken_isSome, hstate]
      rfl
    simp only [hd, Bool.false_eq_true, if_false] at hcons hle
    cases hl : frame_lost config (E.rand (s.w.rand_calls + 1))
    · refine ⟨_, transmit_iteration_start_delivered E config s hstate hmod hl, ?_,
        Or.inl ⟨htaken, rfl⟩⟩
      · refine ⟨hlen, hck, hseq, hsn, Or.inr rfl, ?_, hack, fun _ => rfl, hexp, har, ?_, ?_⟩
        · intro hc
          cases hc
        · simp only [if_true]
          omega
        · simp only [if_true]
          omega
    · refine ⟨_, transmit_iteration_start_lost E config s hstate hmod hl, ?_,
        Or.inl ⟨htaken, rfl⟩⟩
      · refine ⟨hlen, hck, hseq, hsn, Or.inr rfl, ?_, hack, hbuf, hexp, har, ?_, ?_⟩
        · intro hc
          cases hc
        · simp only [hd, Bool.false_eq_true, if_false]
          omega
        · simp only [hd, Bool.false_eq_true, if_false]
          omega
  · rw [transmit_iteration_waiting E config s hstate]
    rcases receiver_phase E config b s hinv hstate hmod with
      ⟨s2, hrecv, htaken, he, hdel, s1, hsend, hout⟩ | ⟨s2, hrecv, hinv2, hs2, hd2, hlink⟩
    · right
      rw [hrecv]
      exact ⟨true, s1, hsend, hout, Or.inl ⟨rfl, htaken, he, hdel⟩⟩
    · rw [hrecv]
      rcases sender_phase E config b s2 hinv2 hs2 hd2 hmod with
        ⟨s1, hsend, hinv1, hrcv⟩ | ⟨s1, hsend, hout⟩
      · left
        refine ⟨s1, hsend, hinv1, ?_⟩
        rw [hrcv]
        exact hlink
      · right
        refine ⟨false, s1, hsend, hout, Or.inr ⟨rfl, fun htaken he => ?_⟩⟩
        rcases hlink with hl | hl
        · rw [hl.1] at htaken
          cases htaken
        · exact hl.2.2 he

theorem network_invariant_initial (message : List Nat) (w : world_t)
    (hdata : w.data_in_transit = false) (hack : w.ack_in_transit = false) :
    network_invariant w.stats (initial_loop_state message w) := by
  refine ⟨first_frame_data_length message, first_frame_checksum message, rfl, rfl,
    Or.inl rfl, fun _ => hdata, hack, ?_, Or.inl ⟨rfl, rfl, rfl⟩, rfl, ?_, ?_⟩
  · intro hc
    rw [show (initial_loop_state message w).w.data_in_transit = false from hdata] at hc
    cases hc
  · simp only [show (initial_loop_state message w).w.data_in_transit = false from hdata,
      Bool.false_eq_true, if_false]
    show w.stats.frames_sent - w.stats.frames_sent + (w.stats.acks_sent - w.stats.acks_sent)
      = w.stats.frames_received - w.stats.frames_received
        + (w.stats.frames_lost - w.stats.frames_lost) + 0
    omega
  · simp only [show (initial_loop_state message w).w.data_in_transit = false from hdata,
      Bool.false_eq_true, if_false]
    show w.stats.frames_received - w.stats.frames_received + 0
      ≤ w.stats.frames_sent - w.stats.frames_sent
    omega

theorem run_outcome_unchanged (b : statistics_t) (s : loop_state_t)
    (hinv : network_invariant b s) (hd : s.w.data_in_transit = false) :
    run_outcome b false s.w := by
  obtain ⟨hlen, hck, hseq, hsn, hst, hcall, hack, hbuf, hexp, har, hcons, hle⟩ := hinv
  simp only [hd, Bool.false_eq_true, if_false] at hcons hle
  refine ⟨hd, hack, ?_, ?_, ?_, ?_, ?_, ?_, ?_⟩
  all_goals try simp only [Bool.false_eq_true, if_false]
  all_goals rcases hexp with h1 | h1 <;> omega

theorem loop_condition_fails (b : statistics_t) (s : loop_state_t)
    (hinv : network_invariant b s)
    (hc : ¬ (s.sender.state ≠ .WAITING_FOR_CALL ∨ s.sender.retry_count = 0)) :
    s.w.data_in_transit = false := by
  apply hinv.2.2.2.2.2.1
  by_contra hne
  exact hc (Or.inl hne)

theorem transmit_loop_outcome (E : env_t) (config : network_config_t) (b : statistics_t)
    (hmod : config.max_delay_ms - config.min_delay_ms + 1 ≠ 0)
    (fuel : Nat) (s s1 : loop_state_t) (result : Bool)
    (h : transmit_loop E config fuel s = .ok (result, s1)) (hinv : network_invariant b s) :
    run_outcome b result s1.w := by
  induction fuel generalizing s with
  | zero => simp [transmit_loop] at h
  | succ fuel ih =>
    simp only [transmit_loop] at h
    split_ifs at h with hc
    · rcases network_step E config b s hinv hmod with
        ⟨s2, hit, hinv2, -⟩ | ⟨r, s2, hit, hout, -⟩
      · rw [hit] at h
        exact ih s2 h hinv2
      · rw [hit] at h
        simp only [Except.ok.injEq, Prod.mk.injEq] at h
        rw [← h.1, ← h.2]
        exact hout
    · simp only [Except.ok.injEq, Prod.mk.injEq] at h
      rw [← h.1, ← h.2]
      exact run_outcome_unchanged b s hinv (loop_condition_fails b s hinv hc)

theorem transmit_loop_modulus (E : env_t) (config : network_config_t) (fuel : Nat)
    (s : loop_state_t) (r : Bool × loop_state_t)
    (hs : s.sender.state = .WAITING_FOR_CALL) (hr : s.sender.retry_count = 0)
    (h : transmit_loop E config fuel s = .ok r) :
    config.max_delay_ms - config.min_delay_ms + 1 ≠ 0 := by
  intro hmod
  cases fuel with
  | zero => simp [transmit_loop] at h
  | succ fuel =>
    rw [transmit_loop_start E config fuel s hs hr,
      send_data_frame_fault E _ config s.w hmod] at h
    simp at h

theorem transmit_loop_after_ack_lost (E : env_t) (config : network_config_t)
    (b : statistics_t) (hmod : config.max_delay_ms - config.min_delay_ms + 1 ≠ 0)
    (fuel : Nat) (s s1 : loop_state_t) (result : Bool)
    (h : transmit_loop E config fuel s = .ok (result, s1)) (hinv : network_invariant b s)
    (he : s.receiver.expected_seq = 1) : result = false := by
  induction fuel generalizing s with
  | zero => simp [transmit_loop] at h
  | succ fuel ih =>
    simp only [transmit_loop] at h
    split_ifs at h with hc
    · rcases network_step E config b s hinv hmod with
        ⟨s2, hit, hinv2, hlink⟩ | ⟨r, s2, hit, -, hlink⟩
      · rw [hit] at h
        refine ih s2 h hinv2 ?_
        rcases hlink with hl | hl
        · rw [hl.2, he]
        · exact hl.2.1
      · rw [hit] at h
        simp only [Except.ok.injEq, Prod.mk.injEq] at h
        rw [← h.1]
        rcases hlink with hl | hl
        · rw [he] at hl
          exact absurd hl.2.2.1 (by decide)
        · exact hl.1
    · simp only [Except.ok.injEq, Prod.mk.injEq] at h
      exact h.1.symm

theorem transmit_loop_true_iff (E : env_t) (config : network_config_t)
    (b : statistics_t) (hmod : config.max_delay_ms - config.min_delay_ms + 1 ≠ 0)
    (fuel : Nat) (s s1 : loop_state_t) (result : Bool)
    (h : transmit_loop E config fuel s = .ok (result, s1)) (hinv : network_invariant b s)
    (he : s.receiver.expected_seq = 0) :
    result = true
      ↔ ∃ t, (loop_states E config fuel s).find? (fun t => (frame_taken t).isSome) = some t
          ∧ ack_delivered E config t = true := by
  induction fuel generalizing s with
  | zero => simp [transmit_loop] at h
  | succ fuel ih =>
    simp only [transmit_loop] at h
    simp only [loop_states]
    by_cases hc : s.sender.state ≠ .WAITING_FOR_CALL ∨ s.sender.retry_count = 0
    · rw [if_pos hc] at h ⊢
      rcases network_step E config b s hinv hmod with
        ⟨s2, hit, hinv2, hlink⟩ | ⟨r, s2, hit, -, hlink⟩
      · rw [hit] at h ⊢
        simp only at h ⊢
        rcases hlink with hl | hl
        · have he2 : s2.receiver.expected_seq = 0 := by rw [hl.2, he]
          rw [List.find?_cons, hl.1]
          exact ih s2 h hinv2 he2
        · have hres := transmit_loop_after_ack_lost E config b hmod fuel s2 s1 result h hinv2
            hl.2.1
          have hdel := hl.2.2 he
          rw [List.find?_cons, hl.1]
          constructor
          · intro hr
            rw [hres] at hr
            cases hr
          · rintro ⟨t, ht, hd⟩
            simp only [Option.some.injEq] at ht
            rw [← ht, hdel] at hd
            cases hd
      · rw [hit] at h ⊢
        simp only [Except.ok.injEq, Prod.mk.injEq] at h
        simp only
        rw [← h.1]
        rcases hlink with hl | hl
        · constructor
          · intro _
            refine ⟨s, ?_, hl.2.2.2⟩
            rw [List.find?_cons, hl.2.1]
          · intro _
            exact hl.1
        · constructor
          · intro hr
            rw [hl.1] at hr
            cases hr
          · rintro ⟨t, ht, hd⟩
            rw [List.find?_cons] at ht
            cases hsome : (frame_taken s).isSome
            · rw [hsome] at ht
              simp at ht
            · rw [hsome] at ht
              simp only [Option.some.injEq] at ht
              rw [← ht, hl.2 hsome he] at hd
              cases hd
    · rw [if_neg hc] at h ⊢
      simp only [Except.ok.injEq, Prod.mk.injEq] at h
      rw [← h.1]
      simp

theorem loop_states_network_invariant (E : env_t) (config : network_config_t)
    (b : statistics_t) (hmod : config.max_delay_ms - config.min_delay_ms + 1 ≠ 0)
    (fuel : Nat) (s : loop_state_t) (hinv : network_invariant b s) :
    ∀ t ∈ loop_states E config fuel s, network_invariant b t := by
  induction fuel generalizing s with
  | zero =>
    intro t ht
    simp [loop_states] at ht
  | succ fuel ih =>
    intro t ht
    simp only [loop_states] at ht
    split_ifs at ht
    · rcases List.mem_cons.mp ht with ht1 | ht1
      · rw [ht1]
        exact hinv
      · rcases network_step E config b s hinv hmod with
          ⟨s2, hit, hinv2, -⟩ | ⟨r, s2, hit, -, -⟩
        · rw [hit] at ht1
          exact ih s2 hinv2 t ht1
        · rw [hit] at ht1
          simp at ht1
    · simp at ht

theorem loop_states_fault (E : env_t) (config : network_config_t) (fuel : Nat)
    (s : loop_state_t) (hs : s.sender.state = .WAITING_FOR_CALL)
    (hmod : config.max_delay_ms - config.min_delay_ms + 1 = 0) :
    ∀ t ∈ loop_states E config fuel s, t = s := by
  intro t ht
  cases fuel with
  | zero => simp [loop_states] at ht
  | succ fuel =>
    simp only [loop_states, transmit_iteration, hs, reset_timer,
      send_data_frame_fault E _ config s.w hmod] at ht
    split_ifs at ht
    · simpa using ht
    · simp at ht

theorem loop_states_acks (E : env_t) (config : network_config_t) (fuel : Nat)
    (message : List Nat) (w : world_t)
    (hdata : w.data_in_transit = false) (hack : w.ack_in_transit = false) :
    ∀ t ∈ loop_states E config fuel (initial_loop_state message w),
      network_invariant w.stats t := by
  have hinit := network_invariant_initial message w hdata hack
  by_cases hmod : config.max_delay_ms - config.min_delay_ms + 1 = 0
  · intro t ht
    rw [loop_states_fault E config fuel _ rfl hmod t ht]
    exact hinit
  · exact loop_states_network_invariant E config w.stats hmod fuel _ hinit

theorem transmit_message_outcome (fuel : Nat) (E : env_t) (message : List Nat)
    (config : network_config_t) (w w1 : world_t) (result : Bool)
    (hdata : w.data_in_transit = false) (hack : w.ack_in_transit = false)
    (h : transmit_message fuel E message config w = .ok (result, w1)) :
    run_outcome w.stats result w1 := by
  have hinit := network_invariant_initial message w hdata hack
  have hrej : run_outcome w.stats false w :=
    run_outcome_unchanged w.stats (initial_loop_state message w) hinit hdata
  simp only [transmit_message] at h
  split at h
  · simp at h
  · rename_i r s hrun
    simp only [Except.ok.injEq, Prod.mk.injEq] at h
    rw [← h.1, ← h.2]
    rcases transmit_message_locals_cases message with hc | hc | ⟨payload, -, -, hc⟩
    · rw [hc] at hrun
      simp only [Except.ok.injEq, Prod.mk.injEq] at hrun
      rw [← hrun.1, ← hrun.2]
      exact hrej
    · rw [hc] at hrun
      cases hrun
    · rw [hc] at hrun
      have hmod := transmit_loop_modulus E config fuel _ _ rfl rfl hrun
      exact transmit_loop_outcome E config w.stats hmod fuel _ s r hrun
        (network_invariant_initial payload w hdata hack)

/-- C28. At most one acknowledgement per message, for a call of transmit_message on a valid
message that starts with both network slots empty.  Whenever an iteration of the main loop
starts, acks_sent has increased by 0 or 1, the receiver expects sequence number 0 or 1, and
the sender's frame carries sequence number 0.  When the call returns, acks_sent has
increased by at most 1 and acks_received by 1 or 0 according to the result, and the result
is true if and only if there is a first iteration in which the receiver takes a data frame
from the network and the acknowledgement sent in that iteration is delivered; if that
acknowledgement is dropped the result is false. -/
theorem at_most_one_ack (fuel : Nat) (E : env_t) (message : List Nat)
    (config : network_config_t) (w : world_t)
    (hlen1 : 1 ≤ strlen message) (hlen2 : strlen message ≤ MAX_DATA_SIZE - 1)
    (hdata : w.data_in_transit = false) (hack : w.ack_in_transit = false) :
    (∀ t ∈ loop_states E config fuel (initial_loop_state message w),
        0 ≤ t.w.stats.acks_sent - w.stats.acks_sent
          ∧ t.w.stats.acks_sent - w.stats.acks_sent ≤ 1
          ∧ (t.receiver.expected_seq = 0 ∨ t.receiver.expected_seq = 1)
          ∧ t.sender.current_frame.seq_num = 0)
      ∧ ∀ result w1, transmit_message fuel E message config w = .ok (result, w1) →
          0 ≤ w1.stats.acks_sent - w.stats.acks_sent
            ∧ w1.stats.acks_sent - w.stats.acks_sent ≤ 1
            ∧ w1.stats.acks_received - w.stats.acks_received
                = (if result = true then 1 else 0)
            ∧ (result = true
                ↔ ∃ t, (loop_states E config fuel (initial_loop_state message w)).find?
                      (fun t => (frame_taken t).isSome) = some t
                    ∧ ack_delivered E config t = true)
            ∧ ((∃ t, (loop_states E config fuel (initial_loop_state message w)).find?
                      (fun t => (frame_taken t).isSome) = some t
                    ∧ ack_delivered E config t = false) → result = false) := by
  have hinit := network_invariant_initial message w hdata hack
  constructor
  · intro t ht
    have hinv := loop_states_acks E config fuel message w hdata hack t ht
    obtain ⟨-, -, hseq, -, -, -, -, -, hexp, -⟩ := hinv
    clear hinit ht
    rcases hexp with ⟨h1, h2, -⟩ | ⟨h1, h2, -⟩
    · refine ⟨?_, ?_, Or.inl h1, hseq⟩
      · omega
      · omega
    · refine ⟨?_, ?_, Or.inr h1, hseq⟩
      · omega
      · omega
  · intro result w1 h
    have hout := transmit_message_outcome fuel E message config w w1 result hdata hack h
    obtain ⟨-, -, -, -, -, -, h0, h1, hrecv⟩ := hout
    simp only [transmit_message] at h
    split at h
    · simp at h
    · rename_i r s hrun
      simp only [Except.ok.injEq, Prod.mk.injEq] at h
      rw [h.1] at hrun
      rw [transmit_message_locals_valid fuel E message config w hlen1 hlen2] at hrun
      have hmod := transmit_loop_modulus E config fuel _ _ rfl rfl hrun
      have hiff := transmit_loop_true_iff E config w.stats hmod fuel
        (initial_loop_state message w) s result hrun hinit rfl
      refine ⟨h0, h1, hrecv, hiff, ?_⟩
      rintro ⟨t, ht, hd⟩
      cases hres : result
      · rfl
      · obtain ⟨t2, ht2, hd2⟩ := hiff.mp hres
        rw [ht] at ht2
        simp only [Option.some.injEq] at ht2
        rw [ht2, hd2] at hd
        cases hd

/-- C29. Frame conservation in the statistics: for every run of transmit_message that
starts with both network slots empty and returns, the increases of the counters satisfy
frames_sent + acks_sent = frames_received + acks_received + frames_lost, so every
transmitted frame is counted exactly once as received or as lost, and further
frames_received ≤ frames_sent and acks_received ≤ acks_sent ≤ frames_received. -/
theorem frame_conservation (fuel : Nat) (E : env_t) (message : List Nat)
    (config : network_config_t) (w w1 : world_t) (result : Bool)
    (hdata : w.data_in_transit = false) (hack : w.ack_in_transit = false)
    (h : transmit_message fuel E message config w = .ok (result, w1)) :
    (w1.stats.frames_sent - w.stats.frames_sent) + (w1.stats.acks_sent - w.stats.acks_sent)
        = (w1.stats.frames_received - w.stats.frames_received)
          + (w1.stats.acks_received - w.stats.acks_received)
          + (w1.stats.frames_lost - w.stats.frames_lost)
      ∧ w1.stats.frames_received - w.stats.frames_received
          ≤ w1.stats.frames_sent - w.stats.frames_sent
      ∧ w1.stats.acks_received - w.stats.acks_received
          ≤ w1.stats.acks_sent - w.stats.acks_sent
      ∧ w1.stats.acks_sent - w.stats.acks_sent
          ≤ w1.stats.frames_received - w.stats.frames_received := by
  obtain ⟨-, -, hcons, h1, h2, h3, -⟩ :=
    transmit_message_outcome fuel E message config w w1 result hdata hack h
  exact ⟨hcons, h1, h2, h3⟩

theorem frame_conservation_witness :
    initial_world.data_in_transit = false ∧ initial_world.ack_in_transit = false
      ∧ transmit_message 2 zero_rand_env message_ABC ideal_config initial_world
          = .ok (true, world_after_ABC)
      ∧ (world_after_ABC.stats.frames_sent - initial_world.stats.frames_sent)
          + (world_after_ABC.stats.acks_sent - initial_world.stats.acks_sent)
          = (world_after_ABC.stats.frames_received - initial_world.stats.frames_received)
            + (world_after_ABC.stats.acks_received - initial_world.stats.acks_received)
            + (world_after_ABC.stats.frames_lost - initial_world.stats.frames_lost)
      ∧ world_after_ABC.stats.frames_received - initial_world.stats.frames_received
          ≤ world_after_ABC.stats.frames_sent - initial_world.stats.frames_sent
      ∧ world_after_ABC.stats.acks_received - initial_world.stats.acks_received
          ≤ world_after_ABC.stats.acks_sent - initial_world.stats.acks_sent
      ∧ world_after_ABC.stats.acks_sent - initial_world.stats.acks_sent
          ≤ world_after_ABC.stats.frames_received - initial_world.stats.frames_received :=
  ⟨rfl, rfl, first_call_ABC_world,
   frame_conservation 2 zero_rand_env message_ABC ideal_config initial_world world_after_ABC
     true rfl rfl first_call_ABC_world⟩

theorem at_most_one_ack_witness :
    1 ≤ strlen message_ABC ∧ strlen message_ABC ≤ MAX_DATA_SIZE - 1
      ∧ initial_world.data_in_transit = false ∧ initial_world.ack_in_transit = false
      ∧ transmit_message 2 zero_rand_env message_ABC ideal_config initial_world
          = .ok (true, world_after_ABC)
      ∧ ∃ t, (loop_states zero_rand_env ideal_config 2
              (initial_loop_state message_ABC initial_world)).find?
            (fun t => (frame_taken t).isSome) = some t
          ∧ ack_delivered zero_rand_env ideal_config t = true :=
  ⟨by decide, by decide, rfl, rfl, first_call_ABC_world,
   (((at_most_one_ack 2 zero_rand_env message_ABC ideal_config initial_world (by decide)
     (by decide) rfl rfl).2 true world_after_ABC first_call_ABC_world).2.2.2.1).mp rfl⟩

end SlidingWindow

namespace CrcAlgorithm

/-! ## The two CRC algorithms on concrete inputs -/

/-- C16, the code at failing inputs: for the one-byte input 0x01, `calculate_crc_bitwise`
and `calculate_crc_table` (with the table of `generate_crc_table`) return different values
under each of the four presets; for "A" under CRC-8 they return 0x41 and 0xC0. -/
theorem bitwise_and_table_disagree :
    calculate_crc_bitwise [0x41] 1 (CRC_PRESETS .CRC_8) = 0x41
      ∧ calculate_crc_table [0x41] 1 (CRC_PRESETS .CRC_8)
          (generate_crc_table (CRC_PRESETS .CRC_8)) = 0xC0
      ∧ calculate_crc_bitwise [0x01] 1 (CRC_PRESETS .CRC_8) = 0x01
      ∧ calculate_crc_table [0x01] 1 (CRC_PRESETS .CRC_8)
          (generate_crc_table (CRC_PRESETS .CRC_8)) = 0x07
      ∧ calculate_crc_bitwise [0x01] 1 (CRC_PRESETS .CRC_16) = 0x0100
      ∧ calculate_crc_table [0x01] 1 (CRC_PRESETS .CRC_16)
          (generate_crc_table (CRC_PRESETS .CRC_16)) = 0xA001
      ∧ calculate_crc_bitwise [0x01] 1 (CRC_PRESETS .CRC_16_CCITT) = 0xE1F1
      ∧ calculate_crc_table [0x01] 1 (CRC_PRESETS .CRC_16_CCITT)
          (generate_crc_table (CRC_PRESETS .CRC_16_CCITT)) = 0xF1D1
      ∧ calculate_crc_bitwise [0x01] 1 (CRC_PRESETS .CRC_32) = 0xD302EF8D
      ∧ calculate_crc_table [0x01] 1 (CRC_PRESETS .CRC_32)
          (generate_crc_table (CRC_PRESETS .CRC_32)) = 0x3FBA6CAD := by
  decide

/-- C17, the code at the failing input: with the CRC-32 preset and its generated table,
`calculate_crc_table` returns 0x1898913F for "123456789", not the check value 0xCBF43926,
although entry 1 of the table is the standard 0x77073096. -/
theorem crc32_check_value_missed :
    calculate_crc_table check_string 9 (CRC_PRESETS .CRC_32)
        (generate_crc_table (CRC_PRESETS .CRC_32)) = 0x1898913F
      ∧ calculate_crc_table check_string 9 (CRC_PRESETS .CRC_32)
        (generate_crc_table (CRC_PRESETS .CRC_32)) ≠ 0xCBF43926
      ∧ (generate_crc_table (CRC_PRESETS .CRC_32)).table.getD 1 0 = 0x77073096 := by
  decide

/-! ## Bit reversal -/

theorem u32_one_shift (n : Nat) (h : n < 32) : u32 (1 <<< n) = 2 ^ n := by
  have h1 : (2 : Nat) ^ n < 2 ^ 32 := Nat.pow_lt_pow_right (by decide) h
  simp only [u32, Nat.one_shiftLeft]
  exact Nat.mod_eq_of_lt (by simpa using h1)

theorem low_bit_set_iff (x i : Nat) : ((x >>> i) &&& 1 ≠ 0) ↔ x.testBit i = true := by
  simp only [Nat.testBit, Nat.and_comm (x >>> i) 1]
  simp

theorem reflect_fold_testBit (x width m j : Nat) (hw : width ≤ 32) (hm : m ≤ width) :
    ((List.range m).foldl
        (fun reflection i =>
          if (x >>> i) &&& 1 ≠ 0 then reflection ||| u32 (1 <<< (width - 1 - i))
          else reflection)
        0).testBit j
      = (decide (width - m ≤ j ∧ j < width) && x.testBit (width - 1 - j)) := by
  induction m with
  | zero =>
    have h0 : ¬ (width - 0 ≤ j ∧ j < width) := by omega
    rw [decide_eq_false h0]
    simp
  | succ m ih =>
    have ih1 := ih (by omega)
    rw [List.range_succ, List.foldl_append]
    simp only [List.foldl_cons, List.foldl_nil]
    have hsh : u32 (1 <<< (width - 1 - m)) = 2 ^ (width - 1 - m) :=
      u32_one_shift _ (by omega)
    by_cases hb : x.testBit m = true
    · have hc : (x >>> m) &&& 1 ≠ 0 := (low_bit_set_iff x m).mpr hb
      rw [if_pos hc, hsh, Nat.testBit_or, ih1, Nat.testBit_two_pow]
      by_cases hj : width - 1 - m = j
      · have hj1 : width - 1 - j = m := by omega
        have hj2 : width - (m + 1) ≤ j ∧ j < width := by omega
        rw [decide_eq_true hj2, decide_eq_true hj, hj1, hb]
        simp
      · by_cases hlo : width - m ≤ j ∧ j < width
        · have hj2 : width - (m + 1) ≤ j ∧ j < width := by omega
          rw [decide_eq_true hj2, decide_eq_true hlo, decide_eq_false hj]
          simp
        · have hj2 : ¬ (width - (m + 1) ≤ j ∧ j < width) := by omega
          rw [decide_eq_false hj2, decide_eq_false hlo, decide_eq_false hj]
          simp
    · have hc : ¬ ((x >>> m) &&& 1 ≠ 0) := fun h => hb ((low_bit_set_iff x m).mp h)
      rw [if_neg hc, ih1]
      by_cases hj : width - 1 - m = j
      · have hj1 : width - 1 - j = m := by omega
        have hb1 : x.testBit m = false := by simpa using hb
        rw [hj1, hb1]
        simp
      · by_cases hlo : width - m ≤ j ∧ j < width
        · have hj2 : width - (m + 1) ≤ j ∧ j < width := by omega
          rw [decide_eq_true hj2, decide_eq_true hlo]
        · have hj2 : ¬ (width - (m + 1) ≤ j ∧ j < width) := by omega
          rw [decide_eq_false hj2, decide_eq_false hlo]

theorem reflect_bits_testBit (x width j : Nat) (hw : width ≤ 32) :
    (reflect_bits x width).testBit j = (decide (j < width) && x.testBit (width - 1 - j)) := by
  have h := reflect_fold_testBit x width width j hw (Nat.le_refl width)
  simp only [Nat.sub_self, Nat.zero_le, true_and] at h
  exact h

theorem reflect_bits_involutive (x width : Nat) (hw : width ≤ 32) (hx : x < 2 ^ width) :
    reflect_bits (reflect_bits x width) width = x := by
  apply Nat.eq_of_testBit_eq
  intro j
  rw [reflect_bits_testBit _ width j hw]
  by_cases hj : j < width
  · have h1 : width - 1 - j < width := by omega
    have h2 : width - 1 - (width - 1 - j) = j := by omega
    rw [reflect_bits_testBit x width _ hw]
    simp [hj, h1, h2]
  · have h3 : x < 2 ^ j := Nat.lt_of_lt_of_le hx (Nat.pow_le_pow_right (by decide) (by omega))
    rw [Nat.testBit_lt_two_pow h3]
    simp [hj]

/-- C19. The function reflect_bits reverses the low width bits: for a width of 8, 16 or 32
and a value x below 2^width, bit i of the result is bit width-1-i of x for every i below
width, so reflecting twice gives x back; reflect_bits(0x01, 8) = 0x80,
reflect_bits(0x03, 8) = 0xC0 and reflect_bits(0x0001, 16) = 0x8000. -/
theorem reflect_bits_reverses (width x : Nat) (hw : width = 8 ∨ width = 16 ∨ width = 32)
    (hx : x < 2 ^ width) :
    (∀ i, i < width → (reflect_bits x width).testBit i = x.testBit (width - 1 - i))
      ∧ reflect_bits (reflect_bits x width) width = x
      ∧ reflect_bits 0x01 8 = 0x80 ∧ reflect_bits 0x03 8 = 0xC0
      ∧ reflect_bits 0x0001 16 = 0x8000 := by
  have hw32 : width ≤ 32 := by omega
  refine ⟨?_, reflect_bits_involutive x width hw32 hx, by decide, by decide, by decide⟩
  intro i hi
  rw [reflect_bits_testBit x width i hw32]
  simp [hi]

theorem reflect_bits_reverses_witness :
    (0xA5 : Nat) < 2 ^ 8
      ∧ (∀ i, i < 8 → (reflect_bits 0xA5 8).testBit i = (0xA5 : Nat).testBit (8 - 1 - i))
      ∧ reflect_bits (reflect_bits 0xA5 8) 8 = 0xA5
      ∧ reflect_bits 0x01 8 = 0x80 ∧ reflect_bits 0x03 8 = 0xC0
      ∧ reflect_bits 0x0001 16 = 0x8000 :=
  ⟨by decide, reflect_bits_reverses 8 0xA5 (Or.inl rfl) (by decide)⟩

/-! ## Single-bit errors under CRC-16 -/

end CrcAlgorithm

namespace TcpChat

/-! ## Initialisation of the chat client -/

theorem init_client_ignores_username (inet_pton : List Nat → Bool) (client : client_state_t)
    (server_ip : List Nat) (port : Int) (username : List Nat) :
    (init_client inet_pton client server_ip port username).1
      = (is_valid_port port && inet_pton server_ip) := by
  simp only [init_client, is_valid_ip]
  cases is_valid_port port <;> cases inet_pton server_ip <;> rfl

/-- C20, the code at the failing input: `init_client` with the valid address "127.0.0.1",
the valid port 8080 and the empty username returns true and stores the empty username; it
does return false for the address "invalid.ip" and for the port 70000. -/
theorem init_client_accepts_empty_username :
    (init_client dotted_quad zero_client localhost_ip 8080 []).1 = true
      ∧ (init_client dotted_quad zero_client localhost_ip 8080 []).2.username
          = List.replicate MAX_USERNAME_SIZE 0
      ∧ (init_client dotted_quad zero_client invalid_ip 8080 test_user).1 = false
      ∧ (init_client dotted_quad zero_client localhost_ip 70000 test_user).1 = false := by
  decide

/-! ## Messages of the chat -/

theorem c_string_no_nul (s : List Nat) : ∀ b ∈ c_string s, (b != 0) = true := by
  intro b hb
  have h : b ∈ s.takeWhile (fun b => b != 0) := hb
  exact List.mem_takeWhile_imp (p := fun b => b != 0) h

theorem c_string_terminated (s : List Nat) (k : Nat) (hs : ∀ b ∈ s, (b != 0) = true) :
    c_string (s ++ List.replicate k 0 ++ [0]) = s := by
  unfold c_string
  rw [List.append_assoc, List.takeWhile_append_of_pos hs]
  cases k with
  | zero => simp
  | succ k => simp [List.replicate_succ]

theorem strncpy_terminated (dst src : List Nat) (n : Nat) (hd : dst.length = n + 1) :
    (strncpy dst src n).set n 0
      = (c_string src).take n
          ++ List.replicate (n - ((c_string src).take n).length) 0 ++ [0] := by
  have hlen : ((c_string src).take n
      ++ List.replicate (n - ((c_string src).take n).length) 0).length = n := by
    rw [List.length_append, List.length_replicate]
    have : ((c_string src).take n).length ≤ n := by
      rw [List.length_take]
      exact Nat.min_le_left _ _
    omega
  have hdrop : (dst.drop n).length = 1 := by
    rw [List.length_drop, hd]
    omega
  obtain ⟨x, hx⟩ := List.length_eq_one.mp hdrop
  show ((((c_string src).take n
      ++ List.replicate (n - ((c_string src).take n).length) 0) ++ dst.drop n).take
        dst.length).set n 0 = _
  rw [hx, hd, List.take_of_length_le (by rw [List.length_append, hlen]; simp)]
  rw [List.set_append_right _ _ (by rw [hlen]), hlen, Nat.sub_self]
  rfl

theorem created_string (dst src : List Nat) (n : Nat) (hd : dst.length = n + 1) :
    c_string ((strncpy dst src n).set n 0) = (c_string src).take n := by
  rw [strncpy_terminated dst src n hd]
  apply c_string_terminated
  intro b hb
  exact c_string_no_nul src b (List.mem_of_mem_take hb)

/-- Claim C21.  Let the `username` and `content` arrays of the message object have their
sizes `MAX_USERNAME_SIZE` and `MAX_MESSAGE_SIZE`.  For every type in
`MSG_LOGIN..MSG_HEARTBEAT`, every non-empty username string and every content string, the
message built by `create_message` passes `validate_message`; the string in its `username`
array is the input string cut to its first `MAX_USERNAME_SIZE - 1` (31) bytes, the string in
its `content` array the input cut to its first `MAX_MESSAGE_SIZE - 1` (1023) bytes, and type,
client id and timestamp are the ones handed in.  And `validate_message` rejects every
message whose type lies outside the range or whose username is empty. -/
theorem created_message_valid (now : Int) (message : chat_message_t) (type : Int)
    (username content : List Nat) (client_id : Int)
    (hu : message.username.length = MAX_USERNAME_SIZE)
    (hc : message.content.length = MAX_MESSAGE_SIZE)
    (hlo : MSG_LOGIN ≤ type) (hhi : type ≤ MSG_HEARTBEAT) (hname : 1 ≤ strlen username) :
    validate_message (create_message now message type (some username) (some content)
        client_id) = true
      ∧ c_string (create_message now message type (some username) (some content)
          client_id).username = (c_string username).take (MAX_USERNAME_SIZE - 1)
      ∧ c_string (create_message now message type (some username) (some content)
          client_id).content = (c_string content).take (MAX_MESSAGE_SIZE - 1)
      ∧ MAX_USERNAME_SIZE - 1 = 31 ∧ MAX_MESSAGE_SIZE - 1 = 1023
      ∧ (create_message now message type (some username) (some content) client_id).type
          = type
      ∧ (create_message now message type (some username) (some content) client_id).client_id
          = client_id
      ∧ (create_message now message type (some username) (some content) client_id).timestamp
          = now
      ∧ ∀ m : chat_message_t,
          m.type < MSG_LOGIN ∨ m.type > MSG_HEARTBEAT ∨ strlen m.username = 0 →
            validate_message m = false := by
  have h1 : c_string ((strncpy message.username username (MAX_USERNAME_SIZE - 1)).set
      (MAX_USERNAME_SIZE - 1) 0) = (c_string username).take (MAX_USERNAME_SIZE - 1) :=
    created_string _ _ _ hu
  have h2 : c_string ((strncpy message.content content (MAX_MESSAGE_SIZE - 1)).set
      (MAX_MESSAGE_SIZE - 1) 0) = (c_string content).take (MAX_MESSAGE_SIZE - 1) :=
    created_string _ _ _ hc
  have hn : 1 ≤ (c_string username).length := hname
  refine ⟨?_, h1, h2, rfl, rfl, rfl, rfl, rfl, ?_⟩
  · have e1 : strlen ((strncpy message.username username (MAX_USERNAME_SIZE - 1)).set
        (MAX_USERNAME_SIZE - 1) 0) = min (MAX_USERNAME_SIZE - 1) (c_string username).length := by
      unfold strlen
      rw [h1, List.length_take]
    have e2 : strlen ((strncpy message.content content (MAX_MESSAGE_SIZE - 1)).set
        (MAX_MESSAGE_SIZE - 1) 0) = min (MAX_MESSAGE_SIZE - 1) (c_string content).length := by
      unfold strlen
      rw [h2, List.length_take]
    have n1 : MAX_USERNAME_SIZE = 32 := rfl
    have n2 : MAX_MESSAGE_SIZE = 1024 := rfl
    simp only [validate_message, create_message, e1, e2]
    rw [if_neg (by omega), if_neg (by rw [n1]; omega), if_neg (by rw [n2]; omega)]
  · intro m hm
    simp only [validate_message]
    rcases hm with hm | hm | hm
    · rw [if_pos (Or.inl hm)]
    · rw [if_pos (Or.inr hm)]
    · split_ifs <;> first | rfl | (exfalso; simp_all)

theorem created_message_valid_witness :
    zero_message.username.length = MAX_USERNAME_SIZE
      ∧ zero_message.content.length = MAX_MESSAGE_SIZE
      ∧ MSG_LOGIN ≤ 2 ∧ (2 : Int) ≤ MSG_HEARTBEAT ∧ 1 ≤ strlen test_user
      ∧ validate_message (create_message 1234567890 zero_message 2 (some test_user)
          (some hello_world) 1) = true :=
  ⟨List.length_replicate _ _, List.length_replicate _ _, by decide, by decide, by decide,
    (created_message_valid 1234567890 zero_message 2 test_user hello_world 1
      (List.length_replicate _ _) (List.length_replicate _ _) (by decide) (by decide)
      (by decide)).1⟩

end TcpChat

namespace UdpChat

/-! ## Message checksum -/

theorem checksum_fold (l : List Nat) (a : Nat) :
    l.foldl (fun checksum b => (checksum + b) % 4294967296) (a % 4294967296)
      = (a + l.sum) % 4294967296 := by
  induction l generalizing a with
  | nil => simp
  | cons b l ih =>
    simp only [List.foldl_cons, List.sum_cons]
    rw [ih]
    omega

theorem value_bytes_four (v : Nat) :
    value_bytes sizeof_unsigned_int v
      = [v % 256, v / 256 % 256, v / 65536 % 256, v / 16777216 % 256] := by
  simp [value_bytes, sizeof_unsigned_int, List.range_succ]

theorem value_bytes_zero : (value_bytes sizeof_unsigned_int 0).sum = 0 := by
  rw [value_bytes_four]
  rfl

theorem value_bytes_sum_pos (v : Nat) (h0 : v ≠ 0) (h : v < 4294967296) :
    0 < (value_bytes sizeof_unsigned_int v).sum
      ∧ (value_bytes sizeof_unsigned_int v).sum < 4294967296 := by
  rw [value_bytes_four]
  simp only [List.sum_cons, List.sum_nil]
  have e1 : v / 65536 = v / 256 / 256 := by rw [Nat.div_div_eq_div_mul]
  have e2 : v / 16777216 = v / 256 / 256 / 256 := by
    rw [Nat.div_div_eq_div_mul, Nat.div_div_eq_div_mul]
  rw [e1, e2]
  have hd : v / 256 / 256 / 256 < 256 := by omega
  rw [Nat.mod_eq_of_lt hd]
  constructor <;> omega

theorem message_bytes_take_lp64 (msg : chat_message_t)
    (hu : msg.username.length = MAX_USERNAME_SIZE)
    (hc : msg.content.length = MAX_MESSAGE_SIZE) :
    (message_bytes LP64 msg).take (sizeof_chat_message_t LP64 - sizeof_unsigned_int)
      = value_bytes sizeof_unsigned_int msg.type.toNat ++ msg.username ++ msg.content
          ++ List.replicate 4 0 ++ time_bytes LP64 msg.timestamp
          ++ value_bytes sizeof_unsigned_int msg.checksum := by
  have e1 : offsetof_timestamp LP64
      - (sizeof_unsigned_int + MAX_USERNAME_SIZE + MAX_MESSAGE_SIZE) = 4 := by decide
  have e2 : sizeof_chat_message_t LP64 - sizeof_unsigned_int = 1108 := by decide
  unfold message_bytes
  rw [e1, e2]
  apply List.take_left'
  simp [value_bytes, time_bytes, hu, hc, sizeof_unsigned_int, MAX_USERNAME_SIZE,
    MAX_MESSAGE_SIZE, LP64]

theorem message_bytes_take_ilp32 (msg : chat_message_t)
    (hu : msg.username.length = MAX_USERNAME_SIZE)
    (hc : msg.content.length = MAX_MESSAGE_SIZE) :
    (message_bytes ILP32 msg).take (sizeof_chat_message_t ILP32 - sizeof_unsigned_int)
      = value_bytes sizeof_unsigned_int msg.type.toNat ++ msg.username ++ msg.content
          ++ time_bytes ILP32 msg.timestamp := by
  have e1 : offsetof_timestamp ILP32
      - (sizeof_unsigned_int + MAX_USERNAME_SIZE + MAX_MESSAGE_SIZE) = 0 := by decide
  have e2 : sizeof_chat_message_t ILP32 - sizeof_unsigned_int = 1096 := by decide
  unfold message_bytes
  rw [e1, e2, List.replicate_zero, List.append_nil, List.append_assoc]
  apply List.take_left'
  simp [value_bytes, time_bytes, hu, hc, sizeof_unsigned_int, MAX_USERNAME_SIZE,
    MAX_MESSAGE_SIZE, ILP32]

/-- On LP64 the summed range ends behind the `checksum` member, so the member is part of
the sum. -/
theorem calculate_checksum_lp64 (msg : chat_message_t)
    (hu : msg.username.length = MAX_USERNAME_SIZE)
    (hc : msg.content.length = MAX_MESSAGE_SIZE) :
    calculate_checksum LP64 msg
      = ((value_bytes sizeof_unsigned_int msg.type.toNat).sum + msg.username.sum
          + msg.content.sum + (time_bytes LP64 msg.timestamp).sum
          + (value_bytes sizeof_unsigned_int msg.checksum).sum) % 4294967296 := by
  unfold calculate_checksum
  rw [message_bytes_take_lp64 msg hu hc]
  have h := checksum_fold (value_bytes sizeof_unsigned_int msg.type.toNat ++ msg.username
    ++ msg.content ++ List.replicate 4 0 ++ time_bytes LP64 msg.timestamp
    ++ value_bytes sizeof_unsigned_int msg.checksum) 0
  rw [Nat.zero_mod, Nat.zero_add] at h
  rw [h]
  simp only [List.sum_append, List.sum_replicate, smul_zero, Nat.add_zero]

/-- With a 4-byte `time_t` the summed range ends where the `checksum` member begins. -/
theorem calculate_checksum_ilp32 (msg : chat_message_t)
    (hu : msg.username.length = MAX_USERNAME_SIZE)
    (hc : msg.content.length = MAX_MESSAGE_SIZE) :
    calculate_checksum ILP32 msg
      = ((value_bytes sizeof_unsigned_int msg.type.toNat).sum + msg.username.sum
          + msg.content.sum + (time_bytes ILP32 msg.timestamp).sum) % 4294967296 := by
  unfold calculate_checksum
  rw [message_bytes_take_ilp32 msg hu hc]
  have h := checksum_fold (value_bytes sizeof_unsigned_int msg.type.toNat ++ msg.username
    ++ msg.content ++ time_bytes ILP32 msg.timestamp) 0
  rw [Nat.zero_mod, Nat.zero_add] at h
  rw [h]
  simp only [List.sum_append]

theorem test_message_lengths :
    test_message.username.length = MAX_USERNAME_SIZE
      ∧ test_message.content.length = MAX_MESSAGE_SIZE := by
  constructor
  · show (testuser ++ List.replicate (MAX_USERNAME_SIZE - 8) 0).length = MAX_USERNAME_SIZE
    rw [List.length_append, List.length_replicate]
    rfl
  · show (test_text ++ List.replicate (MAX_MESSAGE_SIZE - 12) 0).length = MAX_MESSAGE_SIZE
    rw [List.length_append, List.length_replicate]
    rfl

theorem time_bytes_test : (time_bytes LP64 1234567890).sum = 435 := by decide

theorem test_message_checksum : calculate_checksum LP64 test_message = 2553 := by
  rw [calculate_checksum_lp64 test_message test_message_lengths.1 test_message_lengths.2]
  have h1 : test_message.username.sum = 895 := by
    show (testuser ++ List.replicate (MAX_USERNAME_SIZE - 8) 0).sum = 895
    rw [List.sum_append, List.sum_replicate, smul_zero]
    rfl
  have h2 : test_message.content.sum = 1221 := by
    show (test_text ++ List.replicate (MAX_MESSAGE_SIZE - 12) 0).sum = 1221
    rw [List.sum_append, List.sum_replicate, smul_zero]
    rfl
  have h3 : (time_bytes LP64 test_message.timestamp).sum = 435 := time_bytes_test
  have h4 : (value_bytes sizeof_unsigned_int test_message.checksum).sum = 0 :=
    value_bytes_zero
  have h5 : (value_bytes sizeof_unsigned_int test_message.type.toNat).sum = 2 := by
    rw [value_bytes_four]
    rfl
  rw [h1, h2, h3, h4, h5]

/-- Claim C22 (refuted where `time_t` has 8 bytes).  On LP64 the struct ends with four
padding bytes, so the `sizeof(chat_message_t) - sizeof(msg->checksum)` bytes that
`calculate_checksum` sums contain the `checksum` member itself.  For every message whose
arrays have their sizes and whose checksum, computed while the member was zero, is not 0:
after the member is set to that checksum, `calculate_checksum` returns the checksum plus
the sum of its four bytes, and `verify_message_integrity` returns false.  With a 4-byte
`time_t` (ILP32) the member lies behind the summed bytes and the same message verifies. -/
theorem checksum_round_trip_fails (msg : chat_message_t)
    (hu : msg.username.length = MAX_USERNAME_SIZE)
    (hc : msg.content.length = MAX_MESSAGE_SIZE)
    (h0 : calculate_checksum LP64 { msg with checksum := 0 } ≠ 0) :
    verify_message_integrity LP64 (seal_message LP64 msg) = false
      ∧ calculate_checksum LP64 (seal_message LP64 msg)
          = (calculate_checksum LP64 { msg with checksum := 0 }
              + (value_bytes sizeof_unsigned_int
                  (calculate_checksum LP64 { msg with checksum := 0 })).sum) % 4294967296
      ∧ 0 < (value_bytes sizeof_unsigned_int
                (calculate_checksum LP64 { msg with checksum := 0 })).sum
      ∧ verify_message_integrity ILP32 (seal_message ILP32 msg) = true := by
  have hlt : calculate_checksum LP64 { msg with checksum := 0 } < 4294967296 := by
    rw [calculate_checksum_lp64 { msg with checksum := 0 } hu hc]
    exact Nat.mod_lt _ (by decide)
  have hb := value_bytes_sum_pos _ h0 hlt
  have e0 := calculate_checksum_lp64 { msg with checksum := 0 } hu hc
  have e1 := calculate_checksum_lp64 (seal_message LP64 msg) hu hc
  simp only [seal_message] at e1
  simp only [value_bytes_zero, Nat.add_zero] at e0
  have hsum : calculate_checksum LP64 (seal_message LP64 msg)
      = (calculate_checksum LP64 { msg with checksum := 0 }
          + (value_bytes sizeof_unsigned_int
              (calculate_checksum LP64 { msg with checksum := 0 })).sum) % 4294967296 := by
    simp only [seal_message]
    rw [e1]
    generalize (value_bytes sizeof_unsigned_int
      (calculate_checksum LP64 { msg with checksum := 0 })).sum = b
    rw [e0]
    omega
  refine ⟨?_, hsum, hb.1, ?_⟩
  · have hne : calculate_checksum LP64 (seal_message LP64 msg)
        ≠ calculate_checksum LP64 { msg with checksum := 0 } := by
      rw [hsum]
      omega
    simpa [verify_message_integrity, seal_message] using hne
  · have i0 := calculate_checksum_ilp32 { msg with checksum := 0 } hu hc
    have i1 := calculate_checksum_ilp32 (seal_message ILP32 msg) hu hc
    simp only [seal_message] at i1
    simp only [verify_message_integrity, seal_message, beq_iff_eq]
    rw [i1, i0]

theorem checksum_round_trip_fails_witness :
    test_message.username.length = MAX_USERNAME_SIZE
      ∧ test_message.content.length = MAX_MESSAGE_SIZE
      ∧ calculate_checksum LP64 { test_message with checksum := 0 } = 2553
      ∧ verify_message_integrity LP64 (seal_message LP64 test_message) = false :=
  ⟨test_message_lengths.1, test_message_lengths.2, test_message_checksum,
    (checksum_round_trip_fails test_message test_message_lengths.1 test_message_lengths.2
      (by
        rw [show ({ test_message with checksum := 0 } : chat_message_t) = test_message
          from rfl, test_message_checksum]
        decide)).1⟩

/-! ## Client table -/

theorem find_fresh (n : Nat) (p : Nat → Bool) (h : ∀ i, i < n → p i = false) :
    (List.range n).find? p = none := by
  rw [List.find?_eq_none]
  intro i hi
  rw [h i (List.mem_range.mp hi)]
  decide

theorem find_found (n i : Nat) (p : Nat → Bool) (h : (List.range n).find? p = some i) :
    i < n ∧ p i = true :=
  ⟨List.mem_range.mp (List.mem_of_find?_eq_some h), List.find?_some h⟩

theorem server_find_client_bound (server : server_state_t) (client_addr : sockaddr_in)
    (i : Nat) (h : server_find_client server client_addr = some i) :
    i < server.client_count.toNat
      ∧ compare_addresses (client_at server i).address client_addr = true :=
  find_found _ _ _ h

theorem server_add_client_full (now : Int) (server : server_state_t)
    (client_addr : sockaddr_in) (username : List Nat)
    (h : ¬ server.client_count < MAX_CLIENTS) :
    server_add_client now server client_addr username = (-1, server) := by
  unfold server_add_client
  rw [if_pos (by omega)]

theorem server_add_client_invalid (now : Int) (server : server_state_t)
    (client_addr : sockaddr_in) (username : List Nat)
    (h : is_valid_username username = false) :
    server_add_client now server client_addr username = (-1, server) := by
  unfold server_add_client
  split_ifs with h1 h2
  · rfl
  · rfl
  · rw [h] at h2
    exact absurd rfl h2

theorem server_add_client_new (now : Int) (server : server_state_t)
    (client_addr : sockaddr_in) (username : List Nat)
    (hc : server.client_count < MAX_CLIENTS) (hv : is_valid_username username = true)
    (hf : server_find_client server client_addr = none) :
    server_add_client now server client_addr username
      = (0, { clients := server.clients.set server.client_count.toNat
                { address := client_addr,
                  username := (TcpChat.strncpy
                    (client_at server server.client_count.toNat).username username
                    (MAX_USERNAME_SIZE - 1)).set (MAX_USERNAME_SIZE - 1) 0,
                  last_activity := now,
                  is_active := true },
              client_count := server.client_count + 1 }) := by
  unfold server_add_client
  rw [if_neg (by omega), hv, hf]
  rfl

theorem server_add_client_known (now : Int) (server : server_state_t)
    (client_addr : sockaddr_in) (username : List Nat) (i : Nat)
    (hc : server.client_count < MAX_CLIENTS) (hv : is_valid_username username = true)
    (hf : server_find_client server client_addr = some i) :
    server_add_client now server client_addr username
      = (0, { server with
              clients := server.clients.set i
                { client_at server i with
                  username := (TcpChat.strncpy (client_at server i).username username
                    (MAX_USERNAME_SIZE - 1)).set (MAX_USERNAME_SIZE - 1) 0,
                  last_activity := now,
                  is_active := true } }) := by
  unfold server_add_client
  rw [if_neg (by omega), hv, hf]
  rfl

theorem server_remove_client_absent (server : server_state_t) (client_addr : sockaddr_in)
    (hf : server_find_client server client_addr = none) :
    server_remove_client server client_addr = (-1, server) := by
  unfold server_find_client at hf
  unfold server_remove_client
  rw [hf]

theorem stored_name_length (dst username : List Nat)
    (hd : dst.length = MAX_USERNAME_SIZE) :
    ((TcpChat.strncpy dst username (MAX_USERNAME_SIZE - 1)).set (MAX_USERNAME_SIZE - 1)
      0).length = MAX_USERNAME_SIZE := by
  rw [TcpChat.strncpy_terminated dst username (MAX_USERNAME_SIZE - 1) hd]
  have h : ((TcpChat.c_string username).take (MAX_USERNAME_SIZE - 1)).length
      ≤ MAX_USERNAME_SIZE - 1 := by
    rw [List.length_take]
    exact Nat.min_le_left _ _
  rw [List.length_append, List.length_append, List.length_replicate]
  have n : MAX_USERNAME_SIZE = 64 := rfl
  simp only [List.length_singleton]
  omega

theorem stored_name (dst username : List Nat) (hd : dst.length = MAX_USERNAME_SIZE)
    (hv : is_valid_username username = true) :
    TcpChat.c_string ((TcpChat.strncpy dst username (MAX_USERNAME_SIZE - 1)).set
      (MAX_USERNAME_SIZE - 1) 0) = TcpChat.c_string username := by
  rw [TcpChat.created_string dst username (MAX_USERNAME_SIZE - 1) hd]
  apply List.take_of_length_le
  unfold is_valid_username at hv
  have n : MAX_USERNAME_SIZE = 64 := rfl
  split_ifs at hv with h1
  have h2 : TcpChat.strlen username = (TcpChat.c_string username).length := rfl
  omega

theorem client_at_mem (server : server_state_t) (i : Nat) (h : i < server.clients.length) :
    client_at server i ∈ server.clients := by
  unfold client_at
  rw [List.getD_eq_getElem _ _ h]
  exact List.getElem_mem h

theorem client_at_name (server : server_state_t) (i : Nat)
    (h : ∀ c ∈ server.clients, c.username.length = MAX_USERNAME_SIZE) :
    (client_at server i).username.length = MAX_USERNAME_SIZE := by
  by_cases hi : i < server.clients.length
  · exact h _ (client_at_mem server i hi)
  · unfold client_at
    rw [List.getD_eq_default _ _ (by omega)]
    exact List.length_replicate _ _

theorem set_names (clients : List client_info_t) (i : Nat) (c : client_info_t)
    (h : ∀ x ∈ clients, x.username.length = MAX_USERNAME_SIZE)
    (hc : c.username.length = MAX_USERNAME_SIZE) :
    ∀ x ∈ clients.set i c, x.username.length = MAX_USERNAME_SIZE := by
  intro x hx
  rcases List.mem_or_eq_of_mem_set hx with hx | hx
  · exact h x hx
  · rw [hx]
    exact hc

theorem server_add_client_invariant (now : Int) (server : server_state_t)
    (client_addr : sockaddr_in) (username : List Nat) (h : table_invariant server) :
    table_invariant (server_add_client now server client_addr username).2 := by
  obtain ⟨hlen, hnames, hlo, hhi⟩ := h
  by_cases hc : server.client_count < MAX_CLIENTS
  · cases hv : is_valid_username username with
    | false =>
      rw [server_add_client_invalid now server client_addr username hv]
      exact ⟨hlen, hnames, hlo, hhi⟩
    | true =>
      cases hf : server_find_client server client_addr with
      | none =>
        rw [server_add_client_new now server client_addr username hc hv hf]
        refine ⟨?_, ?_, ?_, ?_⟩
        · simp only [List.length_set]
          exact hlen
        · exact set_names _ _ _ hnames
            (stored_name_length _ _ (client_at_name server _ hnames))
        · show 0 ≤ server.client_count + 1
          omega
        · show server.client_count + 1 ≤ MAX_CLIENTS
          omega
      | some i =>
        rw [server_add_client_known now server client_addr username i hc hv hf]
        refine ⟨?_, ?_, hlo, hhi⟩
        · simp only [List.length_set]
          exact hlen
        · exact set_names _ _ _ hnames
            (stored_name_length _ _ (client_at_name server _ hnames))
  · rw [server_add_client_full now server client_addr username hc]
    exact ⟨hlen, hnames, hlo, hhi⟩

theorem shift_invariant (l : List Nat) (clients : List client_info_t)
    (hnames : ∀ c ∈ clients, c.username.length = MAX_USERNAME_SIZE) :
    (l.foldl (fun clients j => clients.set j (clients.getD (j + 1) zero_client_info))
        clients).length = clients.length
      ∧ ∀ c ∈ l.foldl
          (fun clients j => clients.set j (clients.getD (j + 1) zero_client_info)) clients,
          c.username.length = MAX_USERNAME_SIZE := by
  induction l generalizing clients with
  | nil => exact ⟨rfl, hnames⟩
  | cons j l ih =>
    simp only [List.foldl_cons]
    have hstep : ∀ c ∈ clients.set j (clients.getD (j + 1) zero_client_info),
        c.username.length = MAX_USERNAME_SIZE := by
      apply set_names _ _ _ hnames
      by_cases hj : j + 1 < clients.length
      · rw [List.getD_eq_getElem _ _ hj]
        exact hnames _ (List.getElem_mem hj)
      · rw [List.getD_eq_default _ _ (by omega)]
        exact List.length_replicate _ _
    have h := ih _ hstep
    refine ⟨?_, h.2⟩
    rw [h.1, List.length_set]

theorem server_remove_client_invariant (server : server_state_t)
    (client_addr : sockaddr_in) (h : table_invariant server) :
    table_invariant (server_remove_client server client_addr).2 := by
  obtain ⟨hlen, hnames, hlo, hhi⟩ := h
  cases hf : server_find_client server client_addr with
  | none =>
    rw [server_remove_client_absent server client_addr hf]
    exact ⟨hlen, hnames, hlo, hhi⟩
  | some i =>
    have hb := (server_find_client_bound server client_addr i hf).1
    unfold server_find_client at hf
    unfold server_remove_client
    rw [hf]
    have hs := shift_invariant (List.range' i (server.client_count.toNat - 1 - i))
      server.clients hnames
    refine ⟨?_, hs.2, ?_, ?_⟩
    · exact hs.1.trans hlen
    · show 0 ≤ server.client_count - 1
      omega
    · show server.client_count - 1 ≤ MAX_CLIENTS
      omega

theorem server_remove_client_found (server : server_state_t) (client_addr : sockaddr_in)
    (i : Nat) (hf : server_find_client server client_addr = some i) :
    (server_remove_client server client_addr).1 = 0
      ∧ (server_remove_client server client_addr).2.client_count
          = server.client_count - 1 := by
  unfold server_find_client at hf
  unfold server_remove_client
  rw [hf]
  exact ⟨rfl, rfl⟩

theorem add_clients_invariant (now : Int) (requests : List (sockaddr_in × List Nat)) :
    ∀ server : server_state_t, table_invariant server →
      table_invariant (add_clients now server requests).2 := by
  induction requests with
  | nil =>
    intro server h
    exact h
  | cons request rest ih =>
    intro server h
    exact ih _ (server_add_client_invariant now server request.1 request.2 h)

theorem empty_server_invariant : table_invariant empty_server := by
  refine ⟨List.length_replicate _ _, ?_, by decide, by decide⟩
  intro c hc
  rw [List.eq_of_mem_replicate hc]
  exact List.length_replicate _ _

theorem getD_set_self (clients : List client_info_t) (k : Nat) (c : client_info_t)
    (h : k < clients.length) : (clients.set k c).getD k zero_client_info = c := by
  rw [List.getD_eq_getElem _ _ (by rw [List.length_set]; exact h)]
  exact List.getElem_set_self _

theorem getD_set_other (clients : List client_info_t) (k i : Nat) (c : client_info_t)
    (h : i ≠ k) :
    (clients.set k c).getD i zero_client_info = clients.getD i zero_client_info := by
  rw [List.getD_eq_getElem?_getD, List.getD_eq_getElem?_getD,
    List.getElem?_set_ne (fun e => h e.symm)]

theorem add_clients_fresh (now : Int) (requests : List (sockaddr_in × List Nat)) :
    ∀ server : server_state_t, table_invariant server →
      (∀ r ∈ requests, is_valid_username r.2 = true) →
      requests.Pairwise (fun a b => compare_addresses a.1 b.1 = false) →
      (∀ r ∈ requests, ∀ i, i < server.client_count.toNat →
        compare_addresses (client_at server i).address r.1 = false) →
      (add_clients now server requests).1
          = min requests.length (MAX_CLIENTS - server.client_count.toNat)
        ∧ (add_clients now server requests).2.client_count
          = server.client_count
            + ((min requests.length (MAX_CLIENTS - server.client_count.toNat) : Nat) : Int) := by
  induction requests with
  | nil =>
    intro server _ _ _ _
    simp [add_clients]
  | cons request rest ih =>
    intro server hinv hvalid hpair hfresh
    have hv : is_valid_username request.2 = true := hvalid request (List.mem_cons_self _ _)
    rw [List.pairwise_cons] at hpair
    by_cases hc : server.client_count < MAX_CLIENTS
    · have hf : server_find_client server request.1 = none :=
        find_fresh _ _ (fun i hi => hfresh request (List.mem_cons_self _ _) i hi)
      have hnew := server_add_client_new now server request.1 request.2 hc hv hf
      have hinv1 := server_add_client_invariant now server request.1 request.2 hinv
      obtain ⟨hlen, _, hlo, _⟩ := hinv
      have hk : server.client_count.toNat < server.clients.length := by
        rw [hlen]
        omega
      have h := ih (server_add_client now server request.1 request.2).2 hinv1
        (fun r hr => hvalid r (List.mem_cons_of_mem _ hr)) hpair.2
        (by
          rw [hnew]
          intro r hr i hi
          have hi1 : i < (server.client_count + 1).toNat := hi
          by_cases hik : i = server.client_count.toNat
          · unfold client_at
            rw [hik]
            simp only []
            rw [getD_set_self _ _ _ hk]
            exact hpair.1 r hr
          · unfold client_at
            simp only []
            rw [getD_set_other _ _ _ _ hik]
            exact hfresh r (List.mem_cons_of_mem _ hr) i (by omega))
      have hcount : (server_add_client now server request.1 request.2).2.client_count
          = server.client_count + 1 := by
        rw [hnew]
      have hres : (server_add_client now server request.1 request.2).1 = 0 := by
        rw [hnew]
      simp only [add_clients, hres, if_true, List.length_cons]
      rw [h.1, h.2, hcount]
      have hm : (MAX_CLIENTS : Int) = 10 := rfl
      have hn : MAX_CLIENTS = 10 := rfl
      constructor <;> omega
    · have hfull := server_add_client_full now server request.1 request.2 hc
      have h := ih server hinv (fun r hr => hvalid r (List.mem_cons_of_mem _ hr)) hpair.2
        (fun r hr => hfresh r (List.mem_cons_of_mem _ hr))
      simp only [add_clients, hfull, List.length_cons]
      rw [h.1, h.2]
      have hm : (MAX_CLIENTS : Int) = 10 := rfl
      have hn : MAX_CLIENTS = 10 := rfl
      rw [if_neg (by decide)]
      constructor <;> omega

theorem add_clients_empty (now : Int) (requests : List (sockaddr_in × List Nat))
    (hvalid : ∀ r ∈ requests, is_valid_username r.2 = true)
    (hpair : requests.Pairwise (fun a b => compare_addresses a.1 b.1 = false)) :
    (add_clients now empty_server requests).1 = min requests.length MAX_CLIENTS
      ∧ (add_clients now empty_server requests).2.client_count
          = ((min requests.length MAX_CLIENTS : Nat) : Int) := by
  have h := add_clients_fresh now requests empty_server empty_server_invariant hvalid hpair
    (fun r _ i hi => absurd hi (Nat.not_lt_zero i))
  have e : empty_server.client_count = 0 := rfl
  rw [e] at h
  simpa using h

set_option maxRecDepth 100000 in
/-- Counterexample to claim C23 as stated.  The table is full after the loop of
`test_boundary_conditions`; the address with port 20003 is in it, at index 3, under the
name "user".  A call of `server_add_client` from that address with the valid username
"guest" returns -1 and leaves the table as it was: the username is not replaced. -/
theorem known_address_rejected_when_full :
    full_server.client_count = MAX_CLIENTS
      ∧ server_find_client full_server (local_address 20003) = some 3
      ∧ is_valid_username guest_name = true
      ∧ server_add_client 1 full_server (local_address 20003) guest_name = (-1, full_server)
      ∧ TcpChat.c_string (client_at (server_add_client 1 full_server (local_address 20003)
          guest_name).2 3).username = user_name := by
  decide

/-- Claim C23, amended.  For a table of the right shape (`table_invariant`: `MAX_CLIENTS`
entries, `0 <= client_count <= MAX_CLIENTS`): `server_add_client` and
`server_remove_client` keep that shape.  A valid username from an address not in the table
is accepted exactly when `client_count < MAX_CLIENTS`; the call then returns 0, increments
`client_count` and stores address and name in the next entry, and otherwise returns -1 and
changes nothing.  A valid username from an address already in the table, at index `i`, is
stored only when `client_count < MAX_CLIENTS`: the call then returns 0, replaces the
username of entry `i`, sets its `last_activity` to the current time and `is_active` to true,
and changes nothing else, `client_count` included; when the table is full the call returns
-1 and changes nothing.  `server_remove_client` returns -1 with the table unchanged for an
address that is not present.  From the empty table, requests with valid usernames from
pairwise different addresses are accepted until the table is full: of `n` requests
`min n MAX_CLIENTS` are accepted, and `client_count` ends at that number. -/
theorem client_table_contract (now : Int) (server : server_state_t)
    (client_addr : sockaddr_in) (username : List Nat) (h : table_invariant server) :
    (table_invariant (server_add_client now server client_addr username).2
        ∧ table_invariant (server_remove_client server client_addr).2)
      ∧ (is_valid_username username = true →
          server_find_client server client_addr = none →
            ((server_add_client now server client_addr username).1 = 0
                ↔ server.client_count < MAX_CLIENTS)
              ∧ (server.client_count < MAX_CLIENTS →
                  (server_add_client now server client_addr username).2.client_count
                      = server.client_count + 1
                    ∧ (client_at (server_add_client now server client_addr username).2
                        server.client_count.toNat).address = client_addr
                    ∧ TcpChat.c_string
                        (client_at (server_add_client now server client_addr username).2
                          server.client_count.toNat).username = TcpChat.c_string username)
              ∧ (¬ server.client_count < MAX_CLIENTS →
                  server_add_client now server client_addr username = (-1, server)))
      ∧ (is_valid_username username = true →
          ∀ i, server_find_client server client_addr = some i →
            (server.client_count < MAX_CLIENTS →
                server_add_client now server client_addr username
                    = (0, { server with
                            clients := server.clients.set i
                              { client_at server i with
                                username := (TcpChat.strncpy (client_at server i).username
                                  username (MAX_USERNAME_SIZE - 1)).set
                                  (MAX_USERNAME_SIZE - 1) 0,
                                last_activity := now,
                                is_active := true } })
                  ∧ TcpChat.c_string ((TcpChat.strncpy (client_at server i).username
                      username (MAX_USERNAME_SIZE - 1)).set (MAX_USERNAME_SIZE - 1) 0)
                    = TcpChat.c_string username)
              ∧ (¬ server.client_count < MAX_CLIENTS →
                  server_add_client now server client_addr username = (-1, server)))
      ∧ (server_find_client server client_addr = none →
          server_remove_client server client_addr = (-1, server))
      ∧ ∀ requests : List (sockaddr_in × List Nat),
          (∀ r ∈ requests, is_valid_username r.2 = true) →
          requests.Pairwise (fun a b => compare_addresses a.1 b.1 = false) →
            (add_clients now empty_server requests).1 = min requests.length MAX_CLIENTS
              ∧ (add_clients now empty_server requests).2.client_count
                  = ((min requests.length MAX_CLIENTS : Nat) : Int) := by
  refine ⟨⟨server_add_client_invariant now server client_addr username h,
    server_remove_client_invariant server client_addr h⟩, ?_, ?_,
    server_remove_client_absent server client_addr, add_clients_empty now⟩
  · intro hv hf
    obtain ⟨hlen, hnames, hlo, hhi⟩ := h
    refine ⟨?_, ?_, server_add_client_full now server client_addr username⟩
    · constructor
      · intro h0
        by_contra hc
        rw [server_add_client_full now server client_addr username hc] at h0
        exact absurd h0 (show ¬ ((-1 : Int) = 0) by decide)
      · intro hc
        rw [server_add_client_new now server client_addr username hc hv hf]
    · intro hc
      have hk : server.client_count.toNat < server.clients.length := by
        rw [hlen]
        omega
      rw [server_add_client_new now server client_addr username hc hv hf]
      refine ⟨rfl, ?_, ?_⟩
      · unfold client_at
        simp only []
        rw [getD_set_self _ _ _ hk]
      · unfold client_at
        simp only []
        rw [getD_set_self _ _ _ hk]
        exact stored_name _ _ (client_at_name server _ hnames) hv
  · intro hv i hf
    obtain ⟨hlen, hnames, hlo, hhi⟩ := h
    exact ⟨fun hc => ⟨server_add_client_known now server client_addr username i hc hv hf,
        stored_name _ _ (client_at_name server _ hnames) hv⟩,
      server_add_client_full now server client_addr username⟩

theorem client_table_contract_witness :
    table_invariant empty_server
      ∧ table_invariant (server_add_client 0 empty_server (local_address 20000)
          user_name).2
      ∧ (add_clients 0 empty_server boundary_requests).1
          = min boundary_requests.length MAX_CLIENTS :=
  ⟨empty_server_invariant,
    (client_table_contract 0 empty_server (local_address 20000) user_name
      empty_server_invariant).1.1,
    ((client_table_contract 0 empty_server (local_address 20000) user_name
      empty_server_invariant).2.2.2.2 boundary_requests (by decide) (by decide)).1⟩

end UdpChat
